import Mathlib

/-! CRUD statement builders of `mysqlxtest/mysqlx_crud.cc`

A shallow embedding of the statement builders (Find, Add, Remove, Modify for collections;
Select, Insert, Update, Delete for tables), of the schema registry and of `execute()`,
followed by `get_mysqlx_home_path` of `utils/utils_file.cc` (namespace `shcore`).

Conventions of the embedding.

* A protobuf message is a structure with the fields the builders write or read; an optional
  field is an `Option` (`none` = not set), a repeated field is a `List`.
  `mutable_x()->set_y(v)` creates `x` when it is absent.
* `uint64_t` arguments (limit, skip, offset) are natural numbers; they are stored and never
  computed with.
* The builders of one family (`Find_Base`, `Find_Skip`, ..., `FindStatement`) add no data
  member to their base class, so one structure per family carries `m_coll`/`m_table` and the
  message; each method lives in the namespace of the class that defines it.
* A C++ function that can throw returns an `Outcome` (or an `Except` when it is a constructor):
  the state left behind by the exception is part of the result.
* The parser, the transport and the protobuf-generated completeness check are not part of
  `mysqlx_crud.cc`; they are parameters (`Parser`, `Connection`, `Generated`).
-/

set_option linter.dupNamespace false

namespace Mysqlx

namespace Datatypes

/-- Bit pattern of a C++ `double`; values are only copied, never computed with. -/
structure F64 where
  bits : Nat
deriving DecidableEq, Repr

/-- Bit pattern of a C++ `float`; values are only copied, never computed with. -/
structure F32 where
  bits : Nat
deriving DecidableEq, Repr

/-- The enum Mysqlx::Datatypes::Scalar::Type, restricted to the tags used by the sources. -/
inductive Scalar_Type
  | V_SINT | V_UINT | V_NULL | V_OCTETS | V_DOUBLE | V_FLOAT | V_BOOL | V_STRING
deriving DecidableEq, Repr

/-- The message Mysqlx::Datatypes::Scalar. -/
structure Scalar where
  type : Option Scalar_Type := none
  v_signed_int : Option Int := none
  v_unsigned_int : Option Nat := none
  v_opaque : Option String := none
  v_double : Option F64 := none
  v_float : Option F32 := none
  v_bool : Option Bool := none
  v_string : Option String := none
deriving DecidableEq, Repr

/-- The enum Mysqlx::Datatypes::Any::Type; SCALAR is the only tag the builders write. -/
inductive Any_Type
  | SCALAR | OBJECT | ARRAY
deriving DecidableEq, Repr

/-- The message Mysqlx::Datatypes::Any. -/
structure Any where
  type : Option Any_Type := none
  scalar : Option Scalar := none
deriving DecidableEq, Repr

end Datatypes

namespace Expr

/-- The message Mysqlx::Expr::DocumentPathItem.  The builders never look inside an item, they
only copy the one the parser produced; its content is carried as one text. -/
structure DocumentPathItem where
  text : String
deriving DecidableEq, Repr

/-- The message Mysqlx::Expr::ColumnIdentifier. -/
structure ColumnIdentifier where
  document_path : List DocumentPathItem := []
  name : Option String := none
deriving DecidableEq, Repr

/-- The enum Mysqlx::Expr::Expr::Type; LITERAL is the only tag the builders write. -/
inductive Expr_Type
  | IDENT | LITERAL | VARIABLE | FUNC_CALL | OPERATOR
deriving DecidableEq, Repr

/-- The message Mysqlx::Expr::Expr.  The builders write only `type` and `constant`; every
other field (identifier, operator, function call, ...) is written by the parser alone and is
carried as one uninterpreted `tree`. -/
structure Expr where
  type : Option Expr_Type := none
  constant : Option Datatypes.Any := none
  tree : String := ""
deriving DecidableEq, Repr

end Expr

namespace Crud

/-- The enum Mysqlx::Crud::DataModel. -/
inductive DataModel
  | DOCUMENT | TABLE
deriving DecidableEq, Repr

/-- The message Mysqlx::Crud::Collection: the locator of a statement. -/
structure Collection where
  schema : Option String := none
  name : Option String := none
deriving DecidableEq, Repr

/-- The message Mysqlx::Crud::Limit. -/
structure Limit where
  row_count : Option Nat := none
  offset : Option Nat := none
deriving DecidableEq, Repr

/-- The message Mysqlx::Crud::Projection, as filled by the column-list parsers; the builders
read `target_path` only. -/
structure Projection where
  target_path : List Expr.DocumentPathItem := []
  target_alias : Option String := none
deriving DecidableEq, Repr

/-- The message Mysqlx::Crud::Column (projection of an Insert). -/
structure Column where
  name : Option String := none
deriving DecidableEq, Repr

/-- The enum Mysqlx::Crud::UpdateOperation::UpdateType, restricted to the kinds the sources use. -/
inductive UpdateOperation_UpdateType
  | SET | ITEM_REMOVE | ITEM_SET | ITEM_REPLACE | ARRAY_APPEND
deriving DecidableEq, Repr

/-- The message Mysqlx::Crud::UpdateOperation. -/
structure UpdateOperation where
  source : Option Expr.ColumnIdentifier := none
  operation : Option UpdateOperation_UpdateType := none
  value : Option Expr.Expr := none
deriving DecidableEq, Repr

/-- The message Mysqlx::Crud::Insert::TypedRow. -/
structure Insert_TypedRow where
  field : List Datatypes.Any := []
deriving DecidableEq, Repr

/-- The message Mysqlx::Crud::Find. -/
structure Find where
  collection : Option Collection := none
  data_model : Option DataModel := none
  projection : List Projection := []
  criteria : Option Expr.Expr := none
  limit : Option Limit := none
deriving DecidableEq, Repr

/-- The message Mysqlx::Crud::Insert. -/
structure Insert where
  collection : Option Collection := none
  data_model : Option DataModel := none
  projection : List Column := []
  row : List Insert_TypedRow := []
deriving DecidableEq, Repr

/-- The message Mysqlx::Crud::Update. -/
structure Update where
  collection : Option Collection := none
  data_model : Option DataModel := none
  criteria : Option Expr.Expr := none
  limit : Option Limit := none
  operation : List UpdateOperation := []
deriving DecidableEq, Repr

/-- The message Mysqlx::Crud::Delete. -/
structure Delete where
  collection : Option Collection := none
  data_model : Option DataModel := none
  criteria : Option Expr.Expr := none
  limit : Option Limit := none
deriving DecidableEq, Repr

/-- The call `mutable_collection()->set_schema(s)`. -/
def Collection.set_schema (c : Option Collection) (s : String) : Option Collection :=
  some { c.getD {} with schema := some s }

/-- The call `mutable_collection()->set_name(s)`. -/
def Collection.set_name (c : Option Collection) (s : String) : Option Collection :=
  some { c.getD {} with name := some s }

/-- The call `mutable_limit()->set_row_count(n)`. -/
def Limit.set_row_count (l : Option Limit) (n : Nat) : Option Limit :=
  some { l.getD {} with row_count := some n }

/-- The call `mutable_limit()->set_offset(n)`. -/
def Limit.set_offset (l : Option Limit) (n : Nat) : Option Limit :=
  some { l.getD {} with offset := some n }

end Crud

end Mysqlx

namespace mysqlx

open Mysqlx

/-! ## Errors and outcomes -/

/-- The exceptions that leave the functions of this file.  `out_of_range` stands for an
out-of-bounds `Get(0)` on a repeated field. -/
inductive Error
  | logic_error (what : String)
  | parser_error (what : String)
  | transport_error (what : String)
  | out_of_range
deriving DecidableEq, Repr

/-- Result of a member function that mutates the message behind `*this`: it either returns
`*this` or throws, and in both cases leaves a state behind. -/
inductive Outcome (σ : Type)
  | returned (s : σ)
  | thrown (e : Error) (s : σ)
deriving DecidableEq, Repr

/-- The state left behind by a call, whether it returned or threw. -/
def Outcome.state {σ : Type} : Outcome σ → σ
  | .returned s => s
  | .thrown _ s => s

/-! ## Collaborators that are not part of mysqlx_crud.cc -/

/-- The functions of mysqlx_parser.h used by the builders.  A parser that fills a list passed
by reference gets the list as it stands and leaves a list behind, also when it throws. -/
structure Parser where
  parse_collection_filter : String → Except Error Expr.Expr
  parse_table_filter : String → Except Error Expr.Expr
  parse_collection_column_list_with_alias :
    List Crud.Projection → String → Outcome (List Crud.Projection)
  parse_table_column_list_with_alias :
    List Crud.Projection → String → Outcome (List Crud.Projection)
  parse_collection_column_list :
    List Crud.Projection → String → Outcome (List Crud.Projection)
  Expr_parser_expr : String → Bool → Except Error Expr.Expr

/-- The members `IsInitialized()` and `InitializationErrorString()` that protobuf generates
for the four messages (mysqlx_crud.pb.h, not among the sources): parameters of `execute()`. -/
structure Generated where
  Find_IsInitialized : Crud.Find → Bool
  Find_InitializationErrorString : Crud.Find → String
  Insert_IsInitialized : Crud.Insert → Bool
  Insert_InitializationErrorString : Crud.Insert → String
  Update_IsInitialized : Crud.Update → Bool
  Update_InitializationErrorString : Crud.Update → String
  Delete_IsInitialized : Crud.Delete → Bool
  Delete_InitializationErrorString : Crud.Delete → String

/-- A pending result, as returned by the connection. -/
structure Result where
  id : Nat
deriving DecidableEq, Repr

/-- The connection of a session.  Each call may throw. -/
structure Connection where
  execute_find : Crud.Find → Except Error Result
  execute_insert : Crud.Insert → Except Error Result
  execute_update : Crud.Update → Except Error Result
  execute_delete : Crud.Delete → Except Error Result

/-- The transport: the connection of each session (`session->connection()`) and
`Result::wait`. -/
structure Transport where
  connection : Nat → Connection
  wait : Result → Except Error Unit

/-- What a call of `execute()` does to the outside world, in order.  The first component of
a send is the session whose connection is used. -/
inductive Event
  | execute_find (session : Nat) (m : Crud.Find)
  | execute_insert (session : Nat) (m : Crud.Insert)
  | execute_update (session : Nat) (m : Crud.Update)
  | execute_delete (session : Nat) (m : Crud.Delete)
  | wait (r : Result)
deriving DecidableEq, Repr

/-- Whether the event hands a message to the transport. -/
def Event.isSend : Event → Bool
  | .wait _ => false
  | _ => true

/-- Result of `execute()`: the returned pending result or the exception, and the calls made
on the transport. -/
structure Executed where
  result : Except Error Result
  events : List Event

/-! ## Schema, Table, Collection -/

/-- A `boost::shared_ptr<T>`: the address of the pointee and the members of the pointee
that are fixed at construction.  Two handles are identical when their addresses are equal. -/
structure shared_ptr (α : Type) where
  addr : Nat
  obj : α
deriving DecidableEq, Repr

/-- The members of a Schema set by its constructor (`m_sess` is the identity of the
session). -/
structure Schema_members where
  m_sess : Nat
  m_name : String
deriving DecidableEq, Repr

/-- The class Table. -/
structure Table where
  m_schema : shared_ptr Schema_members
  m_name : String
deriving DecidableEq, Repr

/-- The class Collection. -/
structure Collection where
  m_schema : shared_ptr Schema_members
  m_name : String
deriving DecidableEq, Repr

/-- The class Schema: `self` is `shared_from_this()`, the two maps are `m_tables` and
`m_collections` (key-unique association lists). -/
structure Schema where
  self : shared_ptr Schema_members
  m_tables : List (String × shared_ptr Table) := []
  m_collections : List (String × shared_ptr Collection) := []
deriving DecidableEq, Repr

/-- The allocator: `new` returns the next unused address. -/
structure Heap where
  next : Nat
deriving DecidableEq, Repr

/-- The call `std::map::find`, as an optional result (`none` = `end()`). -/
def map_find {α : Type} (m : List (String × α)) (k : String) : Option α :=
  match m with
  | [] => none
  | (k', v) :: rest => if k' = k then some v else map_find rest k

/-- The assignment `m[k] = v` of `std::map`: replaces the value of an existing key, else
inserts the pair. -/
def map_assign {α : Type} (m : List (String × α)) (k : String) (v : α) : List (String × α) :=
  match m with
  | [] => [(k, v)]
  | (k', v') :: rest => if k' = k then (k, v) :: rest else (k', v') :: map_assign rest k v

/-- Schema::getTable. -/
def Schema.getTable (h : Heap) (self : Schema) (name_ : String) :
    shared_ptr Table × Schema × Heap :=
  match map_find self.m_tables name_ with
  | some iter_second => (iter_second, self, h)
  | none =>
    let p : shared_ptr Table := { addr := h.next, obj := { m_schema := self.self, m_name := name_ } }
    (p, { self with m_tables := map_assign self.m_tables name_ p }, { next := h.next + 1 })

/-- Schema::getCollection. -/
def Schema.getCollection (h : Heap) (self : Schema) (name_ : String) :
    shared_ptr Collection × Schema × Heap :=
  match map_find self.m_collections name_ with
  | some iter_second => (iter_second, self, h)
  | none =>
    let p : shared_ptr Collection :=
      { addr := h.next, obj := { m_schema := self.self, m_name := name_ } }
    (p, { self with m_collections := map_assign self.m_collections name_ p },
      { next := h.next + 1 })

/-- The accessor `schema()->name()` of a collection handle. -/
def Collection.schema_name (c : shared_ptr Collection) : String := c.obj.m_schema.obj.m_name

/-- The accessor `name()` of a collection handle. -/
def Collection.name (c : shared_ptr Collection) : String := c.obj.m_name

/-- The accessor `schema()->session()` of a collection handle. -/
def Collection.session (c : shared_ptr Collection) : Nat := c.obj.m_schema.obj.m_sess

/-- The accessor `schema()->name()` of a table handle. -/
def Table.schema_name (t : shared_ptr Table) : String := t.obj.m_schema.obj.m_name

/-- The accessor `name()` of a table handle. -/
def Table.name (t : shared_ptr Table) : String := t.obj.m_name

/-- The accessor `schema()->session()` of a table handle. -/
def Table.session (t : shared_ptr Table) : Nat := t.obj.m_schema.obj.m_sess

/-! ## Values -/

/-- The class Document (declared in mysqlx_crud.h, which is not among the sources): the
builders use `str()`, the serialized text, and nothing else. -/
structure Document where
  str : String
deriving DecidableEq, Repr

/-- The class DocumentValue (declared in mysqlx_crud.h, which is not among the sources), with
the five type tags the builders name: `type()` is the constructor, the argument is what the
conversion operator used for that tag returns. -/
inductive DocumentValue
  | TInteger (v : Int)
  | TFloat (v : Datatypes.F64)
  | TString (v : String)
  | TDocument (v : String)
  | TExpression (v : String)
deriving DecidableEq, Repr

/-- The class TableValue (declared in mysqlx_crud.h, which is not among the sources), with
the eight type tags the builders name. -/
inductive TableValue
  | TInteger (v : Int)
  | TUInteger (v : Nat)
  | TBool (v : Bool)
  | TDouble (v : Datatypes.F64)
  | TFloat (v : Datatypes.F32)
  | TNull
  | TOctets (v : String)
  | TString (v : String)
deriving DecidableEq, Repr

/-- Collection_Statement::convert_document_value.  The switch has no case for TExpression
and no default. -/
def Collection_Statement.convert_document_value (value : DocumentValue) : Datatypes.Any :=
  let any : Datatypes.Any := { type := some .SCALAR }
  let my_scalar : Datatypes.Scalar := any.scalar.getD {}
  match value with
  | .TInteger column_value =>
    { any with scalar := some { my_scalar with type := some .V_SINT, v_signed_int := some column_value } }
  | .TFloat column_value =>
    { any with scalar := some { my_scalar with type := some .V_DOUBLE, v_double := some column_value } }
  | .TString column_value =>
    { any with scalar := some { my_scalar with type := some .V_STRING, v_string := some column_value } }
  | .TDocument column_value =>
    { any with scalar := some { my_scalar with type := some .V_OCTETS, v_opaque := some column_value } }
  | .TExpression _ => { any with scalar := some my_scalar }

/-- Table_Statement::convert_table_value. -/
def Table_Statement.convert_table_value (value : TableValue) : Datatypes.Any :=
  let any : Datatypes.Any := { type := some .SCALAR }
  let my_scalar : Datatypes.Scalar := any.scalar.getD {}
  match value with
  | .TInteger column_value =>
    { any with scalar := some { my_scalar with type := some .V_SINT, v_signed_int := some column_value } }
  | .TUInteger column_value =>
    { any with scalar := some { my_scalar with type := some .V_UINT, v_unsigned_int := some column_value } }
  | .TBool column_value =>
    { any with scalar := some { my_scalar with type := some .V_BOOL, v_bool := some column_value } }
  | .TDouble column_value =>
    { any with scalar := some { my_scalar with type := some .V_DOUBLE, v_double := some column_value } }
  | .TFloat column_value =>
    { any with scalar := some { my_scalar with type := some .V_FLOAT, v_float := some column_value } }
  | .TNull => { any with scalar := some { my_scalar with type := some .V_NULL } }
  | .TOctets column_value =>
    { any with scalar := some { my_scalar with type := some .V_OCTETS, v_opaque := some column_value } }
  | .TString column_value =>
    { any with scalar := some { my_scalar with type := some .V_STRING, v_string := some column_value } }

/-! ## Find -/

/-- Data of Find_Base and of the classes derived from it, up to FindStatement. -/
structure Find_Base where
  m_coll : shared_ptr Collection
  m_find : Crud.Find
deriving DecidableEq, Repr

/-- The constructor Find_Base::Find_Base(coll). -/
def Find_Base.mk_empty (coll : shared_ptr Collection) : Find_Base :=
  { m_coll := coll, m_find := {} }

/-- Find_Base::execute. -/
def Find_Base.execute (g : Generated) (t : Transport) (self : Find_Base) : Executed :=
  if !g.Find_IsInitialized self.m_find then
    { result := .error (.logic_error ("FindStatement is not completely initialized: "
        ++ g.Find_InitializationErrorString self.m_find)),
      events := [] }
  else
    let session := Collection.session self.m_coll
    match (t.connection session).execute_find self.m_find with
    | .error e => { result := .error e, events := [.execute_find session self.m_find] }
    | .ok result =>
      match t.wait result with
      | .error e =>
        { result := .error e, events := [.execute_find session self.m_find, .wait result] }
      | .ok _ =>
        { result := .ok result, events := [.execute_find session self.m_find, .wait result] }

/-- Find_Skip::skip. -/
def Find_Skip.skip (self : Find_Base) (skip_ : Nat) : Find_Base :=
  { self with m_find := { self.m_find with limit := Crud.Limit.set_offset self.m_find.limit skip_ } }

/-- Find_Limit::limit. -/
def Find_Limit.limit (self : Find_Base) (limit_ : Nat) : Find_Base :=
  { self with
    m_find := { self.m_find with limit := Crud.Limit.set_row_count self.m_find.limit limit_ } }

/-- Find_Sort::sort. -/
def Find_Sort.sort (self : Find_Base) (_sortFields : String) : Find_Base := self

/-- Find_Having::having. -/
def Find_Having.having (self : Find_Base) (_searchCondition : String) : Find_Base := self

/-- Find_GroupBy::groupBy. -/
def Find_GroupBy.groupBy (self : Find_Base) (_searchFields : String) : Find_Base := self

/-- Collection_Statement::bind, inherited by the Find builders. -/
def Find_Base.bind (self : Find_Base) (_name : String) (_value : DocumentValue) : Find_Base :=
  self

/-- The constructor FindStatement::FindStatement(coll, searchCondition). -/
def FindStatement.new (p : Parser) (coll : shared_ptr Collection) (searchCondition : String) :
    Except Error Find_Base :=
  let self := Find_Base.mk_empty coll
  let m := { self.m_find with
    collection := Crud.Collection.set_schema self.m_find.collection (Collection.schema_name coll) }
  let m := { m with collection := Crud.Collection.set_name m.collection (Collection.name coll) }
  let m := { m with data_model := some Crud.DataModel.DOCUMENT }
  if !searchCondition.isEmpty then
    match p.parse_collection_filter searchCondition with
    | .ok e => .ok { self with m_find := { m with criteria := some e } }
    | .error err => .error err
  else
    .ok { self with m_find := m }

/-- FindStatement::fields. -/
def FindStatement.fields (p : Parser) (self : Find_Base) (searchFields : String) :
    Outcome Find_Base :=
  match p.parse_collection_column_list_with_alias self.m_find.projection searchFields with
  | .returned l => .returned { self with m_find := { self.m_find with projection := l } }
  | .thrown e l => .thrown e { self with m_find := { self.m_find with projection := l } }

/-- Collection::find. -/
def Collection.find (p : Parser) (self : shared_ptr Collection) (searchCondition : String) :
    Except Error Find_Base :=
  FindStatement.new p self searchCondition

/-! ## Add -/

/-- Data of Add_Base and AddStatement. -/
structure Add_Base where
  m_coll : shared_ptr Collection
  m_insert : Crud.Insert
deriving DecidableEq, Repr

/-- The constructor Add_Base::Add_Base(coll). -/
def Add_Base.mk_empty (coll : shared_ptr Collection) : Add_Base :=
  { m_coll := coll, m_insert := {} }

/-- Add_Base::execute. -/
def Add_Base.execute (g : Generated) (t : Transport) (self : Add_Base) : Executed :=
  if !g.Insert_IsInitialized self.m_insert then
    { result := .error (.logic_error ("AddStatement is not completely initialized: "
        ++ g.Insert_InitializationErrorString self.m_insert)),
      events := [] }
  else
    let session := Collection.session self.m_coll
    match (t.connection session).execute_insert self.m_insert with
    | .error e => { result := .error e, events := [.execute_insert session self.m_insert] }
    | .ok result =>
      match t.wait result with
      | .error e =>
        { result := .error e, events := [.execute_insert session self.m_insert, .wait result] }
      | .ok _ =>
        { result := .ok result, events := [.execute_insert session self.m_insert, .wait result] }

/-- AddStatement::add. -/
def AddStatement.add (self : Add_Base) (doc : Document) : Add_Base :=
  let value : Datatypes.Scalar := { type := some .V_OCTETS, v_opaque := some doc.str }
  let any : Datatypes.Any := { type := some .SCALAR, scalar := some value }
  { self with m_insert := { self.m_insert with row := self.m_insert.row ++ [{ field := [any] }] } }

/-- The constructor AddStatement::AddStatement(coll, doc). -/
def AddStatement.new (coll : shared_ptr Collection) (doc : Document) : Add_Base :=
  let self := Add_Base.mk_empty coll
  let m := { self.m_insert with
    collection := Crud.Collection.set_schema self.m_insert.collection (Collection.schema_name coll) }
  let m := { m with collection := Crud.Collection.set_name m.collection (Collection.name coll) }
  let m := { m with data_model := some Crud.DataModel.DOCUMENT }
  AddStatement.add { self with m_insert := m } doc

/-- Collection_Statement::bind, inherited by the Add builders. -/
def Add_Base.bind (self : Add_Base) (_name : String) (_value : DocumentValue) : Add_Base :=
  self

/-- Collection::add. -/
def Collection.add (self : shared_ptr Collection) (doc : Document) : Add_Base :=
  AddStatement.new self doc

/-! ## Remove -/

/-- Data of Remove_Base, Remove_Limit and RemoveStatement. -/
structure Remove_Base where
  m_coll : shared_ptr Collection
  m_delete : Crud.Delete
deriving DecidableEq, Repr

/-- The constructor Remove_Base::Remove_Base(coll). -/
def Remove_Base.mk_empty (coll : shared_ptr Collection) : Remove_Base :=
  { m_coll := coll, m_delete := {} }

/-- Remove_Base::execute. -/
def Remove_Base.execute (g : Generated) (t : Transport) (self : Remove_Base) : Executed :=
  if !g.Delete_IsInitialized self.m_delete then
    { result := .error (.logic_error ("RemoveStatement is not completely initialized: "
        ++ g.Delete_InitializationErrorString self.m_delete)),
      events := [] }
  else
    let session := Collection.session self.m_coll
    match (t.connection session).execute_delete self.m_delete with
    | .error e => { result := .error e, events := [.execute_delete session self.m_delete] }
    | .ok result =>
      match t.wait result with
      | .error e =>
        { result := .error e, events := [.execute_delete session self.m_delete, .wait result] }
      | .ok _ =>
        { result := .ok result, events := [.execute_delete session self.m_delete, .wait result] }

/-- Remove_Limit::limit. -/
def Remove_Limit.limit (self : Remove_Base) (limit_ : Nat) : Remove_Base :=
  { self with
    m_delete := { self.m_delete with limit := Crud.Limit.set_row_count self.m_delete.limit limit_ } }

/-- The constructor RemoveStatement::RemoveStatement(coll, searchCondition). -/
def RemoveStatement.new (p : Parser) (coll : shared_ptr Collection) (searchCondition : String) :
    Except Error Remove_Base :=
  let self := Remove_Base.mk_empty coll
  let m := { self.m_delete with
    collection := Crud.Collection.set_schema self.m_delete.collection (Collection.schema_name coll) }
  let m := { m with collection := Crud.Collection.set_name m.collection (Collection.name coll) }
  let m := { m with data_model := some Crud.DataModel.DOCUMENT }
  if !searchCondition.isEmpty then
    match p.parse_collection_filter searchCondition with
    | .ok e => .ok { self with m_delete := { m with criteria := some e } }
    | .error err => .error err
  else
    .ok { self with m_delete := m }

/-- RemoveStatement::sort. -/
def RemoveStatement.sort (self : Remove_Base) (_sortFields : String) : Remove_Base := self

/-- Collection_Statement::bind, inherited by the Remove builders. -/
def Remove_Base.bind (self : Remove_Base) (_name : String) (_value : DocumentValue) :
    Remove_Base :=
  self

/-- Collection::remove. -/
def Collection.remove (p : Parser) (self : shared_ptr Collection) (searchCondition : String) :
    Except Error Remove_Base :=
  RemoveStatement.new p self searchCondition

/-! ## Modify -/

/-- Data of Modify_Base and of the classes derived from it, up to ModifyStatement. -/
structure Modify_Base where
  m_coll : shared_ptr Collection
  m_update : Crud.Update
deriving DecidableEq, Repr

/-- The constructor Modify_Base::Modify_Base(coll). -/
def Modify_Base.mk_empty (coll : shared_ptr Collection) : Modify_Base :=
  { m_coll := coll, m_update := {} }

/-- Modify_Base::execute. -/
def Modify_Base.execute (g : Generated) (t : Transport) (self : Modify_Base) : Executed :=
  if !g.Update_IsInitialized self.m_update then
    { result := .error (.logic_error ("ModifyStatement is not completely initialized: "
        ++ g.Update_InitializationErrorString self.m_update)),
      events := [] }
  else
    let session := Collection.session self.m_coll
    match (t.connection session).execute_update self.m_update with
    | .error e => { result := .error e, events := [.execute_update session self.m_update] }
    | .ok result =>
      match t.wait result with
      | .error e =>
        { result := .error e, events := [.execute_update session self.m_update, .wait result] }
      | .ok _ =>
        { result := .ok result, events := [.execute_update session self.m_update, .wait result] }

/-- Modify_Limit::limit. -/
def Modify_Limit.limit (self : Modify_Base) (limit_ : Nat) : Modify_Base :=
  { self with
    m_update := { self.m_update with limit := Crud.Limit.set_row_count self.m_update.limit limit_ } }

/-- Modify_Sort::sort. -/
def Modify_Sort.sort (self : Modify_Base) (_sortFields : String) : Modify_Base := self

/-- The conversion of a DocumentValue to `std::string`. -/
def DocumentValue.to_string : DocumentValue → String
  | .TInteger v => toString v
  | .TFloat v => toString v.bits
  | .TString v => v
  | .TDocument v => v
  | .TExpression v => v

/-- Whether `value.type() == DocumentValue::TExpression`. -/
def DocumentValue.isTExpression : DocumentValue → Bool
  | .TExpression _ => true
  | _ => false

/-- The statement `m_update->mutable_operation()->Add()` followed by writes to the new
element: the element `op` ends up last in the list. -/
def Modify_Base.add_operation (self : Modify_Base) (op : Crud.UpdateOperation) : Modify_Base :=
  { self with m_update := { self.m_update with operation := self.m_update.operation ++ [op] } }

/-- Modify_Operation::set_operation.  The operation is added to the message before the path
items are read and before the value is parsed, so an exception leaves it there. -/
def Modify_Operation.set_operation (p : Parser) (self : Modify_Base)
    (type : Crud.UpdateOperation_UpdateType) (path : String) (value : Option DocumentValue) :
    Outcome Modify_Base :=
  match p.parse_collection_column_list [] path with
  | .thrown e _ => .thrown e self
  | .returned items =>
    let operation : Crud.UpdateOperation := { operation := some type }
    match items with
    | [] => .thrown .out_of_range (self.add_operation operation)
    | items_0 :: _ =>
      match items_0.target_path with
      | [] => .thrown .out_of_range (self.add_operation operation)
      | item :: _ =>
        let source : Expr.ColumnIdentifier := operation.source.getD {}
        let operation := { operation with
          source := some { source with document_path := source.document_path ++ [item] } }
        match value with
        | none => .returned (self.add_operation operation)
        | some v =>
          if v.isTExpression then
            match p.Expr_parser_expr v.to_string true with
            | .error e => .thrown e (self.add_operation operation)
            | .ok parsed => .returned (self.add_operation { operation with value := some parsed })
          else
            let e : Expr.Expr := operation.value.getD {}
            .returned (self.add_operation { operation with
              value := some { e with
                type := some .LITERAL
                constant := some (Collection_Statement.convert_document_value v) } })

/-- Modify_Operation::remove. -/
def Modify_Operation.remove (p : Parser) (self : Modify_Base) (path : String) :
    Outcome Modify_Base :=
  Modify_Operation.set_operation p self .ITEM_REMOVE path none

/-- Modify_Operation::set. -/
def Modify_Operation.set (p : Parser) (self : Modify_Base) (path : String)
    (value : DocumentValue) : Outcome Modify_Base :=
  Modify_Operation.set_operation p self .ITEM_SET path (some value)

/-- Modify_Operation::change. -/
def Modify_Operation.change (p : Parser) (self : Modify_Base) (path : String)
    (value : DocumentValue) : Outcome Modify_Base :=
  Modify_Operation.set_operation p self .ITEM_REPLACE path (some value)

/-- Modify_Operation::arrayInsert. -/
def Modify_Operation.arrayInsert (self : Modify_Base) (_path : String) (_index : Int)
    (_value : DocumentValue) : Modify_Base :=
  self

/-- Modify_Operation::arrayAppend. -/
def Modify_Operation.arrayAppend (p : Parser) (self : Modify_Base) (path : String)
    (value : DocumentValue) : Outcome Modify_Base :=
  Modify_Operation.set_operation p self .ARRAY_APPEND path (some value)

/-- The constructor ModifyStatement::ModifyStatement(coll, searchCondition). -/
def ModifyStatement.new (p : Parser) (coll : shared_ptr Collection) (searchCondition : String) :
    Except Error Modify_Base :=
  let self := Modify_Base.mk_empty coll
  let m := { self.m_update with
    collection := Crud.Collection.set_schema self.m_update.collection (Collection.schema_name coll) }
  let m := { m with collection := Crud.Collection.set_name m.collection (Collection.name coll) }
  let m := { m with data_model := some Crud.DataModel.DOCUMENT }
  if !searchCondition.isEmpty then
    match p.parse_collection_filter searchCondition with
    | .ok e => .ok { self with m_update := { m with criteria := some e } }
    | .error err => .error err
  else
    .ok { self with m_update := m }

/-- Collection_Statement::bind, inherited by the Modify builders. -/
def Modify_Base.bind (self : Modify_Base) (_name : String) (_value : DocumentValue) :
    Modify_Base :=
  self

/-- Collection::modify. -/
def Collection.modify (p : Parser) (self : shared_ptr Collection) (searchCondition : String) :
    Except Error Modify_Base :=
  ModifyStatement.new p self searchCondition

/-! ## Delete (table) -/

/-- Data of Delete_Base and of the classes derived from it, up to DeleteStatement. -/
structure Delete_Base where
  m_table : shared_ptr Table
  m_delete : Crud.Delete
deriving DecidableEq, Repr

/-- The constructor Delete_Base::Delete_Base(table). -/
def Delete_Base.mk_empty (table : shared_ptr Table) : Delete_Base :=
  { m_table := table, m_delete := {} }

/-- Delete_Base::execute. -/
def Delete_Base.execute (g : Generated) (t : Transport) (self : Delete_Base) : Executed :=
  if !g.Delete_IsInitialized self.m_delete then
    { result := .error (.logic_error ("DeleteStatement is not completely initialized: "
        ++ g.Delete_InitializationErrorString self.m_delete)),
      events := [] }
  else
    let session := Table.session self.m_table
    match (t.connection session).execute_delete self.m_delete with
    | .error e => { result := .error e, events := [.execute_delete session self.m_delete] }
    | .ok result =>
      match t.wait result with
      | .error e =>
        { result := .error e, events := [.execute_delete session self.m_delete, .wait result] }
      | .ok _ =>
        { result := .ok result, events := [.execute_delete session self.m_delete, .wait result] }

/-- Delete_Limit::limit. -/
def Delete_Limit.limit (self : Delete_Base) (limit_ : Nat) : Delete_Base :=
  { self with
    m_delete := { self.m_delete with limit := Crud.Limit.set_row_count self.m_delete.limit limit_ } }

/-- Delete_OrderBy::orderBy. -/
def Delete_OrderBy.orderBy (self : Delete_Base) (_sortFields : String) : Delete_Base := self

/-- The constructor DeleteStatement::DeleteStatement(table). -/
def DeleteStatement.new (table : shared_ptr Table) : Delete_Base :=
  let self := Delete_Base.mk_empty table
  let m := { self.m_delete with
    collection := Crud.Collection.set_schema self.m_delete.collection (Table.schema_name table) }
  let m := { m with collection := Crud.Collection.set_name m.collection (Table.name table) }
  let m := { m with data_model := some Crud.DataModel.TABLE }
  { self with m_delete := m }

/-- DeleteStatement::where. -/
def DeleteStatement.where_ (p : Parser) (self : Delete_Base) (searchCondition : String) :
    Outcome Delete_Base :=
  if !searchCondition.isEmpty then
    match p.parse_table_filter searchCondition with
    | .ok e => .returned { self with m_delete := { self.m_delete with criteria := some e } }
    | .error err => .thrown err self
  else
    .returned self

/-- Table::remove. -/
def Table.remove (self : shared_ptr Table) : Delete_Base :=
  DeleteStatement.new self

/-! ## Update (table) -/

/-- Data of Update_Base and of the classes derived from it, up to UpdateStatement. -/
structure Update_Base where
  m_table : shared_ptr Table
  m_update : Crud.Update
deriving DecidableEq, Repr

/-- The constructor Update_Base::Update_Base(table). -/
def Update_Base.mk_empty (table : shared_ptr Table) : Update_Base :=
  { m_table := table, m_update := {} }

/-- Update_Base::execute. -/
def Update_Base.execute (g : Generated) (t : Transport) (self : Update_Base) : Executed :=
  if !g.Update_IsInitialized self.m_update then
    { result := .error (.logic_error ("UpdateStatement is not completely initialized: "
        ++ g.Update_InitializationErrorString self.m_update)),
      events := [] }
  else
    let session := Table.session self.m_table
    match (t.connection session).execute_update self.m_update with
    | .error e => { result := .error e, events := [.execute_update session self.m_update] }
    | .ok result =>
      match t.wait result with
      | .error e =>
        { result := .error e, events := [.execute_update session self.m_update, .wait result] }
      | .ok _ =>
        { result := .ok result, events := [.execute_update session self.m_update, .wait result] }

/-- Update_Limit::limit. -/
def Update_Limit.limit (self : Update_Base) (limit_ : Nat) : Update_Base :=
  { self with
    m_update := { self.m_update with limit := Crud.Limit.set_row_count self.m_update.limit limit_ } }

/-- Update_OrderBy::orderBy. -/
def Update_OrderBy.orderBy (self : Update_Base) (_sortFields : String) : Update_Base := self

/-- Update_Where::where. -/
def Update_Where.where_ (p : Parser) (self : Update_Base) (searchCondition : String) :
    Outcome Update_Base :=
  if !searchCondition.isEmpty then
    match p.parse_table_filter searchCondition with
    | .ok e => .returned { self with m_update := { self.m_update with criteria := some e } }
    | .error err => .thrown err self
  else
    .returned self

/-- The statement `m_update->mutable_operation()->Add()` followed by writes to the new
element, for the table builders. -/
def Update_Base.add_operation (self : Update_Base) (op : Crud.UpdateOperation) : Update_Base :=
  { self with m_update := { self.m_update with operation := self.m_update.operation ++ [op] } }

/-- Update_Set::set(field, value) with a TableValue. -/
def Update_Set.set (self : Update_Base) (field : String) (value : TableValue) : Update_Base :=
  let operation : Crud.UpdateOperation := {}
  let source : Expr.ColumnIdentifier := operation.source.getD {}
  let operation := { operation with source := some { source with name := some field } }
  let operation := { operation with operation := some Crud.UpdateOperation_UpdateType.SET }
  let e : Expr.Expr := operation.value.getD {}
  let operation := { operation with
    value := some { e with
      type := some .LITERAL
      constant := some (Table_Statement.convert_table_value value) } }
  self.add_operation operation

/-- Update_Set::set(field, expression) with an expression text.  The operation is added to
the message before the text is parsed. -/
def Update_Set.set_expression (p : Parser) (self : Update_Base) (field : String)
    (expression : String) : Outcome Update_Base :=
  let operation : Crud.UpdateOperation := {}
  let source : Expr.ColumnIdentifier := operation.source.getD {}
  let operation := { operation with source := some { source with name := some field } }
  let operation := { operation with operation := some Crud.UpdateOperation_UpdateType.SET }
  match p.Expr_parser_expr expression false with
  | .error e => .thrown e (self.add_operation operation)
  | .ok parsed => .returned (self.add_operation { operation with value := some parsed })

/-- The constructor UpdateStatement::UpdateStatement(table). -/
def UpdateStatement.new (table : shared_ptr Table) : Update_Base :=
  let self := Update_Base.mk_empty table
  let m := { self.m_update with
    collection := Crud.Collection.set_schema self.m_update.collection (Table.schema_name table) }
  let m := { m with collection := Crud.Collection.set_name m.collection (Table.name table) }
  let m := { m with data_model := some Crud.DataModel.TABLE }
  { self with m_update := m }

/-- Table::update. -/
def Table.update (self : shared_ptr Table) : Update_Base :=
  UpdateStatement.new self

/-! ## Select (table) -/

/-- Data of Select_Base and of the classes derived from it, up to SelectStatement. -/
structure Select_Base where
  m_table : shared_ptr Table
  m_find : Crud.Find
deriving DecidableEq, Repr

/-- The constructor Select_Base::Select_Base(table). -/
def Select_Base.mk_empty (table : shared_ptr Table) : Select_Base :=
  { m_table := table, m_find := {} }

/-- Select_Base::execute. -/
def Select_Base.execute (g : Generated) (t : Transport) (self : Select_Base) : Executed :=
  if !g.Find_IsInitialized self.m_find then
    { result := .error (.logic_error ("SelectStatement is not completely initialized: "
        ++ g.Find_InitializationErrorString self.m_find)),
      events := [] }
  else
    let session := Table.session self.m_table
    match (t.connection session).execute_find self.m_find with
    | .error e => { result := .error e, events := [.execute_find session self.m_find] }
    | .ok result =>
      match t.wait result with
      | .error e =>
        { result := .error e, events := [.execute_find session self.m_find, .wait result] }
      | .ok _ =>
        { result := .ok result, events := [.execute_find session self.m_find, .wait result] }

/-- Select_Offset::offset. -/
def Select_Offset.offset (self : Select_Base) (offset_ : Nat) : Select_Base :=
  { self with m_find := { self.m_find with limit := Crud.Limit.set_offset self.m_find.limit offset_ } }

/-- Select_Limit::limit. -/
def Select_Limit.limit (self : Select_Base) (limit_ : Nat) : Select_Base :=
  { self with
    m_find := { self.m_find with limit := Crud.Limit.set_row_count self.m_find.limit limit_ } }

/-- Select_OrderBy::orderBy. -/
def Select_OrderBy.orderBy (self : Select_Base) (_sortFields : String) : Select_Base := self

/-- Select_Having::having. -/
def Select_Having.having (self : Select_Base) (_searchCondition : String) : Select_Base := self

/-- Select_GroupBy::groupBy. -/
def Select_GroupBy.groupBy (self : Select_Base) (_searchFields : String) : Select_Base := self

/-- The constructor SelectStatement::SelectStatement(table, fieldList).  The projection is
filled by the parser in place; when the parser throws the statement is not constructed. -/
def SelectStatement.new (p : Parser) (table : shared_ptr Table) (fieldList : String) :
    Except Error Select_Base :=
  let self := Select_Base.mk_empty table
  let m := { self.m_find with
    collection := Crud.Collection.set_schema self.m_find.collection (Table.schema_name table) }
  let m := { m with collection := Crud.Collection.set_name m.collection (Table.name table) }
  let m := { m with data_model := some Crud.DataModel.TABLE }
  if !fieldList.isEmpty then
    match p.parse_table_column_list_with_alias m.projection fieldList with
    | .returned l => .ok { self with m_find := { m with projection := l } }
    | .thrown err _ => .error err
  else
    .ok { self with m_find := m }

/-- SelectStatement::where. -/
def SelectStatement.where_ (p : Parser) (self : Select_Base) (searchCondition : String) :
    Outcome Select_Base :=
  if !searchCondition.isEmpty then
    match p.parse_table_filter searchCondition with
    | .ok e => .returned { self with m_find := { self.m_find with criteria := some e } }
    | .error err => .thrown err self
  else
    .returned self

/-- Table::select. -/
def Table.select (p : Parser) (self : shared_ptr Table) (fieldList : String) :
    Except Error Select_Base :=
  SelectStatement.new p self fieldList

/-! ## Insert (table) -/

/-- Data of Insert_Base, Insert_Values and InsertStatement. -/
structure Insert_Base where
  m_table : shared_ptr Table
  m_insert : Crud.Insert
deriving DecidableEq, Repr

/-- The constructor Insert_Base::Insert_Base(table), also Insert_Values::Insert_Values. -/
def Insert_Base.mk_empty (table : shared_ptr Table) : Insert_Base :=
  { m_table := table, m_insert := {} }

/-- Insert_Base::execute. -/
def Insert_Base.execute (g : Generated) (t : Transport) (self : Insert_Base) : Executed :=
  if !g.Insert_IsInitialized self.m_insert then
    { result := .error (.logic_error ("InsertStatement is not completely initialized: "
        ++ g.Insert_InitializationErrorString self.m_insert)),
      events := [] }
  else
    let session := Table.session self.m_table
    match (t.connection session).execute_insert self.m_insert with
    | .error e => { result := .error e, events := [.execute_insert session self.m_insert] }
    | .ok result =>
      match t.wait result with
      | .error e =>
        { result := .error e, events := [.execute_insert session self.m_insert, .wait result] }
      | .ok _ =>
        { result := .ok result, events := [.execute_insert session self.m_insert, .wait result] }

/-- Insert_Values::values: one new row, one converted field per element of `row_data`. -/
def Insert_Values.values (self : Insert_Base) (row_data : List TableValue) : Insert_Base :=
  let row : Crud.Insert_TypedRow :=
    row_data.foldl (fun r index => { r with field := r.field ++ [Table_Statement.convert_table_value index] }) {}
  { self with m_insert := { self.m_insert with row := self.m_insert.row ++ [row] } }

/-- InsertStatement::insert: one projection entry per column name, added at the end. -/
def InsertStatement.insert (self : Insert_Base) (columns : List String) : Insert_Base :=
  columns.foldl
    (fun s c => { s with
      m_insert := { s.m_insert with projection := s.m_insert.projection ++ [{ name := some c }] } })
    self

/-- The constructor InsertStatement::InsertStatement(table). -/
def InsertStatement.new (table : shared_ptr Table) : Insert_Base :=
  let self := Insert_Base.mk_empty table
  let m := { self.m_insert with
    collection := Crud.Collection.set_schema self.m_insert.collection (Table.schema_name table) }
  let m := { m with collection := Crud.Collection.set_name m.collection (Table.name table) }
  let m := { m with data_model := some Crud.DataModel.TABLE }
  { self with m_insert := m }

/-- Table::insert. -/
def Table.insert (self : shared_ptr Table) : Insert_Base :=
  InsertStatement.new self

/-! ## Chains of calls

The methods a caller can invoke on a builder after the factory call, one constructor per
method, and the effect of a sequence of such calls.  A chain stops at the first exception. -/

/-- The chain methods of the Find builders. -/
inductive FindCall
  | skip (n : Nat) | limit (n : Nat) | sort (s : String) | having (s : String)
  | groupBy (s : String) | fields (s : String) | bind (name : String) (value : DocumentValue)
deriving DecidableEq, Repr

/-- One call on a Find builder. -/
def FindCall.apply (p : Parser) (self : Find_Base) : FindCall → Outcome Find_Base
  | .skip n => .returned (Find_Skip.skip self n)
  | .limit n => .returned (Find_Limit.limit self n)
  | .sort s => .returned (Find_Sort.sort self s)
  | .having s => .returned (Find_Having.having self s)
  | .groupBy s => .returned (Find_GroupBy.groupBy self s)
  | .fields s => FindStatement.fields p self s
  | .bind name value => .returned (Find_Base.bind self name value)

/-- The chain methods of the Add builders. -/
inductive AddCall
  | add (doc : Document) | bind (name : String) (value : DocumentValue)
deriving DecidableEq, Repr

/-- One call on an Add builder. -/
def AddCall.apply (self : Add_Base) : AddCall → Outcome Add_Base
  | .add doc => .returned (AddStatement.add self doc)
  | .bind name value => .returned (Add_Base.bind self name value)

/-- The chain methods of the Remove builders. -/
inductive RemoveCall
  | limit (n : Nat) | sort (s : String) | bind (name : String) (value : DocumentValue)
deriving DecidableEq, Repr

/-- One call on a Remove builder. -/
def RemoveCall.apply (self : Remove_Base) : RemoveCall → Outcome Remove_Base
  | .limit n => .returned (Remove_Limit.limit self n)
  | .sort s => .returned (RemoveStatement.sort self s)
  | .bind name value => .returned (Remove_Base.bind self name value)

/-- The chain methods of the Modify builders. -/
inductive ModifyCall
  | limit (n : Nat) | sort (s : String) | remove (path : String)
  | set (path : String) (value : DocumentValue) | change (path : String) (value : DocumentValue)
  | arrayInsert (path : String) (index : Int) (value : DocumentValue)
  | arrayAppend (path : String) (value : DocumentValue)
  | bind (name : String) (value : DocumentValue)
deriving DecidableEq, Repr

/-- One call on a Modify builder. -/
def ModifyCall.apply (p : Parser) (self : Modify_Base) : ModifyCall → Outcome Modify_Base
  | .limit n => .returned (Modify_Limit.limit self n)
  | .sort s => .returned (Modify_Sort.sort self s)
  | .remove path => Modify_Operation.remove p self path
  | .set path value => Modify_Operation.set p self path value
  | .change path value => Modify_Operation.change p self path value
  | .arrayInsert path index value => .returned (Modify_Operation.arrayInsert self path index value)
  | .arrayAppend path value => Modify_Operation.arrayAppend p self path value
  | .bind name value => .returned (Modify_Base.bind self name value)

/-- The chain methods of the table Delete builders. -/
inductive DeleteCall
  | limit (n : Nat) | orderBy (s : String) | where_ (c : String)
deriving DecidableEq, Repr

/-- One call on a table Delete builder. -/
def DeleteCall.apply (p : Parser) (self : Delete_Base) : DeleteCall → Outcome Delete_Base
  | .limit n => .returned (Delete_Limit.limit self n)
  | .orderBy s => .returned (Delete_OrderBy.orderBy self s)
  | .where_ c => DeleteStatement.where_ p self c

/-- The chain methods of the table Update builders. -/
inductive UpdateCall
  | limit (n : Nat) | orderBy (s : String) | where_ (c : String)
  | set (field : String) (value : TableValue) | set_expression (field : String) (e : String)
deriving DecidableEq, Repr

/-- One call on a table Update builder. -/
def UpdateCall.apply (p : Parser) (self : Update_Base) : UpdateCall → Outcome Update_Base
  | .limit n => .returned (Update_Limit.limit self n)
  | .orderBy s => .returned (Update_OrderBy.orderBy self s)
  | .where_ c => Update_Where.where_ p self c
  | .set field value => .returned (Update_Set.set self field value)
  | .set_expression field e => Update_Set.set_expression p self field e

/-- The chain methods of the Select builders. -/
inductive SelectCall
  | offset (n : Nat) | limit (n : Nat) | orderBy (s : String) | having (s : String)
  | groupBy (s : String) | where_ (c : String)
deriving DecidableEq, Repr

/-- One call on a Select builder. -/
def SelectCall.apply (p : Parser) (self : Select_Base) : SelectCall → Outcome Select_Base
  | .offset n => .returned (Select_Offset.offset self n)
  | .limit n => .returned (Select_Limit.limit self n)
  | .orderBy s => .returned (Select_OrderBy.orderBy self s)
  | .having s => .returned (Select_Having.having self s)
  | .groupBy s => .returned (Select_GroupBy.groupBy self s)
  | .where_ c => SelectStatement.where_ p self c

/-- The chain methods of the table Insert builders. -/
inductive InsertCall
  | values (row_data : List TableValue) | insert (columns : List String)
deriving DecidableEq, Repr

/-- One call on a table Insert builder. -/
def InsertCall.apply (self : Insert_Base) : InsertCall → Outcome Insert_Base
  | .values row_data => .returned (Insert_Values.values self row_data)
  | .insert columns => .returned (InsertStatement.insert self columns)

/-- A sequence of calls on one object: each call acts on the state left by the one before,
and the first exception ends the sequence. -/
def chain {σ κ : Type} (step : σ → κ → Outcome σ) (self : σ) : List κ → Outcome σ
  | [] => .returned self
  | c :: rest =>
    match step self c with
    | .returned s => chain step s rest
    | .thrown e s => .thrown e s

/-! ## Properties of `execute()` -/

/-- What is asked of one call of `execute()`, given whether the completeness check `passed`,
the send event `send` of the builder's message and the text `what` of the error: the
messages handed to the transport are exactly `[send]` when the check passed and none when
it failed, `send` occurs among the events exactly when the check passed, and a failed check
ends in the logic error with no event at all. -/
def execute_contract (passed : Bool) (send : Event) (what : String) (x : Executed) : Prop :=
  x.events.filter Event.isSend = (if passed then [send] else []) ∧
  (send ∈ x.events ↔ passed = true) ∧
  (passed = false → x.events = [] ∧ x.result = .error (.logic_error what))

/-! ## Calls on the registry -/

/-- The two lookups a caller can make on a Schema. -/
inductive GetCall
  | getTable (name : String) | getCollection (name : String)
deriving DecidableEq, Repr

/-- One lookup: the handle is dropped, the Schema and the allocator are kept. -/
def GetCall.apply (st : Schema × Heap) : GetCall → Schema × Heap
  | .getTable n => (Schema.getTable st.2 st.1 n).2
  | .getCollection n => (Schema.getCollection st.2 st.1 n).2

/-- A sequence of lookups on the same Schema. -/
def GetCall.run (st : Schema × Heap) (calls : List GetCall) : Schema × Heap :=
  calls.foldl GetCall.apply st

/-! ## Which calls write the limit -/

/-- Whether the call is `limit` or `skip` of a Find builder. -/
def FindCall.writesLimit : FindCall → Bool
  | .skip _ => true
  | .limit _ => true
  | _ => false

/-- Whether the call is `limit` of a Remove builder. -/
def RemoveCall.writesLimit : RemoveCall → Bool
  | .limit _ => true
  | _ => false

/-- Whether the call is `limit` of a Modify builder. -/
def ModifyCall.writesLimit : ModifyCall → Bool
  | .limit _ => true
  | _ => false

/-- Whether the call is `limit` of a table Delete builder. -/
def DeleteCall.writesLimit : DeleteCall → Bool
  | .limit _ => true
  | _ => false

/-- Whether the call is `limit` of a table Update builder. -/
def UpdateCall.writesLimit : UpdateCall → Bool
  | .limit _ => true
  | _ => false

/-- Whether the call is `limit` or `offset` of a Select builder. -/
def SelectCall.writesLimit : SelectCall → Bool
  | .offset _ => true
  | .limit _ => true
  | _ => false

/-! ## The completeness check and the server, as the specification describes them -/

/-- Modelled from the spec: the locator part of the completeness check; the check itself is
generated from the protocol definitions, which are not among the sources.  Section 3:
"Invariant: both names non-empty before send." -/
def Locator_nonempty (c : Option Crud.Collection) : Bool :=
  match c with
  | some l =>
    (match l.schema with
     | some s => !s.isEmpty
     | none => false) &&
    (match l.name with
     | some n => !n.isEmpty
     | none => false)
  | none => false

/-- Modelled from the spec: `is_complete()` of a Find message (generated IsInitialized is not
among the sources).  Section 4.2: "Find/Delete require non-empty Locator and data_model
set". -/
def Find_is_complete (m : Crud.Find) : Bool :=
  Locator_nonempty m.collection && m.data_model.isSome

/-- Modelled from the spec: `is_complete()` of a Delete message (generated IsInitialized is
not among the sources).  Section 4.2: "Find/Delete require non-empty Locator and data_model
set". -/
def Delete_is_complete (m : Crud.Delete) : Bool :=
  Locator_nonempty m.collection && m.data_model.isSome

/-- Modelled from the spec: `is_complete()` of an Insert message (generated IsInitialized is
not among the sources).  Section 4.2: "Insert additionally requires at least one row when
rows were started"; rows are started by adding one, so the row list adds no constraint of
its own. -/
def Insert_is_complete (m : Crud.Insert) : Bool :=
  Locator_nonempty m.collection && m.data_model.isSome &&
    (m.row.isEmpty || decide (1 ≤ m.row.length))

/-- Modelled from the spec: `is_complete()` of an Update message (generated IsInitialized is
not among the sources).  Section 4.2: "Update requires at least one operation", next to the
locator and data model every message needs. -/
def Update_is_complete (m : Crud.Update) : Bool :=
  Locator_nonempty m.collection && m.data_model.isSome && !m.operation.isEmpty

/-- Modelled from the spec: the missing field named by the IncompleteStatement error
(generated InitializationErrorString is not among the sources). -/
def missing_field (c : Option Crud.Collection) (data_model : Option Crud.DataModel)
    (last : String) : String :=
  if !Locator_nonempty c then "collection"
  else if !data_model.isSome then "data_model"
  else last

/-- Modelled from the spec: the generated members, with `is_complete()` of section 4.2 as
the completeness check. -/
def spec_generated : Generated where
  Find_IsInitialized := Find_is_complete
  Find_InitializationErrorString := fun m => missing_field m.collection m.data_model ""
  Insert_IsInitialized := Insert_is_complete
  Insert_InitializationErrorString := fun m => missing_field m.collection m.data_model "row"
  Update_IsInitialized := Update_is_complete
  Update_InitializationErrorString :=
    fun m => missing_field m.collection m.data_model "operation"
  Delete_IsInitialized := Delete_is_complete
  Delete_InitializationErrorString := fun m => missing_field m.collection m.data_model ""

/-- Modelled from the spec: the rows a server returns for a Find message out of the rows
that match it (the server is not among the sources).  Section 3 "Limit/Offset" and section
8, property 4: the first `offset` rows are skipped, then at most `row_count` rows are
returned; an absent value sets no bound. -/
def result_rows {ρ : Type} (m : Crud.Find) (rows : List ρ) : List ρ :=
  match m.limit with
  | none => rows
  | some l =>
    let rest := rows.drop (l.offset.getD 0)
    match l.row_count with
    | none => rest
    | some n => rest.take n

/-! ## Sample collaborators

Concrete handles, a small parser and a transport, used to evaluate the definitions. -/

namespace Sample

/-- A schema handle. -/
def schema : shared_ptr Schema_members :=
  { addr := 100, obj := { m_sess := 1, m_name := "js_shell_test" } }

/-- A collection handle of `schema`. -/
def collection1 : shared_ptr Collection :=
  { addr := 101, obj := { m_schema := schema, m_name := "collection1" } }

/-- A table handle of `schema`. -/
def table1 : shared_ptr Table :=
  { addr := 102, obj := { m_schema := schema, m_name := "table1" } }

/-- A collection handle with an empty name. -/
def unnamed_collection : shared_ptr Collection :=
  { addr := 103, obj := { m_schema := schema, m_name := "" } }

/-- A table handle with an empty name. -/
def unnamed_table : shared_ptr Table :=
  { addr := 104, obj := { m_schema := schema, m_name := "" } }

/-- A filter parser: rejects one text with an unterminated quote, keeps any other text. -/
def filter (text : String) : Except Error Expr.Expr :=
  if text = "test = \"2" then .error (.parser_error "Unterminated quoted string starting at 8")
  else .ok { type := some .OPERATOR, tree := text }

/-- A column-list parser: one projection with a one-element path for the whole text. -/
def column_list (l : List Crud.Projection) (text : String) : Outcome (List Crud.Projection) :=
  .returned (l ++ [{ target_path := [{ text := text }] }])

/-- The sample parser. -/
def parser : Parser where
  parse_collection_filter := filter
  parse_table_filter := filter
  parse_collection_column_list_with_alias := column_list
  parse_table_column_list_with_alias := column_list
  parse_collection_column_list := column_list
  Expr_parser_expr := fun text _ => filter text

/-- A parser whose every function throws. -/
def throwing : Parser where
  parse_collection_filter := fun _ => .error (.parser_error "")
  parse_table_filter := fun _ => .error (.parser_error "")
  parse_collection_column_list_with_alias := fun l _ => .thrown (.parser_error "") l
  parse_table_column_list_with_alias := fun l _ => .thrown (.parser_error "") l
  parse_collection_column_list := fun l _ => .thrown (.parser_error "") l
  Expr_parser_expr := fun _ _ => .error (.parser_error "")

/-- A connection that accepts every message. -/
def connection : Connection where
  execute_find := fun _ => .ok { id := 1 }
  execute_insert := fun _ => .ok { id := 2 }
  execute_update := fun _ => .ok { id := 3 }
  execute_delete := fun _ => .ok { id := 4 }

/-- A transport on which nothing fails. -/
def transport : Transport where
  connection := fun _ => connection
  wait := fun _ => .ok ()

/-- A Schema with empty caches and the allocator next to it. -/
def registry : Schema × Heap :=
  ({ self := schema }, { next := 101 })

end Sample

/-- The ages of the seven documents of the unit test `find_execution`. -/
def Sample.ages : List Nat := [17, 15, 14, 13, 14, 16, 14]

/-- The outcome of an `execute()` that stopped at the completeness check: no call on the
transport and the logic error with text `what`. -/
def rejected (what : String) (x : Executed) : Prop :=
  x.events = [] ∧ x.result = .error (.logic_error what)

/-! ## Which calls add an update operation -/

/-- The operation type that a call on a Modify builder passes to `set_operation`; `none`
for the calls that do not add an operation. -/
def ModifyCall.kind : ModifyCall → Option Crud.UpdateOperation_UpdateType
  | .remove _ => some .ITEM_REMOVE
  | .set _ _ => some .ITEM_SET
  | .change _ _ => some .ITEM_REPLACE
  | .arrayAppend _ _ => some .ARRAY_APPEND
  | _ => none

/-- The operation type that a call on a table Update builder writes; `none` for the calls
that do not add an operation. -/
def UpdateCall.kind : UpdateCall → Option Crud.UpdateOperation_UpdateType
  | .set _ _ => some .SET
  | .set_expression _ _ => some .SET
  | _ => none

/-! ## Type tags of values -/

/-- The enum DocumentValue::Type, with the tags the builders name. -/
inductive DocumentValue_Type
  | TInteger | TFloat | TString | TDocument | TExpression
deriving DecidableEq, Repr

/-- The accessor DocumentValue::type(). -/
def DocumentValue.type : DocumentValue → DocumentValue_Type
  | .TInteger _ => .TInteger
  | .TFloat _ => .TFloat
  | .TString _ => .TString
  | .TDocument _ => .TDocument
  | .TExpression _ => .TExpression

/-- The enum TableValue::Type, with the tags the builders name. -/
inductive TableValue_Type
  | TInteger | TUInteger | TBool | TDouble | TFloat | TNull | TOctets | TString
deriving DecidableEq, Repr

/-- The accessor TableValue::type(). -/
def TableValue.type : TableValue → TableValue_Type
  | .TInteger _ => .TInteger
  | .TUInteger _ => .TUInteger
  | .TBool _ => .TBool
  | .TDouble _ => .TDouble
  | .TFloat _ => .TFloat
  | .TNull => .TNull
  | .TOctets _ => .TOctets
  | .TString _ => .TString

/-- The type tag of the scalar inside an Any, when there is one. -/
def scalar_tag (a : Datatypes.Any) : Option Datatypes.Scalar_Type :=
  a.scalar.bind (fun sc => sc.type)

/-- The invariant of section 3 of the specification on one update operation: an ITEM_REMOVE
carries no value, an operation of any other type carries one. -/
def operation_valued (op : Crud.UpdateOperation) : Prop :=
  if op.operation = some Crud.UpdateOperation_UpdateType.ITEM_REMOVE then op.value = none
  else op.value.isSome = true

/-! ## Uses of a builder over time -/

/-- What a caller does with a builder it holds: a chain call or `execute()`. -/
inductive Use (κ : Type)
  | call (c : κ)
  | execute
deriving DecidableEq, Repr

/-- A caller's sequence of uses of one builder, with the builder as the last use left it and
the calls made on the transport, in order.  No `execute()` function writes a member of its
builder, so the builder after `execute()` is the builder before; an exception of a chain
call or of `execute()` is caught by the caller, who goes on. -/
def uses {σ κ : Type} (step : σ → κ → Outcome σ) (exec : σ → Executed) :
    σ → List (Use κ) → σ × List Event
  | s, [] => (s, [])
  | s, .call c :: rest => uses step exec (step s c).state rest
  | s, .execute :: rest => ((uses step exec s rest).1, (exec s).events ++ (uses step exec s rest).2)

/-- A completeness check that asks for the locator to be present, as a sample. -/
def Sample.generated : Generated where
  Find_IsInitialized := fun m => m.collection.isSome
  Find_InitializationErrorString := fun _ => "collection"
  Insert_IsInitialized := fun m => m.collection.isSome
  Insert_InitializationErrorString := fun _ => "collection"
  Update_IsInitialized := fun m => m.collection.isSome
  Update_InitializationErrorString := fun _ => "collection"
  Delete_IsInitialized := fun m => m.collection.isSome
  Delete_InitializationErrorString := fun _ => "collection"

/-! ## Stages of the Find chain

The static types of a chain `coll.find(...).m1(...).m2(...)`: which class each method is
declared in and which class it returns a reference to, as written in the method definitions
of mysqlx_crud.cc. -/

/-- The classes of the Find builders. -/
inductive FindClass
  | Collection_Statement | Find_Base | Find_Skip | Find_Limit | Find_Sort | Find_Having
  | Find_GroupBy | FindStatement
deriving DecidableEq, Repr

/-- The methods that can be chained on a Find builder. -/
inductive FindMethod
  | fields | groupBy | having | sort | limit | skip | bind | execute
deriving DecidableEq, Repr

/-- The direct base class among the Find classes, read off the constructor initialisers
(`Find_Base(coll) : Collection_Statement(coll)`, `FindStatement(...) : Find_GroupBy(coll)`)
and off each `return *this;` in a method whose return type is a reference to another class
(`Find_Base &Find_Skip::skip`, `Find_Skip &Find_Limit::limit`, ...). -/
def FindClass.base : FindClass → Option FindClass
  | .Collection_Statement => none
  | .Find_Base => some .Collection_Statement
  | .Find_Skip => some .Find_Base
  | .Find_Limit => some .Find_Skip
  | .Find_Sort => some .Find_Limit
  | .Find_Having => some .Find_Sort
  | .Find_GroupBy => some .Find_Having
  | .FindStatement => some .Find_GroupBy

/-- Whether `c` is `b` or reaches `b` in at most `fuel` steps along the base classes. -/
def FindClass.derives_within : Nat → FindClass → FindClass → Bool
  | 0, c, b => c == b
  | fuel + 1, c, b =>
    c == b ||
      (match c.base with
       | some c' => FindClass.derives_within fuel c' b
       | none => false)

/-- Whether `c` is `b` or derives from it (eight classes: seven steps suffice). -/
def FindClass.derives_from (c b : FindClass) : Bool :=
  FindClass.derives_within 7 c b

/-- The class in which the method is defined (`Class::method`). -/
def FindMethod.declared_in : FindMethod → FindClass
  | .fields => .FindStatement
  | .groupBy => .Find_GroupBy
  | .having => .Find_Having
  | .sort => .Find_Sort
  | .limit => .Find_Limit
  | .skip => .Find_Skip
  | .bind => .Collection_Statement
  | .execute => .Find_Base

/-- The class the method returns a reference to; `none` for `execute`, which returns the
result. -/
def FindMethod.returns : FindMethod → Option FindClass
  | .fields => some .Find_GroupBy
  | .groupBy => some .Find_Having
  | .having => some .Find_Sort
  | .sort => some .Find_Limit
  | .limit => some .Find_Skip
  | .skip => some .Find_Base
  | .bind => some .Collection_Statement
  | .execute => none

/-- Whether an expression of static type `c` exposes the method: the method is declared in
`c` or in a base class of `c`.  `statement_execute` says whether the class Statement (whose
declaration is not among the sources) declares `execute`, in which case every class exposes
it. -/
def FindClass.exposes (statement_execute : Bool) (c : FindClass) (m : FindMethod) : Bool :=
  c.derives_from m.declared_in || (statement_execute && m == .execute)

/-- Whether `m1, m2, ...` is a legal chain on an expression of static type `c`: each method
is exposed by the type the method before it returned, and nothing follows `execute`. -/
def FindClass.legal_chain (statement_execute : Bool) : FindClass → List FindMethod → Bool
  | _, [] => true
  | c, m :: rest =>
    c.exposes statement_execute m &&
      (match m.returns with
       | some c' => FindClass.legal_chain statement_execute c' rest
       | none => rest.isEmpty)

/-- The place of a method in the stage order of the specification (section 4.3). -/
def FindMethod.stage : FindMethod → Nat
  | .fields => 1
  | .groupBy => 2
  | .having => 3
  | .sort => 4
  | .limit => 5
  | .skip => 6
  | .bind => 7
  | .execute => 8

end mysqlx

namespace shcore

/-! ## utils/utils_file.cc: get_mysqlx_home_path

Strings are handled through their characters; the separator is an ASCII character, so
splitting characters and splitting bytes give the same tokens. -/

/-- The ways in which get_mysqlx_home_path fails to return.  `out_of_range` is the exception
of `tokens.at`.  `read_past_array` is not an exception of the language: it stands for the
read beyond the end of the array `path` that `exe_path.assign(path)` makes when the array
holds no terminator, whose outcome the language leaves open. -/
inductive Exception
  | out_of_range
  | read_past_array
deriving DecidableEq, Repr

/-- The predicate `boost::is_any_of(set)`. -/
def is_any_of (set : String) (c : Char) : Bool :=
  set.data.contains c

/-- The call `boost::algorithm::split(tokens, input, pred, boost::token_compress_on)`, on
the characters of the input: a maximal run of separators ends one token and starts the
next, so a separator at the very start or end leaves an empty first or last token and no
other token is empty.  `in_run` says whether the character before was a separator. -/
def split_compress (pred : Char → Bool) : Bool → List Char → List (List Char)
  | _, [] => [[]]
  | in_run, c :: cs =>
    if pred c then
      if in_run then split_compress pred true cs
      else [] :: split_compress pred true cs
    else
      match split_compress pred false cs with
      | t :: ts => (c :: t) :: ts
      | [] => [[c]]

/-- The call `boost::algorithm::join(tokens, separator)`. -/
def join (separator : List Char) : List (List Char) → List Char
  | [] => []
  | [t] => t
  | t :: t' :: ts => t ++ separator ++ join separator (t' :: ts)

/-- The terminator of a C string. -/
def NUL : Char := Char.ofNat 0

/-- The call `readlink("/proc/self/exe", path, PATH_MAX)` as far as the array goes.  `link`
is the text of the link (`none` when the call fails), `path` the bytes of the array before
the call and `bufsiz` the size passed.  The first bytes of the array are overwritten with
the text, cut at `bufsiz` bytes; no terminator is written and the rest of the array is left
as it was.  The count that `readlink` returns is dropped by the caller. -/
def readlink (link : Option (List Char)) (path : List Char) (bufsiz : Nat) : List Char :=
  match link with
  | none => path
  | some text => text.take bufsiz ++ path.drop (min text.length bufsiz)

/-- The call `exe_path.assign(path)` for a `char` array: the bytes before the first
terminator; `none` when the array holds no terminator, so that the read runs past its
end. -/
def assign_c_str (path : List Char) : Option String :=
  if path.contains NUL then some (String.mk (path.takeWhile (fun c => c != NUL))) else none

/-- The part of get_mysqlx_home_path after the path of the executable has been read, from
`if (!exe_path.empty())` to the return, when MYSQLX_HOME is not set; `tokens.at` throws on
an empty vector. -/
def home_of_exe_path (exe_path : String) : Except Exception String :=
  let path_separator := "/"
  if !exe_path.isEmpty then
    let tokens := split_compress (is_any_of path_separator) false exe_path.data
    let tokens := tokens.dropLast
    match tokens.getLast? with
    | none => .error .out_of_range
    | some last =>
      if last = "bin".data then
        let tokens := tokens.dropLast
        .ok (String.mk (join path_separator.data tokens))
      else
        .ok ""
  else
    .ok ""

/-- The function get_mysqlx_home_path, in the branch compiled without WIN32 and without
__APPLE__.  `env_home` is `getenv("MYSQLX_HOME")` (`none` when it is not set), `link` is
the text of the link /proc/self/exe, and `path` is what the array `char path[PATH_MAX]`
holds when it is declared: the array is not initialised, so these are the bytes that were
left in that place; its length is PATH_MAX. -/
def get_mysqlx_home_path (env_home : Option String) (link : Option (List Char))
    (path : List Char) : Except Exception String :=
  match env_home with
  | some value => .ok value
  | none =>
    let path := readlink link path path.length
    match assign_c_str path with
    | none => .error .read_past_array
    | some exe_path => home_of_exe_path exe_path

/-- Whether the text has no two adjacent separators and does not end in a separator. -/
def compressed (pred : Char → Bool) : List Char → Bool
  | [] => true
  | [c] => !pred c
  | c :: d :: rest => !(pred c && pred d) && compressed pred (d :: rest)

end shcore

namespace mysqlx

open Mysqlx

/-! ## Assignment and copy of builders -/

/-- The copy constructor Find_Base::Find_Base(other). -/
def Find_Base.copy (other : Find_Base) : Find_Base :=
  { m_coll := other.m_coll, m_find := other.m_find }

/-- Find_Base::operator =. -/
def Find_Base.operator_eq (self other : Find_Base) : Find_Base :=
  { self with m_find := other.m_find }

/-- The copy constructor Add_Base::Add_Base(other). -/
def Add_Base.copy (other : Add_Base) : Add_Base :=
  { m_coll := other.m_coll, m_insert := other.m_insert }

/-- Add_Base::operator =. -/
def Add_Base.operator_eq (self other : Add_Base) : Add_Base :=
  { self with m_insert := other.m_insert }

/-- The copy constructor Remove_Base::Remove_Base(other). -/
def Remove_Base.copy (other : Remove_Base) : Remove_Base :=
  { m_coll := other.m_coll, m_delete := other.m_delete }

/-- Remove_Base::operator =. -/
def Remove_Base.operator_eq (self other : Remove_Base) : Remove_Base :=
  { self with m_delete := other.m_delete }

/-- The copy constructor Modify_Base::Modify_Base(other). -/
def Modify_Base.copy (other : Modify_Base) : Modify_Base :=
  { m_coll := other.m_coll, m_update := other.m_update }

/-- Modify_Base::operator =. -/
def Modify_Base.operator_eq (self other : Modify_Base) : Modify_Base :=
  let self := { self with m_coll := other.m_coll }
  { self with m_update := other.m_update }

/-- The copy constructor Delete_Base::Delete_Base(other). -/
def Delete_Base.copy (other : Delete_Base) : Delete_Base :=
  { m_table := other.m_table, m_delete := other.m_delete }

/-- Delete_Base::operator =. -/
def Delete_Base.operator_eq (self other : Delete_Base) : Delete_Base :=
  { self with m_delete := other.m_delete }

/-- The copy constructor Update_Base::Update_Base(other). -/
def Update_Base.copy (other : Update_Base) : Update_Base :=
  { m_table := other.m_table, m_update := other.m_update }

/-- Update_Base::operator =. -/
def Update_Base.operator_eq (self other : Update_Base) : Update_Base :=
  { self with m_update := other.m_update }

/-- The copy constructor Select_Base::Select_Base(other). -/
def Select_Base.copy (other : Select_Base) : Select_Base :=
  { m_table := other.m_table, m_find := other.m_find }

/-- Select_Base::operator =. -/
def Select_Base.operator_eq (self other : Select_Base) : Select_Base :=
  { self with m_find := other.m_find }

/-- The copy constructor Insert_Base::Insert_Base(other). -/
def Insert_Base.copy (other : Insert_Base) : Insert_Base :=
  { m_table := other.m_table, m_insert := other.m_insert }

/-- Insert_Base::operator =. -/
def Insert_Base.operator_eq (self other : Insert_Base) : Insert_Base :=
  { self with m_insert := other.m_insert }

/-! ## Sequencing of `execute()` -/

/-- What pure sequencing asks of one call of `execute()` whose check passed, given the send
event `send` of the builder's message, the answer `sent` of the connection to that send and
the function `wait`: exactly one message is handed to the transport and it is `send`;
nothing happens before it; when the send gave a pending result, the only other event is one
wait on that result, and the call returns that result unless the wait throws, whose error
it then passes on; when the send threw, nothing follows it and its error is passed on. -/
def execute_sequenced (send : Event) (sent : Except Error Result)
    (wait : Result → Except Error Unit) (x : Executed) : Prop :=
  x.events.filter Event.isSend = [send] ∧
  x.events.head? = some send ∧
  (∀ r, sent = .ok r →
    x.events = [send, .wait r] ∧
    x.result = (match wait r with
      | .ok _ => .ok r
      | .error e => .error e)) ∧
  (∀ e, sent = .error e → x.events = [send] ∧ x.result = .error e)

/-! ## States of the registry -/

/-- A Schema as its constructor leaves it: both caches empty. -/
def Schema.new (self : shared_ptr Schema_members) : Schema :=
  { self := self, m_tables := [], m_collections := [] }

/-- What holds of a Schema and its allocator after the constructor and any number of
lookups: every cached handle was given out by the allocator and carries the name it is
cached under, and within a cache two names never share an address. -/
def Registry_wf (st : Schema × Heap) : Prop :=
  (∀ n p, map_find st.1.m_tables n = some p → p.addr < st.2.next ∧ p.obj.m_name = n) ∧
  (∀ n p, map_find st.1.m_collections n = some p → p.addr < st.2.next ∧ p.obj.m_name = n) ∧
  (∀ n1 n2 p1 p2, map_find st.1.m_tables n1 = some p1 → map_find st.1.m_tables n2 = some p2 →
    p1.addr = p2.addr → n1 = n2) ∧
  (∀ n1 n2 p1 p2, map_find st.1.m_collections n1 = some p1 →
    map_find st.1.m_collections n2 = some p2 → p1.addr = p2.addr → n1 = n2)

/-! ## More sample data -/

/-- A column-list parser that returns two items, the first with a two-element path. -/
def Sample.long_column_list (l : List Crud.Projection) (text : String) :
    Outcome (List Crud.Projection) :=
  .returned (l ++ [{ target_path := [{ text := text }, { text := "street" }] },
    { target_path := [{ text := "other" }] }])

/-- The sample parser with `long_column_list` for the paths of a Modify builder. -/
def Sample.long_paths : Parser :=
  { Sample.parser with parse_collection_column_list := Sample.long_column_list }

/-- The sample parser, except that the path parser returns without adding an item. -/
def Sample.no_items : Parser :=
  { Sample.parser with parse_collection_column_list := fun l _ => .returned l }

/-- The sample parser, except that the path parser adds one item with an empty path. -/
def Sample.empty_path : Parser :=
  { Sample.parser with
    parse_collection_column_list := fun l _ => .returned (l ++ [{ target_path := [] }]) }

/-- A schema handle of a second session. -/
def Sample.schema2 : shared_ptr Schema_members :=
  { addr := 200, obj := { m_sess := 2, m_name := "other_schema" } }

/-- A collection handle of `schema2`. -/
def Sample.collection2 : shared_ptr Collection :=
  { addr := 201, obj := { m_schema := Sample.schema2, m_name := "collection2" } }

/-- A table handle of `schema2`. -/
def Sample.table2 : shared_ptr Table :=
  { addr := 202, obj := { m_schema := Sample.schema2, m_name := "table2" } }

/-- A transport whose connection of session 1 accepts every message and whose other
connections throw. -/
def Sample.one_session : Transport where
  connection := fun session =>
    if session = 1 then Sample.connection
    else
      { execute_find := fun _ => .error (.transport_error "not connected")
        execute_insert := fun _ => .error (.transport_error "not connected")
        execute_update := fun _ => .error (.transport_error "not connected")
        execute_delete := fun _ => .error (.transport_error "not connected") }
  wait := fun _ => .ok ()

/-! ## `execute()` as a call on a builder that the caller keeps

Each `execute()` is a non-const member function.  Here its body is written once more with
the builder it leaves behind at every exit: the check reads the message, the session is read
through the handle, the connection is given the message and does not write it, and no
statement of the body assigns to a member. -/

/-- Find_Base::execute, with the builder as the call leaves it. -/
def Find_Base.execute_on (g : Generated) (t : Transport) (self : Find_Base) :
    Find_Base × Executed :=
  if !g.Find_IsInitialized self.m_find then
    (self,
      { result := .error (.logic_error ("FindStatement is not completely initialized: "
          ++ g.Find_InitializationErrorString self.m_find)),
        events := [] })
  else
    let session := Collection.session self.m_coll
    match (t.connection session).execute_find self.m_find with
    | .error e => (self, { result := .error e, events := [.execute_find session self.m_find] })
    | .ok result =>
      match t.wait result with
      | .error e =>
        (self,
          { result := .error e, events := [.execute_find session self.m_find, .wait result] })
      | .ok _ =>
        (self,
          { result := .ok result, events := [.execute_find session self.m_find, .wait result] })

/-- Add_Base::execute, with the builder as the call leaves it. -/
def Add_Base.execute_on (g : Generated) (t : Transport) (self : Add_Base) :
    Add_Base × Executed :=
  if !g.Insert_IsInitialized self.m_insert then
    (self,
      { result := .error (.logic_error ("AddStatement is not completely initialized: "
          ++ g.Insert_InitializationErrorString self.m_insert)),
        events := [] })
  else
    let session := Collection.session self.m_coll
    match (t.connection session).execute_insert self.m_insert with
    | .error e => (self, { result := .error e, events := [.execute_insert session self.m_insert] })
    | .ok result =>
      match t.wait result with
      | .error e =>
        (self,
          { result := .error e, events := [.execute_insert session self.m_insert, .wait result] })
      | .ok _ =>
        (self,
          { result := .ok result, events := [.execute_insert session self.m_insert, .wait result] })

/-- Remove_Base::execute, with the builder as the call leaves it. -/
def Remove_Base.execute_on (g : Generated) (t : Transport) (self : Remove_Base) :
    Remove_Base × Executed :=
  if !g.Delete_IsInitialized self.m_delete then
    (self,
      { result := .error (.logic_error ("RemoveStatement is not completely initialized: "
          ++ g.Delete_InitializationErrorString self.m_delete)),
        events := [] })
  else
    let session := Collection.session self.m_coll
    match (t.connection session).execute_delete self.m_delete with
    | .error e => (self, { result := .error e, events := [.execute_delete session self.m_delete] })
    | .ok result =>
      match t.wait result with
      | .error e =>
        (self,
          { result := .error e, events := [.execute_delete session self.m_delete, .wait result] })
      | .ok _ =>
        (self,
          { result := .ok result, events := [.execute_delete session self.m_delete, .wait result] })

/-- Modify_Base::execute, with the builder as the call leaves it. -/
def Modify_Base.execute_on (g : Generated) (t : Transport) (self : Modify_Base) :
    Modify_Base × Executed :=
  if !g.Update_IsInitialized self.m_update then
    (self,
      { result := .error (.logic_error ("ModifyStatement is not completely initialized: "
          ++ g.Update_InitializationErrorString self.m_update)),
        events := [] })
  else
    let session := Collection.session self.m_coll
    match (t.connection session).execute_update self.m_update with
    | .error e => (self, { result := .error e, events := [.execute_update session self.m_update] })
    | .ok result =>
      match t.wait result with
      | .error e =>
        (self,
          { result := .error e, events := [.execute_update session self.m_update, .wait result] })
      | .ok _ =>
        (self,
          { result := .ok result, events := [.execute_update session self.m_update, .wait result] })

/-- Delete_Base::execute, with the builder as the call leaves it. -/
def Delete_Base.execute_on (g : Generated) (t : Transport) (self : Delete_Base) :
    Delete_Base × Executed :=
  if !g.Delete_IsInitialized self.m_delete then
    (self,
      { result := .error (.logic_error ("DeleteStatement is not completely initialized: "
          ++ g.Delete_InitializationErrorString self.m_delete)),
        events := [] })
  else
    let session := Table.session self.m_table
    match (t.connection session).execute_delete self.m_delete with
    | .error e => (self, { result := .error e, events := [.execute_delete session self.m_delete] })
    | .ok result =>
      match t.wait result with
      | .error e =>
        (self,
          { result := .error e, events := [.execute_delete session self.m_delete, .wait result] })
      | .ok _ =>
        (self,
          { result := .ok result, events := [.execute_delete session self.m_delete, .wait result] })

/-- Update_Base::execute, with the builder as the call leaves it. -/
def Update_Base.execute_on (g : Generated) (t : Transport) (self : Update_Base) :
    Update_Base × Executed :=
  if !g.Update_IsInitialized self.m_update then
    (self,
      { result := .error (.logic_error ("UpdateStatement is not completely initialized: "
          ++ g.Update_InitializationErrorString self.m_update)),
        events := [] })
  else
    let session := Table.session self.m_table
    match (t.connection session).execute_update self.m_update with
    | .error e => (self, { result := .error e, events := [.execute_update session self.m_update] })
    | .ok result =>
      match t.wait result with
      | .error e =>
        (self,
          { result := .error e, events := [.execute_update session self.m_update, .wait result] })
      | .ok _ =>
        (self,
          { result := .ok result, events := [.execute_update session self.m_update, .wait result] })

/-- Select_Base::execute, with the builder as the call leaves it. -/
def Select_Base.execute_on (g : Generated) (t : Transport) (self : Select_Base) :
    Select_Base × Executed :=
  if !g.Find_IsInitialized self.m_find then
    (self,
      { result := .error (.logic_error ("SelectStatement is not completely initialized: "
          ++ g.Find_InitializationErrorString self.m_find)),
        events := [] })
  else
    let session := Table.session self.m_table
    match (t.connection session).execute_find self.m_find with
    | .error e => (self, { result := .error e, events := [.execute_find session self.m_find] })
    | .ok result =>
      match t.wait result with
      | .error e =>
        (self,
          { result := .error e, events := [.execute_find session self.m_find, .wait result] })
      | .ok _ =>
        (self,
          { result := .ok result, events := [.execute_find session self.m_find, .wait result] })

/-- Insert_Base::execute, with the builder as the call leaves it. -/
def Insert_Base.execute_on (g : Generated) (t : Transport) (self : Insert_Base) :
    Insert_Base × Executed :=
  if !g.Insert_IsInitialized self.m_insert then
    (self,
      { result := .error (.logic_error ("InsertStatement is not completely initialized: "
          ++ g.Insert_InitializationErrorString self.m_insert)),
        events := [] })
  else
    let session := Table.session self.m_table
    match (t.connection session).execute_insert self.m_insert with
    | .error e => (self, { result := .error e, events := [.execute_insert session self.m_insert] })
    | .ok result =>
      match t.wait result with
      | .error e =>
        (self,
          { result := .error e, events := [.execute_insert session self.m_insert, .wait result] })
      | .ok _ =>
        (self,
          { result := .ok result, events := [.execute_insert session self.m_insert, .wait result] })

/-- A caller's sequence of uses of one builder, where each `execute()` hands on the builder
it leaves behind: the builder after the last use and the calls made on the transport, in
order.  An exception of a chain call or of `execute()` is caught by the caller, who goes
on. -/
def uses_on {σ κ : Type} (step : σ → κ → Outcome σ) (exec : σ → σ × Executed) :
    σ → List (Use κ) → σ × List Event
  | s, [] => (s, [])
  | s, .call c :: rest => uses_on step exec (step s c).state rest
  | s, .execute :: rest =>
    ((uses_on step exec (exec s).1 rest).1,
      (exec s).2.events ++ (uses_on step exec (exec s).1 rest).2)

end mysqlx

/-! # Theorems -/

namespace mysqlx

open Mysqlx

/-- C1: in each of the eight builder families and for every message state, `execute()`
hands the builder's message to the transport if and only if the generated completeness
check (IsInitialized) passes; when the check fails it throws the "not completely
initialized" logic error and makes no call on the transport. -/
theorem execute_sends_iff_initialized (g : Generated) (t : Transport)
    (f : Find_Base) (a : Add_Base) (r : Remove_Base) (m : Modify_Base)
    (d : Delete_Base) (u : Update_Base) (s : Select_Base) (i : Insert_Base) :
    execute_contract (g.Find_IsInitialized f.m_find)
        (.execute_find (Collection.session f.m_coll) f.m_find)
        ("FindStatement is not completely initialized: "
          ++ g.Find_InitializationErrorString f.m_find)
        (Find_Base.execute g t f) ∧
    execute_contract (g.Insert_IsInitialized a.m_insert)
        (.execute_insert (Collection.session a.m_coll) a.m_insert)
        ("AddStatement is not completely initialized: "
          ++ g.Insert_InitializationErrorString a.m_insert)
        (Add_Base.execute g t a) ∧
    execute_contract (g.Delete_IsInitialized r.m_delete)
        (.execute_delete (Collection.session r.m_coll) r.m_delete)
        ("RemoveStatement is not completely initialized: "
          ++ g.Delete_InitializationErrorString r.m_delete)
        (Remove_Base.execute g t r) ∧
    execute_contract (g.Update_IsInitialized m.m_update)
        (.execute_update (Collection.session m.m_coll) m.m_update)
        ("ModifyStatement is not completely initialized: "
          ++ g.Update_InitializationErrorString m.m_update)
        (Modify_Base.execute g t m) ∧
    execute_contract (g.Delete_IsInitialized d.m_delete)
        (.execute_delete (Table.session d.m_table) d.m_delete)
        ("DeleteStatement is not completely initialized: "
          ++ g.Delete_InitializationErrorString d.m_delete)
        (Delete_Base.execute g t d) ∧
    execute_contract (g.Update_IsInitialized u.m_update)
        (.execute_update (Table.session u.m_table) u.m_update)
        ("UpdateStatement is not completely initialized: "
          ++ g.Update_InitializationErrorString u.m_update)
        (Update_Base.execute g t u) ∧
    execute_contract (g.Find_IsInitialized s.m_find)
        (.execute_find (Table.session s.m_table) s.m_find)
        ("SelectStatement is not completely initialized: "
          ++ g.Find_InitializationErrorString s.m_find)
        (Select_Base.execute g t s) ∧
    execute_contract (g.Insert_IsInitialized i.m_insert)
        (.execute_insert (Table.session i.m_table) i.m_insert)
        ("InsertStatement is not completely initialized: "
          ++ g.Insert_InitializationErrorString i.m_insert)
        (Insert_Base.execute g t i) := by
  refine ⟨?_, ?_, ?_, ?_, ?_, ?_, ?_, ?_⟩
  · unfold Find_Base.execute execute_contract
    cases g.Find_IsInitialized f.m_find <;> simp
    cases (t.connection (Collection.session f.m_coll)).execute_find f.m_find <;> simp [Event.isSend]
    rename_i res
    cases t.wait res <;> simp [Event.isSend]
  · unfold Add_Base.execute execute_contract
    cases g.Insert_IsInitialized a.m_insert <;> simp
    cases (t.connection (Collection.session a.m_coll)).execute_insert a.m_insert <;>
      simp [Event.isSend]
    rename_i res
    cases t.wait res <;> simp [Event.isSend]
  · unfold Remove_Base.execute execute_contract
    cases g.Delete_IsInitialized r.m_delete <;> simp
    cases (t.connection (Collection.session r.m_coll)).execute_delete r.m_delete <;>
      simp [Event.isSend]
    rename_i res
    cases t.wait res <;> simp [Event.isSend]
  · unfold Modify_Base.execute execute_contract
    cases g.Update_IsInitialized m.m_update <;> simp
    cases (t.connection (Collection.session m.m_coll)).execute_update m.m_update <;>
      simp [Event.isSend]
    rename_i res
    cases t.wait res <;> simp [Event.isSend]
  · unfold Delete_Base.execute execute_contract
    cases g.Delete_IsInitialized d.m_delete <;> simp
    cases (t.connection (Table.session d.m_table)).execute_delete d.m_delete <;>
      simp [Event.isSend]
    rename_i res
    cases t.wait res <;> simp [Event.isSend]
  · unfold Update_Base.execute execute_contract
    cases g.Update_IsInitialized u.m_update <;> simp
    cases (t.connection (Table.session u.m_table)).execute_update u.m_update <;>
      simp [Event.isSend]
    rename_i res
    cases t.wait res <;> simp [Event.isSend]
  · unfold Select_Base.execute execute_contract
    cases g.Find_IsInitialized s.m_find <;> simp
    cases (t.connection (Table.session s.m_table)).execute_find s.m_find <;> simp [Event.isSend]
    rename_i res
    cases t.wait res <;> simp [Event.isSend]
  · unfold Insert_Base.execute execute_contract
    cases g.Insert_IsInitialized i.m_insert <;> simp
    cases (t.connection (Table.session i.m_table)).execute_insert i.m_insert <;>
      simp [Event.isSend]
    rename_i res
    cases t.wait res <;> simp [Event.isSend]

/-! ## Frame lemmas: what a chain call leaves alone -/

@[simp] theorem Outcome_state_returned {σ : Type} (s : σ) :
    (Outcome.returned s).state = s := rfl

@[simp] theorem Outcome_state_thrown {σ : Type} (e : Error) (s : σ) :
    (Outcome.thrown e s).state = s := rfl

theorem chain_state_invariant {σ κ : Type} (step : σ → κ → Outcome σ) (P : σ → Prop)
    (hstep : ∀ s c, P s → P (step s c).state) :
    ∀ (calls : List κ) (s : σ), P s → P (chain step s calls).state := by
  intro calls
  induction calls with
  | nil => intro s hs; simpa [chain] using hs
  | cons c rest ih =>
    intro s hs
    have h := hstep s c hs
    unfold chain
    cases hc : step s c with
    | returned s1 => rw [hc] at h; exact ih s1 h
    | thrown e s1 => rw [hc] at h; simpa using h

theorem chain_state_invariant_of {σ κ : Type} (step : σ → κ → Outcome σ) (P : σ → Prop)
    (ok : κ → Prop) (hstep : ∀ s c, ok c → P s → P (step s c).state) :
    ∀ (calls : List κ) (s : σ), (∀ c ∈ calls, ok c) → P s → P (chain step s calls).state := by
  intro calls
  induction calls with
  | nil => intro s _ hs; simpa [chain] using hs
  | cons c rest ih =>
    intro s hok hs
    have h := hstep s c (hok c (List.mem_cons_self c rest)) hs
    have hrest : ∀ c' ∈ rest, ok c' := fun c' hc' => hok c' (List.mem_cons_of_mem c hc')
    unfold chain
    cases hc : step s c with
    | returned s1 => rw [hc] at h; exact ih s1 hrest h
    | thrown e s1 => rw [hc] at h; simpa using h

theorem FindStatement_fields_frame (p : Parser) (s : Find_Base) (x : String) :
    (FindStatement.fields p s x).state.m_find.data_model = s.m_find.data_model ∧
    (FindStatement.fields p s x).state.m_find.collection = s.m_find.collection ∧
    (FindStatement.fields p s x).state.m_find.criteria = s.m_find.criteria ∧
    (FindStatement.fields p s x).state.m_find.limit = s.m_find.limit ∧
    (FindStatement.fields p s x).state.m_coll = s.m_coll := by
  unfold FindStatement.fields
  cases p.parse_collection_column_list_with_alias s.m_find.projection x <;> simp

theorem FindCall_apply_frame (p : Parser) (s : Find_Base) (c : FindCall) :
    (FindCall.apply p s c).state.m_find.data_model = s.m_find.data_model ∧
    (FindCall.apply p s c).state.m_find.collection = s.m_find.collection ∧
    (FindCall.apply p s c).state.m_coll = s.m_coll := by
  cases c <;>
    simp [FindCall.apply, Find_Skip.skip, Find_Limit.limit, Find_Sort.sort,
      Find_Having.having, Find_GroupBy.groupBy, Find_Base.bind, FindStatement_fields_frame]

theorem AddCall_apply_frame (s : Add_Base) (c : AddCall) :
    (AddCall.apply s c).state.m_insert.data_model = s.m_insert.data_model ∧
    (AddCall.apply s c).state.m_insert.collection = s.m_insert.collection ∧
    (AddCall.apply s c).state.m_coll = s.m_coll := by
  cases c <;> simp [AddCall.apply, AddStatement.add, Add_Base.bind]

theorem RemoveCall_apply_frame (s : Remove_Base) (c : RemoveCall) :
    (RemoveCall.apply s c).state.m_delete.data_model = s.m_delete.data_model ∧
    (RemoveCall.apply s c).state.m_delete.collection = s.m_delete.collection ∧
    (RemoveCall.apply s c).state.m_coll = s.m_coll := by
  cases c <;> simp [RemoveCall.apply, Remove_Limit.limit, RemoveStatement.sort, Remove_Base.bind]

theorem Modify_Operation_set_operation_frame (p : Parser) (s : Modify_Base)
    (ty : Crud.UpdateOperation_UpdateType) (path : String) (v : Option DocumentValue) :
    (Modify_Operation.set_operation p s ty path v).state.m_update.data_model
      = s.m_update.data_model ∧
    (Modify_Operation.set_operation p s ty path v).state.m_update.collection
      = s.m_update.collection ∧
    (Modify_Operation.set_operation p s ty path v).state.m_update.criteria
      = s.m_update.criteria ∧
    (Modify_Operation.set_operation p s ty path v).state.m_update.limit
      = s.m_update.limit ∧
    (Modify_Operation.set_operation p s ty path v).state.m_coll = s.m_coll := by
  unfold Modify_Operation.set_operation
  cases p.parse_collection_column_list [] path with
  | thrown e l => simp
  | returned items =>
    cases items with
    | nil => simp [Modify_Base.add_operation]
    | cons i0 rest =>
      cases h0 : i0.target_path with
      | nil => simp [Modify_Base.add_operation, h0]
      | cons item more =>
        cases v with
        | none => simp [Modify_Base.add_operation, h0]
        | some val =>
          by_cases hx : val.isTExpression = true
          · cases hp : p.Expr_parser_expr val.to_string true <;>
              simp [Modify_Base.add_operation, h0, hx, hp]
          · simp [Modify_Base.add_operation, h0, hx]

theorem ModifyCall_apply_frame (p : Parser) (s : Modify_Base) (c : ModifyCall) :
    (ModifyCall.apply p s c).state.m_update.data_model = s.m_update.data_model ∧
    (ModifyCall.apply p s c).state.m_update.collection = s.m_update.collection ∧
    (ModifyCall.apply p s c).state.m_coll = s.m_coll := by
  cases c <;>
    simp [ModifyCall.apply, Modify_Limit.limit, Modify_Sort.sort,
      Modify_Operation.arrayInsert, Modify_Base.bind, Modify_Operation.remove,
      Modify_Operation.set, Modify_Operation.change, Modify_Operation.arrayAppend,
      Modify_Operation_set_operation_frame]

theorem DeleteStatement_where_frame (p : Parser) (s : Delete_Base) (x : String) :
    (DeleteStatement.where_ p s x).state.m_delete.data_model = s.m_delete.data_model ∧
    (DeleteStatement.where_ p s x).state.m_delete.collection = s.m_delete.collection ∧
    (DeleteStatement.where_ p s x).state.m_delete.limit = s.m_delete.limit ∧
    (DeleteStatement.where_ p s x).state.m_table = s.m_table := by
  unfold DeleteStatement.where_
  by_cases hx : x.isEmpty = true
  · simp [hx]
  · cases hp : p.parse_table_filter x <;> simp [hx, hp]

theorem DeleteCall_apply_frame (p : Parser) (s : Delete_Base) (c : DeleteCall) :
    (DeleteCall.apply p s c).state.m_delete.data_model = s.m_delete.data_model ∧
    (DeleteCall.apply p s c).state.m_delete.collection = s.m_delete.collection ∧
    (DeleteCall.apply p s c).state.m_table = s.m_table := by
  cases c <;>
    simp [DeleteCall.apply, Delete_Limit.limit, Delete_OrderBy.orderBy,
      DeleteStatement_where_frame]

theorem Update_Where_where_frame (p : Parser) (s : Update_Base) (x : String) :
    (Update_Where.where_ p s x).state.m_update.data_model = s.m_update.data_model ∧
    (Update_Where.where_ p s x).state.m_update.collection = s.m_update.collection ∧
    (Update_Where.where_ p s x).state.m_update.limit = s.m_update.limit ∧
    (Update_Where.where_ p s x).state.m_table = s.m_table := by
  unfold Update_Where.where_
  by_cases hx : x.isEmpty = true
  · simp [hx]
  · cases hp : p.parse_table_filter x <;> simp [hx, hp]

theorem Update_Set_set_expression_frame (p : Parser) (s : Update_Base) (f x : String) :
    (Update_Set.set_expression p s f x).state.m_update.data_model = s.m_update.data_model ∧
    (Update_Set.set_expression p s f x).state.m_update.collection = s.m_update.collection ∧
    (Update_Set.set_expression p s f x).state.m_update.limit = s.m_update.limit ∧
    (Update_Set.set_expression p s f x).state.m_table = s.m_table := by
  unfold Update_Set.set_expression
  cases hp : p.Expr_parser_expr x false <;> simp [Update_Base.add_operation, hp]

theorem UpdateCall_apply_frame (p : Parser) (s : Update_Base) (c : UpdateCall) :
    (UpdateCall.apply p s c).state.m_update.data_model = s.m_update.data_model ∧
    (UpdateCall.apply p s c).state.m_update.collection = s.m_update.collection ∧
    (UpdateCall.apply p s c).state.m_table = s.m_table := by
  cases c <;>
    simp [UpdateCall.apply, Update_Limit.limit, Update_OrderBy.orderBy, Update_Set.set,
      Update_Base.add_operation, Update_Where_where_frame, Update_Set_set_expression_frame]

theorem SelectStatement_where_frame (p : Parser) (s : Select_Base) (x : String) :
    (SelectStatement.where_ p s x).state.m_find.data_model = s.m_find.data_model ∧
    (SelectStatement.where_ p s x).state.m_find.collection = s.m_find.collection ∧
    (SelectStatement.where_ p s x).state.m_find.limit = s.m_find.limit ∧
    (SelectStatement.where_ p s x).state.m_table = s.m_table := by
  unfold SelectStatement.where_
  by_cases hx : x.isEmpty = true
  · simp [hx]
  · cases hp : p.parse_table_filter x <;> simp [hx, hp]

theorem SelectCall_apply_frame (p : Parser) (s : Select_Base) (c : SelectCall) :
    (SelectCall.apply p s c).state.m_find.data_model = s.m_find.data_model ∧
    (SelectCall.apply p s c).state.m_find.collection = s.m_find.collection ∧
    (SelectCall.apply p s c).state.m_table = s.m_table := by
  cases c <;>
    simp [SelectCall.apply, Select_Offset.offset, Select_Limit.limit, Select_OrderBy.orderBy,
      Select_Having.having, Select_GroupBy.groupBy, SelectStatement_where_frame]

theorem InsertStatement_insert_frame (columns : List String) :
    ∀ s : Insert_Base,
      (InsertStatement.insert s columns).m_insert.data_model = s.m_insert.data_model ∧
      (InsertStatement.insert s columns).m_insert.collection = s.m_insert.collection ∧
      (InsertStatement.insert s columns).m_insert.row = s.m_insert.row ∧
      (InsertStatement.insert s columns).m_table = s.m_table := by
  induction columns with
  | nil => intro s; simp [InsertStatement.insert]
  | cons c rest ih =>
    intro s
    have h := ih { s with
      m_insert := { s.m_insert with projection := s.m_insert.projection ++ [{ name := some c }] } }
    simpa [InsertStatement.insert] using h

theorem InsertCall_apply_frame (s : Insert_Base) (c : InsertCall) :
    (InsertCall.apply s c).state.m_insert.data_model = s.m_insert.data_model ∧
    (InsertCall.apply s c).state.m_insert.collection = s.m_insert.collection ∧
    (InsertCall.apply s c).state.m_table = s.m_table := by
  cases c with
  | values row_data => simp [InsertCall.apply, Insert_Values.values]
  | insert columns =>
    have h := InsertStatement_insert_frame columns s
    simp [InsertCall.apply, h.1, h.2.1, h.2.2.2]

/-! ## What the factories build -/

theorem Collection_find_ok (p : Parser) (c : shared_ptr Collection) (cond : String)
    (s : Find_Base) (h : Collection.find p c cond = .ok s) :
    s.m_find.data_model = some Crud.DataModel.DOCUMENT ∧
    s.m_find.collection
      = some { schema := some (Collection.schema_name c), name := some (Collection.name c) } ∧
    s.m_find.limit = none ∧ s.m_coll = c := by
  unfold Collection.find FindStatement.new at h
  by_cases hx : cond.isEmpty = true
  · simp [hx, Find_Base.mk_empty, Crud.Collection.set_schema, Crud.Collection.set_name] at h
    subst h
    simp
  · cases hp : p.parse_collection_filter cond with
    | error e => simp [hx, hp] at h
    | ok e =>
      simp [hx, hp, Find_Base.mk_empty, Crud.Collection.set_schema,
        Crud.Collection.set_name] at h
      subst h
      simp

theorem Collection_modify_ok (p : Parser) (c : shared_ptr Collection) (cond : String)
    (s : Modify_Base) (h : Collection.modify p c cond = .ok s) :
    s.m_update.data_model = some Crud.DataModel.DOCUMENT ∧
    s.m_update.collection
      = some { schema := some (Collection.schema_name c), name := some (Collection.name c) } ∧
    s.m_update.limit = none ∧ s.m_update.operation = [] ∧ s.m_coll = c := by
  unfold Collection.modify ModifyStatement.new at h
  by_cases hx : cond.isEmpty = true
  · simp [hx, Modify_Base.mk_empty, Crud.Collection.set_schema, Crud.Collection.set_name] at h
    subst h
    simp
  · cases hp : p.parse_collection_filter cond with
    | error e => simp [hx, hp] at h
    | ok e =>
      simp [hx, hp, Modify_Base.mk_empty, Crud.Collection.set_schema,
        Crud.Collection.set_name] at h
      subst h
      simp

theorem Collection_remove_ok (p : Parser) (c : shared_ptr Collection) (cond : String)
    (s : Remove_Base) (h : Collection.remove p c cond = .ok s) :
    s.m_delete.data_model = some Crud.DataModel.DOCUMENT ∧
    s.m_delete.collection
      = some { schema := some (Collection.schema_name c), name := some (Collection.name c) } ∧
    s.m_delete.limit = none ∧ s.m_coll = c := by
  unfold Collection.remove RemoveStatement.new at h
  by_cases hx : cond.isEmpty = true
  · simp [hx, Remove_Base.mk_empty, Crud.Collection.set_schema, Crud.Collection.set_name] at h
    subst h
    simp
  · cases hp : p.parse_collection_filter cond with
    | error e => simp [hx, hp] at h
    | ok e =>
      simp [hx, hp, Remove_Base.mk_empty, Crud.Collection.set_schema,
        Crud.Collection.set_name] at h
      subst h
      simp

theorem Table_select_ok (p : Parser) (t : shared_ptr Table) (fieldList : String)
    (s : Select_Base) (h : Table.select p t fieldList = .ok s) :
    s.m_find.data_model = some Crud.DataModel.TABLE ∧
    s.m_find.collection
      = some { schema := some (Table.schema_name t), name := some (Table.name t) } ∧
    s.m_find.limit = none ∧ s.m_find.criteria = none ∧ s.m_table = t := by
  unfold Table.select SelectStatement.new at h
  by_cases hx : fieldList.isEmpty = true
  · simp [hx, Select_Base.mk_empty, Crud.Collection.set_schema, Crud.Collection.set_name] at h
    subst h
    simp
  · simp only [hx, Bool.not_false, if_true, Select_Base.mk_empty] at h
    cases hp : p.parse_table_column_list_with_alias [] fieldList with
    | thrown e l => simp [hp] at h
    | returned l =>
      simp [hp, Crud.Collection.set_schema, Crud.Collection.set_name] at h
      subst h
      simp

theorem Collection_add_built (c : shared_ptr Collection) (doc : Document) :
    (Collection.add c doc).m_insert.data_model = some Crud.DataModel.DOCUMENT ∧
    (Collection.add c doc).m_insert.collection
      = some { schema := some (Collection.schema_name c), name := some (Collection.name c) } ∧
    (Collection.add c doc).m_coll = c := by
  simp [Collection.add, AddStatement.new, AddStatement.add, Add_Base.mk_empty,
    Crud.Collection.set_schema, Crud.Collection.set_name]

theorem Table_insert_built (t : shared_ptr Table) :
    (Table.insert t).m_insert.data_model = some Crud.DataModel.TABLE ∧
    (Table.insert t).m_insert.collection
      = some { schema := some (Table.schema_name t), name := some (Table.name t) } ∧
    (Table.insert t).m_table = t := by
  simp [Table.insert, InsertStatement.new, Insert_Base.mk_empty,
    Crud.Collection.set_schema, Crud.Collection.set_name]

theorem Table_update_built (t : shared_ptr Table) :
    (Table.update t).m_update.data_model = some Crud.DataModel.TABLE ∧
    (Table.update t).m_update.collection
      = some { schema := some (Table.schema_name t), name := some (Table.name t) } ∧
    (Table.update t).m_update.limit = none ∧ (Table.update t).m_update.criteria = none ∧
    (Table.update t).m_update.operation = [] ∧ (Table.update t).m_table = t := by
  simp [Table.update, UpdateStatement.new, Update_Base.mk_empty,
    Crud.Collection.set_schema, Crud.Collection.set_name]

theorem Table_remove_built (t : shared_ptr Table) :
    (Table.remove t).m_delete.data_model = some Crud.DataModel.TABLE ∧
    (Table.remove t).m_delete.collection
      = some { schema := some (Table.schema_name t), name := some (Table.name t) } ∧
    (Table.remove t).m_delete.limit = none ∧ (Table.remove t).m_delete.criteria = none ∧
    (Table.remove t).m_table = t := by
  simp [Table.remove, DeleteStatement.new, Delete_Base.mk_empty,
    Crud.Collection.set_schema, Crud.Collection.set_name]

/-- C2: the message built by a Collection factory (find, add, modify, remove) has data_model
DOCUMENT, the message built by a Table factory (select, insert, update, remove) has
data_model TABLE, and after any sequence of chain calls on the builder (whether the sequence
runs to its end or stops at an exception) data_model still has that value.  This holds for
every target, so in particular for targets with non-empty schema and object names. -/
theorem data_model_fixed_by_factory (p : Parser) (c : shared_ptr Collection)
    (t : shared_ptr Table) (cond fieldList : String) (doc : Document) :
    (∀ s, Collection.find p c cond = .ok s → ∀ calls,
      (chain (FindCall.apply p) s calls).state.m_find.data_model
        = some Crud.DataModel.DOCUMENT) ∧
    (∀ calls, (chain AddCall.apply (Collection.add c doc) calls).state.m_insert.data_model
        = some Crud.DataModel.DOCUMENT) ∧
    (∀ s, Collection.modify p c cond = .ok s → ∀ calls,
      (chain (ModifyCall.apply p) s calls).state.m_update.data_model
        = some Crud.DataModel.DOCUMENT) ∧
    (∀ s, Collection.remove p c cond = .ok s → ∀ calls,
      (chain RemoveCall.apply s calls).state.m_delete.data_model
        = some Crud.DataModel.DOCUMENT) ∧
    (∀ s, Table.select p t fieldList = .ok s → ∀ calls,
      (chain (SelectCall.apply p) s calls).state.m_find.data_model
        = some Crud.DataModel.TABLE) ∧
    (∀ calls, (chain InsertCall.apply (Table.insert t) calls).state.m_insert.data_model
        = some Crud.DataModel.TABLE) ∧
    (∀ calls, (chain (UpdateCall.apply p) (Table.update t) calls).state.m_update.data_model
        = some Crud.DataModel.TABLE) ∧
    (∀ calls, (chain (DeleteCall.apply p) (Table.remove t) calls).state.m_delete.data_model
        = some Crud.DataModel.TABLE) := by
  refine ⟨?_, ?_, ?_, ?_, ?_, ?_, ?_, ?_⟩
  · intro s h calls
    exact chain_state_invariant (FindCall.apply p)
      (fun x => x.m_find.data_model = some Crud.DataModel.DOCUMENT)
      (fun x k hx => ((FindCall_apply_frame p x k).1).trans hx) calls s
      (Collection_find_ok p c cond s h).1
  · intro calls
    exact chain_state_invariant AddCall.apply
      (fun x => x.m_insert.data_model = some Crud.DataModel.DOCUMENT)
      (fun x k hx => ((AddCall_apply_frame x k).1).trans hx) calls _
      (Collection_add_built c doc).1
  · intro s h calls
    exact chain_state_invariant (ModifyCall.apply p)
      (fun x => x.m_update.data_model = some Crud.DataModel.DOCUMENT)
      (fun x k hx => ((ModifyCall_apply_frame p x k).1).trans hx) calls s
      (Collection_modify_ok p c cond s h).1
  · intro s h calls
    exact chain_state_invariant RemoveCall.apply
      (fun x => x.m_delete.data_model = some Crud.DataModel.DOCUMENT)
      (fun x k hx => ((RemoveCall_apply_frame x k).1).trans hx) calls s
      (Collection_remove_ok p c cond s h).1
  · intro s h calls
    exact chain_state_invariant (SelectCall.apply p)
      (fun x => x.m_find.data_model = some Crud.DataModel.TABLE)
      (fun x k hx => ((SelectCall_apply_frame p x k).1).trans hx) calls s
      (Table_select_ok p t fieldList s h).1
  · intro calls
    exact chain_state_invariant InsertCall.apply
      (fun x => x.m_insert.data_model = some Crud.DataModel.TABLE)
      (fun x k hx => ((InsertCall_apply_frame x k).1).trans hx) calls _
      (Table_insert_built t).1
  · intro calls
    exact chain_state_invariant (UpdateCall.apply p)
      (fun x => x.m_update.data_model = some Crud.DataModel.TABLE)
      (fun x k hx => ((UpdateCall_apply_frame p x k).1).trans hx) calls _
      (Table_update_built t).1
  · intro calls
    exact chain_state_invariant (DeleteCall.apply p)
      (fun x => x.m_delete.data_model = some Crud.DataModel.TABLE)
      (fun x k hx => ((DeleteCall_apply_frame p x k).1).trans hx) calls _
      (Table_remove_built t).1

/-- Witness of C2 on the sample collection and table: `find('age < 17')` followed by limit,
skip, fields and sort, and `select('name')` followed by where and limit. -/
theorem data_model_fixed_by_factory_witness :
    (∃ s, Collection.find Sample.parser Sample.collection1 "age < 17" = .ok s ∧
      (chain (FindCall.apply Sample.parser) s
        [.limit 4, .skip 1, .fields "name", .sort "age"]).state.m_find.data_model
        = some Crud.DataModel.DOCUMENT) ∧
    (∃ s, Table.select Sample.parser Sample.table1 "name" = .ok s ∧
      (chain (SelectCall.apply Sample.parser) s
        [.where_ "age < 17", .limit 4]).state.m_find.data_model
        = some Crud.DataModel.TABLE) :=
  ⟨⟨_, rfl,
      (data_model_fixed_by_factory Sample.parser Sample.collection1 Sample.table1
        "age < 17" "name" { str := "" }).1 _ rfl _⟩,
    ⟨_, rfl,
      (data_model_fixed_by_factory Sample.parser Sample.collection1 Sample.table1
        "age < 17" "name" { str := "" }).2.2.2.2.1 _ rfl _⟩⟩

/-- C3: the locator of the message built by each factory carries the name of the schema that
owns the handle and the name of the handle, and after any sequence of chain calls on the
builder (run to its end or stopped by an exception) the locator is still that one. -/
theorem locator_fixed_by_factory (p : Parser) (c : shared_ptr Collection)
    (t : shared_ptr Table) (cond fieldList : String) (doc : Document) :
    (∀ s, Collection.find p c cond = .ok s → ∀ calls,
      (chain (FindCall.apply p) s calls).state.m_find.collection
        = some { schema := some c.obj.m_schema.obj.m_name, name := some c.obj.m_name }) ∧
    (∀ calls, (chain AddCall.apply (Collection.add c doc) calls).state.m_insert.collection
        = some { schema := some c.obj.m_schema.obj.m_name, name := some c.obj.m_name }) ∧
    (∀ s, Collection.modify p c cond = .ok s → ∀ calls,
      (chain (ModifyCall.apply p) s calls).state.m_update.collection
        = some { schema := some c.obj.m_schema.obj.m_name, name := some c.obj.m_name }) ∧
    (∀ s, Collection.remove p c cond = .ok s → ∀ calls,
      (chain RemoveCall.apply s calls).state.m_delete.collection
        = some { schema := some c.obj.m_schema.obj.m_name, name := some c.obj.m_name }) ∧
    (∀ s, Table.select p t fieldList = .ok s → ∀ calls,
      (chain (SelectCall.apply p) s calls).state.m_find.collection
        = some { schema := some t.obj.m_schema.obj.m_name, name := some t.obj.m_name }) ∧
    (∀ calls, (chain InsertCall.apply (Table.insert t) calls).state.m_insert.collection
        = some { schema := some t.obj.m_schema.obj.m_name, name := some t.obj.m_name }) ∧
    (∀ calls, (chain (UpdateCall.apply p) (Table.update t) calls).state.m_update.collection
        = some { schema := some t.obj.m_schema.obj.m_name, name := some t.obj.m_name }) ∧
    (∀ calls, (chain (DeleteCall.apply p) (Table.remove t) calls).state.m_delete.collection
        = some { schema := some t.obj.m_schema.obj.m_name, name := some t.obj.m_name }) := by
  refine ⟨?_, ?_, ?_, ?_, ?_, ?_, ?_, ?_⟩
  · intro s h calls
    exact chain_state_invariant (FindCall.apply p)
      (fun x => x.m_find.collection
        = some { schema := some c.obj.m_schema.obj.m_name, name := some c.obj.m_name })
      (fun x k hx => ((FindCall_apply_frame p x k).2.1).trans hx) calls s
      (Collection_find_ok p c cond s h).2.1
  · intro calls
    exact chain_state_invariant AddCall.apply
      (fun x => x.m_insert.collection
        = some { schema := some c.obj.m_schema.obj.m_name, name := some c.obj.m_name })
      (fun x k hx => ((AddCall_apply_frame x k).2.1).trans hx) calls _
      (Collection_add_built c doc).2.1
  · intro s h calls
    exact chain_state_invariant (ModifyCall.apply p)
      (fun x => x.m_update.collection
        = some { schema := some c.obj.m_schema.obj.m_name, name := some c.obj.m_name })
      (fun x k hx => ((ModifyCall_apply_frame p x k).2.1).trans hx) calls s
      (Collection_modify_ok p c cond s h).2.1
  · intro s h calls
    exact chain_state_invariant RemoveCall.apply
      (fun x => x.m_delete.collection
        = some { schema := some c.obj.m_schema.obj.m_name, name := some c.obj.m_name })
      (fun x k hx => ((RemoveCall_apply_frame x k).2.1).trans hx) calls s
      (Collection_remove_ok p c cond s h).2.1
  · intro s h calls
    exact chain_state_invariant (SelectCall.apply p)
      (fun x => x.m_find.collection
        = some { schema := some t.obj.m_schema.obj.m_name, name := some t.obj.m_name })
      (fun x k hx => ((SelectCall_apply_frame p x k).2.1).trans hx) calls s
      (Table_select_ok p t fieldList s h).2.1
  · intro calls
    exact chain_state_invariant InsertCall.apply
      (fun x => x.m_insert.collection
        = some { schema := some t.obj.m_schema.obj.m_name, name := some t.obj.m_name })
      (fun x k hx => ((InsertCall_apply_frame x k).2.1).trans hx) calls _
      (Table_insert_built t).2.1
  · intro calls
    exact chain_state_invariant (UpdateCall.apply p)
      (fun x => x.m_update.collection
        = some { schema := some t.obj.m_schema.obj.m_name, name := some t.obj.m_name })
      (fun x k hx => ((UpdateCall_apply_frame p x k).2.1).trans hx) calls _
      (Table_update_built t).2.1
  · intro calls
    exact chain_state_invariant (DeleteCall.apply p)
      (fun x => x.m_delete.collection
        = some { schema := some t.obj.m_schema.obj.m_name, name := some t.obj.m_name })
      (fun x k hx => ((DeleteCall_apply_frame p x k).2.1).trans hx) calls _
      (Table_remove_built t).2.1

/-- Witness of C3 on the sample collection: `remove('age < 17')` followed by limit and sort
still targets js_shell_test.collection1, and so does `modify('age < 17')` followed by set. -/
theorem locator_fixed_by_factory_witness :
    (∃ s, Collection.remove Sample.parser Sample.collection1 "age < 17" = .ok s ∧
      (chain RemoveCall.apply s [.limit 2, .sort "age"]).state.m_delete.collection
        = some { schema := some "js_shell_test", name := some "collection1" }) ∧
    (∃ s, Collection.modify Sample.parser Sample.collection1 "age < 17" = .ok s ∧
      (chain (ModifyCall.apply Sample.parser) s
        [.set "age" (.TInteger 18)]).state.m_update.collection
        = some { schema := some "js_shell_test", name := some "collection1" }) :=
  ⟨⟨_, rfl,
      (locator_fixed_by_factory Sample.parser Sample.collection1 Sample.table1
        "age < 17" "name" { str := "" }).2.2.2.1 _ rfl _⟩,
    ⟨_, rfl,
      (locator_fixed_by_factory Sample.parser Sample.collection1 Sample.table1
        "age < 17" "name" { str := "" }).2.2.1 _ rfl _⟩⟩

/-! ## Criteria -/

theorem String_isEmpty_false_of_ne {s : String} (h : s ≠ "") : s.isEmpty = false := by
  cases hs : s.isEmpty with
  | false => rfl
  | true => exact absurd ((String.isEmpty_iff s).1 hs) h

/-- C4: with an empty condition text the factories find, modify and remove build a message
without criteria and do so whatever the parser is (two parsers give the same result, so the
parser is not consulted), and `where` on a Select, Update or Delete builder returns the
builder unchanged; with a non-empty condition text the criteria is the expression the filter
parser returns for that text (the collection filter parser for find, modify and remove, the
table filter parser for `where`), and the call throws what the parser throws. -/
theorem criteria_from_condition (p q : Parser) (c : shared_ptr Collection) (cond : String)
    (sel : Select_Base) (upd : Update_Base) (del : Delete_Base) :
    (Collection.find p c "" = Collection.find q c "" ∧
      (Collection.find p c "").map (fun s => s.m_find.criteria) = .ok none) ∧
    (Collection.modify p c "" = Collection.modify q c "" ∧
      (Collection.modify p c "").map (fun s => s.m_update.criteria) = .ok none) ∧
    (Collection.remove p c "" = Collection.remove q c "" ∧
      (Collection.remove p c "").map (fun s => s.m_delete.criteria) = .ok none) ∧
    SelectStatement.where_ p sel "" = .returned sel ∧
    Update_Where.where_ p upd "" = .returned upd ∧
    DeleteStatement.where_ p del "" = .returned del ∧
    (cond ≠ "" →
      (Collection.find p c cond).map (fun s => s.m_find.criteria)
        = (p.parse_collection_filter cond).map some ∧
      (Collection.modify p c cond).map (fun s => s.m_update.criteria)
        = (p.parse_collection_filter cond).map some ∧
      (Collection.remove p c cond).map (fun s => s.m_delete.criteria)
        = (p.parse_collection_filter cond).map some ∧
      SelectStatement.where_ p sel cond
        = (match p.parse_table_filter cond with
           | .ok e => .returned { sel with m_find := { sel.m_find with criteria := some e } }
           | .error err => .thrown err sel) ∧
      Update_Where.where_ p upd cond
        = (match p.parse_table_filter cond with
           | .ok e => .returned { upd with m_update := { upd.m_update with criteria := some e } }
           | .error err => .thrown err upd) ∧
      DeleteStatement.where_ p del cond
        = (match p.parse_table_filter cond with
           | .ok e => .returned { del with m_delete := { del.m_delete with criteria := some e } }
           | .error err => .thrown err del)) := by
  have hempty : ("" : String).isEmpty = true := by decide
  refine ⟨⟨?_, ?_⟩, ⟨?_, ?_⟩, ⟨?_, ?_⟩, ?_, ?_, ?_, ?_⟩
  · simp [Collection.find, FindStatement.new, hempty]
  · simp [Collection.find, FindStatement.new, hempty, Find_Base.mk_empty, Except.map]
  · simp [Collection.modify, ModifyStatement.new, hempty]
  · simp [Collection.modify, ModifyStatement.new, hempty, Modify_Base.mk_empty, Except.map]
  · simp [Collection.remove, RemoveStatement.new, hempty]
  · simp [Collection.remove, RemoveStatement.new, hempty, Remove_Base.mk_empty, Except.map]
  · simp [SelectStatement.where_, hempty]
  · simp [Update_Where.where_, hempty]
  · simp [DeleteStatement.where_, hempty]
  · intro hne
    have hx := String_isEmpty_false_of_ne hne
    refine ⟨?_, ?_, ?_, ?_, ?_, ?_⟩
    · unfold Collection.find FindStatement.new
      cases hp : p.parse_collection_filter cond <;> simp [hx, hp, Except.map]
    · unfold Collection.modify ModifyStatement.new
      cases hp : p.parse_collection_filter cond <;> simp [hx, hp, Except.map]
    · unfold Collection.remove RemoveStatement.new
      cases hp : p.parse_collection_filter cond <;> simp [hx, hp, Except.map]
    · simp [SelectStatement.where_, hx]
    · simp [Update_Where.where_, hx]
    · simp [DeleteStatement.where_, hx]

/-- Witness of C4: the condition 'age < 17' on the sample collection and on a Select builder
of the sample table. -/
theorem criteria_from_condition_witness :
    "age < 17" ≠ "" ∧
    (Collection.find Sample.parser Sample.collection1 "age < 17").map
        (fun s => s.m_find.criteria)
      = .ok (some { type := some .OPERATOR, tree := "age < 17" }) ∧
    (SelectStatement.where_ Sample.parser (Select_Base.mk_empty Sample.table1) "age < 17").state.m_find.criteria
      = some { type := some .OPERATOR, tree := "age < 17" } :=
  ⟨by decide,
    ((criteria_from_condition Sample.parser Sample.throwing Sample.collection1 "age < 17"
      (Select_Base.mk_empty Sample.table1) (Update_Base.mk_empty Sample.table1)
      (Delete_Base.mk_empty Sample.table1)).2.2.2.2.2.2 (by decide)).1,
    by
      rw [((criteria_from_condition Sample.parser Sample.throwing Sample.collection1 "age < 17"
        (Select_Base.mk_empty Sample.table1) (Update_Base.mk_empty Sample.table1)
        (Delete_Base.mk_empty Sample.table1)).2.2.2.2.2.2 (by decide)).2.2.2.1]
      rfl⟩

/-! ## Limit and offset -/

theorem FindCall_apply_limit (p : Parser) (s : Find_Base) (c : FindCall)
    (hc : c.writesLimit = false) :
    (FindCall.apply p s c).state.m_find.limit = s.m_find.limit := by
  cases c <;>
    simp_all [FindCall.apply, FindCall.writesLimit, Find_Sort.sort, Find_Having.having,
      Find_GroupBy.groupBy, Find_Base.bind, FindStatement_fields_frame]

theorem RemoveCall_apply_limit (s : Remove_Base) (c : RemoveCall)
    (hc : c.writesLimit = false) :
    (RemoveCall.apply s c).state.m_delete.limit = s.m_delete.limit := by
  cases c <;>
    simp_all [RemoveCall.apply, RemoveCall.writesLimit, RemoveStatement.sort, Remove_Base.bind]

theorem ModifyCall_apply_limit (p : Parser) (s : Modify_Base) (c : ModifyCall)
    (hc : c.writesLimit = false) :
    (ModifyCall.apply p s c).state.m_update.limit = s.m_update.limit := by
  cases c <;>
    simp_all [ModifyCall.apply, ModifyCall.writesLimit, Modify_Sort.sort,
      Modify_Operation.arrayInsert, Modify_Base.bind, Modify_Operation.remove,
      Modify_Operation.set, Modify_Operation.change, Modify_Operation.arrayAppend,
      Modify_Operation_set_operation_frame]

theorem DeleteCall_apply_limit (p : Parser) (s : Delete_Base) (c : DeleteCall)
    (hc : c.writesLimit = false) :
    (DeleteCall.apply p s c).state.m_delete.limit = s.m_delete.limit := by
  cases c <;>
    simp_all [DeleteCall.apply, DeleteCall.writesLimit, Delete_OrderBy.orderBy,
      DeleteStatement_where_frame]

theorem UpdateCall_apply_limit (p : Parser) (s : Update_Base) (c : UpdateCall)
    (hc : c.writesLimit = false) :
    (UpdateCall.apply p s c).state.m_update.limit = s.m_update.limit := by
  cases c <;>
    simp_all [UpdateCall.apply, UpdateCall.writesLimit, Update_OrderBy.orderBy, Update_Set.set,
      Update_Base.add_operation, Update_Where_where_frame, Update_Set_set_expression_frame]

theorem SelectCall_apply_limit (p : Parser) (s : Select_Base) (c : SelectCall)
    (hc : c.writesLimit = false) :
    (SelectCall.apply p s c).state.m_find.limit = s.m_find.limit := by
  cases c <;>
    simp_all [SelectCall.apply, SelectCall.writesLimit, Select_OrderBy.orderBy,
      Select_Having.having, Select_GroupBy.groupBy, SelectStatement_where_frame]

/-- C5: in every builder family, `limit(n)` followed by `limit(m)` leaves the builder that
`limit(m)` alone leaves, with row_count = m, and `skip`/`offset(n)` followed by
`skip`/`offset(m)` leaves the builder that `skip`/`offset(m)` alone leaves, with offset = m;
a message built by a factory and changed only by calls other than limit, skip and offset
carries no limit. -/
theorem limit_offset_last_write_wins (p : Parser) (n m : Nat)
    (f : Find_Base) (r : Remove_Base) (mo : Modify_Base) (d : Delete_Base) (u : Update_Base)
    (s : Select_Base) (c : shared_ptr Collection) (t : shared_ptr Table)
    (cond fieldList : String) :
    (Find_Limit.limit (Find_Limit.limit f n) m = Find_Limit.limit f m ∧
      (Find_Limit.limit f m).m_find.limit.bind (fun l => l.row_count) = some m) ∧
    (Find_Skip.skip (Find_Skip.skip f n) m = Find_Skip.skip f m ∧
      (Find_Skip.skip f m).m_find.limit.bind (fun l => l.offset) = some m) ∧
    (Remove_Limit.limit (Remove_Limit.limit r n) m = Remove_Limit.limit r m ∧
      (Remove_Limit.limit r m).m_delete.limit.bind (fun l => l.row_count) = some m) ∧
    (Modify_Limit.limit (Modify_Limit.limit mo n) m = Modify_Limit.limit mo m ∧
      (Modify_Limit.limit mo m).m_update.limit.bind (fun l => l.row_count) = some m) ∧
    (Delete_Limit.limit (Delete_Limit.limit d n) m = Delete_Limit.limit d m ∧
      (Delete_Limit.limit d m).m_delete.limit.bind (fun l => l.row_count) = some m) ∧
    (Update_Limit.limit (Update_Limit.limit u n) m = Update_Limit.limit u m ∧
      (Update_Limit.limit u m).m_update.limit.bind (fun l => l.row_count) = some m) ∧
    (Select_Limit.limit (Select_Limit.limit s n) m = Select_Limit.limit s m ∧
      (Select_Limit.limit s m).m_find.limit.bind (fun l => l.row_count) = some m) ∧
    (Select_Offset.offset (Select_Offset.offset s n) m = Select_Offset.offset s m ∧
      (Select_Offset.offset s m).m_find.limit.bind (fun l => l.offset) = some m) ∧
    (∀ x, Collection.find p c cond = .ok x → ∀ calls,
      (∀ k ∈ calls, FindCall.writesLimit k = false) →
      (chain (FindCall.apply p) x calls).state.m_find.limit = none) ∧
    (∀ x, Collection.remove p c cond = .ok x → ∀ calls,
      (∀ k ∈ calls, RemoveCall.writesLimit k = false) →
      (chain RemoveCall.apply x calls).state.m_delete.limit = none) ∧
    (∀ x, Collection.modify p c cond = .ok x → ∀ calls,
      (∀ k ∈ calls, ModifyCall.writesLimit k = false) →
      (chain (ModifyCall.apply p) x calls).state.m_update.limit = none) ∧
    (∀ calls, (∀ k ∈ calls, DeleteCall.writesLimit k = false) →
      (chain (DeleteCall.apply p) (Table.remove t) calls).state.m_delete.limit = none) ∧
    (∀ calls, (∀ k ∈ calls, UpdateCall.writesLimit k = false) →
      (chain (UpdateCall.apply p) (Table.update t) calls).state.m_update.limit = none) ∧
    (∀ x, Table.select p t fieldList = .ok x → ∀ calls,
      (∀ k ∈ calls, SelectCall.writesLimit k = false) →
      (chain (SelectCall.apply p) x calls).state.m_find.limit = none) := by
  refine ⟨?_, ?_, ?_, ?_, ?_, ?_, ?_, ?_, ?_, ?_, ?_, ?_, ?_, ?_⟩
  · simp [Find_Limit.limit, Crud.Limit.set_row_count]
  · simp [Find_Skip.skip, Crud.Limit.set_offset]
  · simp [Remove_Limit.limit, Crud.Limit.set_row_count]
  · simp [Modify_Limit.limit, Crud.Limit.set_row_count]
  · simp [Delete_Limit.limit, Crud.Limit.set_row_count]
  · simp [Update_Limit.limit, Crud.Limit.set_row_count]
  · simp [Select_Limit.limit, Crud.Limit.set_row_count]
  · simp [Select_Offset.offset, Crud.Limit.set_offset]
  · intro x hx calls hcalls
    exact chain_state_invariant_of (FindCall.apply p) (fun y => y.m_find.limit = none)
      (fun k => FindCall.writesLimit k = false)
      (fun y k hk hy => (FindCall_apply_limit p y k hk).trans hy) calls x hcalls
      (Collection_find_ok p c cond x hx).2.2.1
  · intro x hx calls hcalls
    exact chain_state_invariant_of RemoveCall.apply (fun y => y.m_delete.limit = none)
      (fun k => RemoveCall.writesLimit k = false)
      (fun y k hk hy => (RemoveCall_apply_limit y k hk).trans hy) calls x hcalls
      (Collection_remove_ok p c cond x hx).2.2.1
  · intro x hx calls hcalls
    exact chain_state_invariant_of (ModifyCall.apply p) (fun y => y.m_update.limit = none)
      (fun k => ModifyCall.writesLimit k = false)
      (fun y k hk hy => (ModifyCall_apply_limit p y k hk).trans hy) calls x hcalls
      (Collection_modify_ok p c cond x hx).2.2.1
  · intro calls hcalls
    exact chain_state_invariant_of (DeleteCall.apply p) (fun y => y.m_delete.limit = none)
      (fun k => DeleteCall.writesLimit k = false)
      (fun y k hk hy => (DeleteCall_apply_limit p y k hk).trans hy) calls _ hcalls
      (Table_remove_built t).2.2.1
  · intro calls hcalls
    exact chain_state_invariant_of (UpdateCall.apply p) (fun y => y.m_update.limit = none)
      (fun k => UpdateCall.writesLimit k = false)
      (fun y k hk hy => (UpdateCall_apply_limit p y k hk).trans hy) calls _ hcalls
      (Table_update_built t).2.2.1
  · intro x hx calls hcalls
    exact chain_state_invariant_of (SelectCall.apply p) (fun y => y.m_find.limit = none)
      (fun k => SelectCall.writesLimit k = false)
      (fun y k hk hy => (SelectCall_apply_limit p y k hk).trans hy) calls x hcalls
      (Table_select_ok p t fieldList x hx).2.2.1

/-- Witness of C5 on the sample collection: `find('age < 17')` followed by fields and sort
carries no limit. -/
theorem limit_offset_last_write_wins_witness :
    ∃ x, Collection.find Sample.parser Sample.collection1 "age < 17" = .ok x ∧
      (∀ k ∈ [FindCall.fields "name", FindCall.sort "age"], FindCall.writesLimit k = false) ∧
      (chain (FindCall.apply Sample.parser) x
        [FindCall.fields "name", FindCall.sort "age"]).state.m_find.limit = none :=
  ⟨_, rfl, by decide,
    (limit_offset_last_write_wins Sample.parser 4 2
      (Find_Base.mk_empty Sample.collection1) (Remove_Base.mk_empty Sample.collection1)
      (Modify_Base.mk_empty Sample.collection1) (Delete_Base.mk_empty Sample.table1)
      (Update_Base.mk_empty Sample.table1) (Select_Base.mk_empty Sample.table1)
      Sample.collection1 Sample.table1 "age < 17" "name").2.2.2.2.2.2.2.2.1 _ rfl _
      (by decide)⟩

/-! ## Limit and skip against a result set -/

/-- C6: the message built by `find().limit(L).skip(S)` carries row_count = L and offset = S
(and so does `limit(L).skip(S)` on any Find builder); the rows selected for such a message
out of a result set of N rows number max(0, min(L, N - S)); for N = 7 and L = 4 the skips
1, ..., 7 give 4, 4, 4, 3, 2, 1, 0 rows. -/
theorem limit_skip_selects_rows {ρ : Type} (p : Parser) (c : shared_ptr Collection)
    (f : Find_Base) (L S : Nat) (rows : List ρ) :
    (Collection.find p c "").map
        (fun s => (Find_Skip.skip (Find_Limit.limit s L) S).m_find.limit)
      = .ok (some { row_count := some L, offset := some S }) ∧
    (Find_Skip.skip (Find_Limit.limit f L) S).m_find.limit.bind (fun l => l.row_count)
      = some L ∧
    (Find_Skip.skip (Find_Limit.limit f L) S).m_find.limit.bind (fun l => l.offset)
      = some S ∧
    ((result_rows (Find_Skip.skip (Find_Limit.limit f L) S).m_find rows).length : Int)
      = max 0 (min (L : Int) ((rows.length : Int) - (S : Int))) ∧
    (rows.length = 7 →
      [1, 2, 3, 4, 5, 6, 7].map
          (fun k => (result_rows (Find_Skip.skip (Find_Limit.limit f 4) k).m_find rows).length)
        = [4, 4, 4, 3, 2, 1, 0]) := by
  have hlen : ∀ (a b : Nat),
      (result_rows (Find_Skip.skip (Find_Limit.limit f a) b).m_find rows).length
        = min a (rows.length - b) := by
    intro a b
    simp [result_rows, Find_Skip.skip, Find_Limit.limit, Crud.Limit.set_offset,
      Crud.Limit.set_row_count]
  have hempty : ("" : String).isEmpty = true := by decide
  refine ⟨?_, ?_, ?_, ?_, ?_⟩
  · simp [Collection.find, FindStatement.new, hempty, Find_Base.mk_empty, Except.map,
      Find_Skip.skip, Find_Limit.limit, Crud.Limit.set_offset, Crud.Limit.set_row_count]
  · simp [Find_Skip.skip, Find_Limit.limit, Crud.Limit.set_offset, Crud.Limit.set_row_count]
  · simp [Find_Skip.skip, Find_Limit.limit, Crud.Limit.set_offset, Crud.Limit.set_row_count]
  · rw [hlen]
    omega
  · intro h7
    simp [hlen, h7]

/-- Witness of C6: the seven documents of the unit test, `limit(4)` and the skips 1 to 7. -/
theorem limit_skip_selects_rows_witness :
    Sample.ages.length = 7 ∧
    [1, 2, 3, 4, 5, 6, 7].map
        (fun k => (result_rows
          (Find_Skip.skip (Find_Limit.limit (Find_Base.mk_empty Sample.collection1) 4) k).m_find
          Sample.ages).length)
      = [4, 4, 4, 3, 2, 1, 0] :=
  ⟨rfl,
    (limit_skip_selects_rows Sample.parser Sample.collection1
      (Find_Base.mk_empty Sample.collection1) 4 1 Sample.ages).2.2.2.2 rfl⟩

/-! ## The registry -/

theorem map_find_assign_same {α : Type} (m : List (String × α)) (k : String) (v : α) :
    map_find (map_assign m k v) k = some v := by
  induction m with
  | nil => simp [map_assign, map_find]
  | cons hd tl ih =>
    obtain ⟨k', v'⟩ := hd
    by_cases hk : k' = k
    · simp [map_assign, map_find, hk]
    · simp [map_assign, map_find, hk, ih]

theorem map_find_assign_other {α : Type} (m : List (String × α)) (k k' : String) (v : α)
    (hne : k' ≠ k) : map_find (map_assign m k v) k' = map_find m k' := by
  induction m with
  | nil =>
    have : ¬ k = k' := fun h => hne h.symm
    simp [map_assign, map_find, this]
  | cons hd tl ih =>
    obtain ⟨k0, v0⟩ := hd
    by_cases hk : k0 = k
    · subst hk
      have : ¬ k0 = k' := fun h => hne h.symm
      simp [map_assign, map_find, this]
    · by_cases hk' : k0 = k'
      · subst hk'
        simp [map_assign, map_find, hk]
      · simp [map_assign, map_find, hk, hk', ih]

theorem Schema_getTable_cached (h : Heap) (sch : Schema) (n : String) (p : shared_ptr Table)
    (hp : map_find sch.m_tables n = some p) : Schema.getTable h sch n = (p, sch, h) := by
  simp [Schema.getTable, hp]

theorem Schema_getCollection_cached (h : Heap) (sch : Schema) (n : String)
    (p : shared_ptr Collection) (hp : map_find sch.m_collections n = some p) :
    Schema.getCollection h sch n = (p, sch, h) := by
  simp [Schema.getCollection, hp]

theorem Schema_getTable_caches (h : Heap) (sch : Schema) (n : String) :
    map_find (Schema.getTable h sch n).2.1.m_tables n = some (Schema.getTable h sch n).1 := by
  unfold Schema.getTable
  cases hp : map_find sch.m_tables n with
  | some p => simpa using hp
  | none => simp [map_find_assign_same]

theorem Schema_getCollection_caches (h : Heap) (sch : Schema) (n : String) :
    map_find (Schema.getCollection h sch n).2.1.m_collections n
      = some (Schema.getCollection h sch n).1 := by
  unfold Schema.getCollection
  cases hp : map_find sch.m_collections n with
  | some p => simpa using hp
  | none => simp [map_find_assign_same]

theorem GetCall_apply_keeps_table (st : Schema × Heap) (k : GetCall) (n : String)
    (p : shared_ptr Table) (hp : map_find st.1.m_tables n = some p) :
    map_find (GetCall.apply st k).1.m_tables n = some p := by
  cases k with
  | getTable n' =>
    simp only [GetCall.apply]
    unfold Schema.getTable
    cases hq : map_find st.1.m_tables n' with
    | some q => simpa using hp
    | none =>
      have hne : n ≠ n' := by
        intro he
        rw [he, hq] at hp
        cases hp
      simpa [map_find_assign_other _ _ _ _ hne] using hp
  | getCollection n' =>
    simp only [GetCall.apply]
    unfold Schema.getCollection
    cases hq : map_find st.1.m_collections n' with
    | some q => simpa using hp
    | none => simpa using hp

theorem GetCall_apply_keeps_collection (st : Schema × Heap) (k : GetCall) (n : String)
    (p : shared_ptr Collection) (hp : map_find st.1.m_collections n = some p) :
    map_find (GetCall.apply st k).1.m_collections n = some p := by
  cases k with
  | getCollection n' =>
    simp only [GetCall.apply]
    unfold Schema.getCollection
    cases hq : map_find st.1.m_collections n' with
    | some q => simpa using hp
    | none =>
      have hne : n ≠ n' := by
        intro he
        rw [he, hq] at hp
        cases hp
      simpa [map_find_assign_other _ _ _ _ hne] using hp
  | getTable n' =>
    simp only [GetCall.apply]
    unfold Schema.getTable
    cases hq : map_find st.1.m_tables n' with
    | some q => simpa using hp
    | none => simpa using hp

theorem GetCall_run_keeps_table (calls : List GetCall) :
    ∀ (st : Schema × Heap) (n : String) (p : shared_ptr Table),
      map_find st.1.m_tables n = some p →
      map_find (GetCall.run st calls).1.m_tables n = some p := by
  induction calls with
  | nil => intro st n p hp; simpa [GetCall.run] using hp
  | cons k rest ih =>
    intro st n p hp
    have h1 := GetCall_apply_keeps_table st k n p hp
    simpa [GetCall.run] using ih (GetCall.apply st k) n p h1

theorem GetCall_run_keeps_collection (calls : List GetCall) :
    ∀ (st : Schema × Heap) (n : String) (p : shared_ptr Collection),
      map_find st.1.m_collections n = some p →
      map_find (GetCall.run st calls).1.m_collections n = some p := by
  induction calls with
  | nil => intro st n p hp; simpa [GetCall.run] using hp
  | cons k rest ih =>
    intro st n p hp
    have h1 := GetCall_apply_keeps_collection st k n p hp
    simpa [GetCall.run] using ih (GetCall.apply st k) n p h1

/-- C7: for every Schema and name, a call of getTable followed by any sequence of getTable
and getCollection calls and then by getTable with the same name returns the handle of the
first call (same address, same object), and likewise for getCollection; a first call for a
name that is not cached constructs the handle at a new address and caches it, and a call for
a cached name returns the cached handle and changes nothing. -/
theorem registry_returns_identical_handle (h : Heap) (sch : Schema) (n : String)
    (calls : List GetCall) :
    (Schema.getTable (GetCall.run (Schema.getTable h sch n).2 calls).2
        (GetCall.run (Schema.getTable h sch n).2 calls).1 n).1
      = (Schema.getTable h sch n).1 ∧
    (Schema.getCollection (GetCall.run (Schema.getCollection h sch n).2 calls).2
        (GetCall.run (Schema.getCollection h sch n).2 calls).1 n).1
      = (Schema.getCollection h sch n).1 ∧
    (map_find sch.m_tables n = none →
      (Schema.getTable h sch n).1
        = { addr := h.next, obj := { m_schema := sch.self, m_name := n } } ∧
      map_find (Schema.getTable h sch n).2.1.m_tables n = some (Schema.getTable h sch n).1) ∧
    (map_find sch.m_collections n = none →
      (Schema.getCollection h sch n).1
        = { addr := h.next, obj := { m_schema := sch.self, m_name := n } } ∧
      map_find (Schema.getCollection h sch n).2.1.m_collections n
        = some (Schema.getCollection h sch n).1) ∧
    (∀ p, map_find sch.m_tables n = some p → Schema.getTable h sch n = (p, sch, h)) ∧
    (∀ p, map_find sch.m_collections n = some p →
      Schema.getCollection h sch n = (p, sch, h)) := by
  refine ⟨?_, ?_, ?_, ?_, ?_, ?_⟩
  · have h1 := Schema_getTable_caches h sch n
    have h2 := GetCall_run_keeps_table calls (Schema.getTable h sch n).2 n _ h1
    rw [Schema_getTable_cached _ _ n _ h2]
  · have h1 := Schema_getCollection_caches h sch n
    have h2 := GetCall_run_keeps_collection calls (Schema.getCollection h sch n).2 n _ h1
    rw [Schema_getCollection_cached _ _ n _ h2]
  · intro hnone
    refine ⟨?_, Schema_getTable_caches h sch n⟩
    simp [Schema.getTable, hnone]
  · intro hnone
    refine ⟨?_, Schema_getCollection_caches h sch n⟩
    simp [Schema.getCollection, hnone]
  · intro p hp
    exact Schema_getTable_cached h sch n p hp
  · intro p hp
    exact Schema_getCollection_cached h sch n p hp

/-- Witness of C7 on the sample Schema with empty caches: getTable('t') constructs the handle
at the next address, and after getCollection('t'), getTable('u') and getCollection('c') a
second getTable('t') returns that handle. -/
theorem registry_returns_identical_handle_witness :
    map_find Sample.registry.1.m_tables "t" = none ∧
    (Schema.getTable Sample.registry.2 Sample.registry.1 "t").1
      = { addr := 101, obj := { m_schema := Sample.schema, m_name := "t" } } ∧
    (Schema.getTable
        (GetCall.run (Schema.getTable Sample.registry.2 Sample.registry.1 "t").2
          [.getCollection "t", .getTable "u", .getCollection "c"]).2
        (GetCall.run (Schema.getTable Sample.registry.2 Sample.registry.1 "t").2
          [.getCollection "t", .getTable "u", .getCollection "c"]).1 "t").1
      = (Schema.getTable Sample.registry.2 Sample.registry.1 "t").1 :=
  ⟨rfl,
    ((registry_returns_identical_handle Sample.registry.2 Sample.registry.1 "t"
      [.getCollection "t", .getTable "u", .getCollection "c"]).2.2.1 rfl).1,
    (registry_returns_identical_handle Sample.registry.2 Sample.registry.1 "t"
      [.getCollection "t", .getTable "u", .getCollection "c"]).1⟩

/-! ## `execute()` after a failed or passed check -/

theorem Find_Base_execute_rejected (g : Generated) (t : Transport) (s : Find_Base)
    (h : g.Find_IsInitialized s.m_find = false) :
    (Find_Base.execute g t s).events = [] ∧
    (Find_Base.execute g t s).result
      = .error (.logic_error ("FindStatement is not completely initialized: "
          ++ g.Find_InitializationErrorString s.m_find)) := by
  simp [Find_Base.execute, h]

theorem Add_Base_execute_rejected (g : Generated) (t : Transport) (s : Add_Base)
    (h : g.Insert_IsInitialized s.m_insert = false) :
    (Add_Base.execute g t s).events = [] ∧
    (Add_Base.execute g t s).result
      = .error (.logic_error ("AddStatement is not completely initialized: "
          ++ g.Insert_InitializationErrorString s.m_insert)) := by
  simp [Add_Base.execute, h]

theorem Remove_Base_execute_rejected (g : Generated) (t : Transport) (s : Remove_Base)
    (h : g.Delete_IsInitialized s.m_delete = false) :
    (Remove_Base.execute g t s).events = [] ∧
    (Remove_Base.execute g t s).result
      = .error (.logic_error ("RemoveStatement is not completely initialized: "
          ++ g.Delete_InitializationErrorString s.m_delete)) := by
  simp [Remove_Base.execute, h]

theorem Modify_Base_execute_rejected (g : Generated) (t : Transport) (s : Modify_Base)
    (h : g.Update_IsInitialized s.m_update = false) :
    (Modify_Base.execute g t s).events = [] ∧
    (Modify_Base.execute g t s).result
      = .error (.logic_error ("ModifyStatement is not completely initialized: "
          ++ g.Update_InitializationErrorString s.m_update)) := by
  simp [Modify_Base.execute, h]

theorem Delete_Base_execute_rejected (g : Generated) (t : Transport) (s : Delete_Base)
    (h : g.Delete_IsInitialized s.m_delete = false) :
    (Delete_Base.execute g t s).events = [] ∧
    (Delete_Base.execute g t s).result
      = .error (.logic_error ("DeleteStatement is not completely initialized: "
          ++ g.Delete_InitializationErrorString s.m_delete)) := by
  simp [Delete_Base.execute, h]

theorem Update_Base_execute_rejected (g : Generated) (t : Transport) (s : Update_Base)
    (h : g.Update_IsInitialized s.m_update = false) :
    (Update_Base.execute g t s).events = [] ∧
    (Update_Base.execute g t s).result
      = .error (.logic_error ("UpdateStatement is not completely initialized: "
          ++ g.Update_InitializationErrorString s.m_update)) := by
  simp [Update_Base.execute, h]

theorem Select_Base_execute_rejected (g : Generated) (t : Transport) (s : Select_Base)
    (h : g.Find_IsInitialized s.m_find = false) :
    (Select_Base.execute g t s).events = [] ∧
    (Select_Base.execute g t s).result
      = .error (.logic_error ("SelectStatement is not completely initialized: "
          ++ g.Find_InitializationErrorString s.m_find)) := by
  simp [Select_Base.execute, h]

theorem Insert_Base_execute_rejected (g : Generated) (t : Transport) (s : Insert_Base)
    (h : g.Insert_IsInitialized s.m_insert = false) :
    (Insert_Base.execute g t s).events = [] ∧
    (Insert_Base.execute g t s).result
      = .error (.logic_error ("InsertStatement is not completely initialized: "
          ++ g.Insert_InitializationErrorString s.m_insert)) := by
  simp [Insert_Base.execute, h]

theorem Update_Base_execute_passed (g : Generated) (t : Transport) (s : Update_Base)
    (h : g.Update_IsInitialized s.m_update = true) :
    (Update_Base.execute g t s).events.filter Event.isSend
      = [.execute_update (Table.session s.m_table) s.m_update] := by
  unfold Update_Base.execute
  simp only [h, Bool.not_true, Bool.false_eq_true, if_false]
  cases (t.connection (Table.session s.m_table)).execute_update s.m_update with
  | error e => simp [Event.isSend]
  | ok res =>
    dsimp only
    cases t.wait res <;> simp [Event.isSend]

theorem Modify_Base_execute_passed (g : Generated) (t : Transport) (s : Modify_Base)
    (h : g.Update_IsInitialized s.m_update = true) :
    (Modify_Base.execute g t s).events.filter Event.isSend
      = [.execute_update (Collection.session s.m_coll) s.m_update] := by
  unfold Modify_Base.execute
  simp only [h, Bool.not_true, Bool.false_eq_true, if_false]
  cases (t.connection (Collection.session s.m_coll)).execute_update s.m_update with
  | error e => simp [Event.isSend]
  | ok res =>
    dsimp only
    cases t.wait res <;> simp [Event.isSend]

theorem Modify_Operation_set_operation_appends (p : Parser) (s s' : Modify_Base)
    (ty : Crud.UpdateOperation_UpdateType) (path : String) (v : Option DocumentValue)
    (h : Modify_Operation.set_operation p s ty path v = .returned s') :
    ∃ op, s' = s.add_operation op := by
  unfold Modify_Operation.set_operation at h
  cases hl : p.parse_collection_column_list [] path with
  | thrown e l => simp [hl] at h
  | returned items =>
    cases items with
    | nil => simp [hl] at h
    | cons i0 rest =>
      cases h0 : i0.target_path with
      | nil => simp [hl, h0] at h
      | cons item more =>
        cases v with
        | none =>
          simp [hl, h0] at h
          exact ⟨_, h.symm⟩
        | some val =>
          by_cases hx : val.isTExpression = true
          · cases hp : p.Expr_parser_expr val.to_string true with
            | error e => simp [hl, h0, hx, hp] at h
            | ok parsed =>
              simp [hl, h0, hx, hp] at h
              exact ⟨_, h.symm⟩
          · simp [hl, h0, hx] at h
            exact ⟨_, h.symm⟩

theorem Locator_nonempty_of_names (schema name : String) (hs : schema ≠ "") (hn : name ≠ "") :
    Locator_nonempty (some { schema := some schema, name := some name }) = true := by
  simp [Locator_nonempty, String_isEmpty_false_of_ne hs, String_isEmpty_false_of_ne hn]

theorem Locator_nonempty_of_empty (schema name : String) (h : schema = "" ∨ name = "") :
    Locator_nonempty (some { schema := some schema, name := some name }) = false := by
  have hempty : ("" : String).isEmpty = true := by decide
  rcases h with h | h <;> simp [Locator_nonempty, h, hempty]

/-- C8, against `is_complete()` as the specification describes it (section 4.2): `execute()`
on a table Update or a collection Modify builder whose operation list is empty makes no
transport call and throws the "not completely initialized" logic error; `update()` and
`modify(cond)` build such a list; and once one `set` has been added to a statement built on
a target whose schema and object names are non-empty, the message passes the check and
`execute()` hands exactly that message to the transport. -/
theorem update_needs_one_operation (t : Transport) (p : Parser) (u : Update_Base)
    (m : Modify_Base) (tbl : shared_ptr Table) (c : shared_ptr Collection)
    (field expression path cond : String) (value : TableValue) (dv : DocumentValue)
    (hu : u.m_update.operation = []) (hm : m.m_update.operation = [])
    (htbl : Table.schema_name tbl ≠ "" ∧ Table.name tbl ≠ "")
    (hc : Collection.schema_name c ≠ "" ∧ Collection.name c ≠ "") :
    ((Update_Base.execute spec_generated t u).events = [] ∧
      (Update_Base.execute spec_generated t u).result
        = .error (.logic_error ("UpdateStatement is not completely initialized: "
            ++ spec_generated.Update_InitializationErrorString u.m_update))) ∧
    ((Modify_Base.execute spec_generated t m).events = [] ∧
      (Modify_Base.execute spec_generated t m).result
        = .error (.logic_error ("ModifyStatement is not completely initialized: "
            ++ spec_generated.Update_InitializationErrorString m.m_update))) ∧
    (Table.update tbl).m_update.operation = [] ∧
    (spec_generated.Update_IsInitialized
        (Update_Set.set (Table.update tbl) field value).m_update = true ∧
      (Update_Base.execute spec_generated t
          (Update_Set.set (Table.update tbl) field value)).events.filter Event.isSend
        = [.execute_update (Table.session tbl)
            (Update_Set.set (Table.update tbl) field value).m_update]) ∧
    (∀ u', Update_Set.set_expression p (Table.update tbl) field expression = .returned u' →
      spec_generated.Update_IsInitialized u'.m_update = true ∧
      (Update_Base.execute spec_generated t u').events.filter Event.isSend
        = [.execute_update (Table.session tbl) u'.m_update]) ∧
    (∀ s, Collection.modify p c cond = .ok s →
      s.m_update.operation = [] ∧
      ∀ s', Modify_Operation.set p s path dv = .returned s' →
        spec_generated.Update_IsInitialized s'.m_update = true ∧
        (Modify_Base.execute spec_generated t s').events.filter Event.isSend
          = [.execute_update (Collection.session c) s'.m_update]) := by
  have hloc_t := Locator_nonempty_of_names _ _ htbl.1 htbl.2
  have hloc_c := Locator_nonempty_of_names _ _ hc.1 hc.2
  have hb := Table_update_built tbl
  refine ⟨?_, ?_, hb.2.2.2.2.1, ?_, ?_, ?_⟩
  · exact Update_Base_execute_rejected spec_generated t u
      (by simp [spec_generated, Update_is_complete, hu])
  · exact Modify_Base_execute_rejected spec_generated t m
      (by simp [spec_generated, Update_is_complete, hm])
  · have hpass : spec_generated.Update_IsInitialized
        (Update_Set.set (Table.update tbl) field value).m_update = true := by
      simp [spec_generated, Update_is_complete, Update_Set.set, Update_Base.add_operation,
        hb.1, hb.2.1, hloc_t]
    refine ⟨hpass, ?_⟩
    have h := Update_Base_execute_passed spec_generated t _ hpass
    simpa [Update_Set.set, Update_Base.add_operation, hb.2.2.2.2.2] using h
  · intro u' hu'
    have hshape : ∃ op, u' = (Table.update tbl).add_operation op := by
      unfold Update_Set.set_expression at hu'
      cases hp : p.Expr_parser_expr expression false with
      | error e => simp [hp] at hu'
      | ok parsed =>
        simp [hp] at hu'
        exact ⟨_, hu'.symm⟩
    obtain ⟨op, rfl⟩ := hshape
    have hpass : spec_generated.Update_IsInitialized
        ((Table.update tbl).add_operation op).m_update = true := by
      simp [spec_generated, Update_is_complete, Update_Base.add_operation, hb.1, hb.2.1, hloc_t]
    refine ⟨hpass, ?_⟩
    have h := Update_Base_execute_passed spec_generated t _ hpass
    simpa [Update_Base.add_operation, hb.2.2.2.2.2] using h
  · intro s hs
    have hm' := Collection_modify_ok p c cond s hs
    refine ⟨hm'.2.2.2.1, ?_⟩
    intro s' hs'
    obtain ⟨op, rfl⟩ := Modify_Operation_set_operation_appends p s s' _ path (some dv) hs'
    have hpass : spec_generated.Update_IsInitialized (s.add_operation op).m_update = true := by
      simp [spec_generated, Update_is_complete, Modify_Base.add_operation, hm'.1, hm'.2.1,
        hloc_c]
    refine ⟨hpass, ?_⟩
    have h := Modify_Base_execute_passed spec_generated t _ hpass
    simpa [Modify_Base.add_operation, hm'.2.2.2.2] using h

/-- Witness of C8 on the sample table and collection: `update()` and `modify('')` are
rejected, `update().set('age', 18)` is sent. -/
theorem update_needs_one_operation_witness :
    (Table.update Sample.table1).m_update.operation = [] ∧
    (Modify_Base.mk_empty Sample.collection1).m_update.operation = [] ∧
    (Table.schema_name Sample.table1 ≠ "" ∧ Table.name Sample.table1 ≠ "") ∧
    (Collection.schema_name Sample.collection1 ≠ "" ∧
      Collection.name Sample.collection1 ≠ "") ∧
    (Update_Base.execute spec_generated Sample.transport (Table.update Sample.table1)).events
      = [] ∧
    (Update_Base.execute spec_generated Sample.transport
        (Update_Set.set (Table.update Sample.table1) "age" (.TInteger 18))).events.filter
        Event.isSend
      = [.execute_update (Table.session Sample.table1)
          (Update_Set.set (Table.update Sample.table1) "age" (.TInteger 18)).m_update] :=
  ⟨rfl, rfl, ⟨by decide, by decide⟩, ⟨by decide, by decide⟩,
    (update_needs_one_operation Sample.transport Sample.parser (Table.update Sample.table1)
      (Modify_Base.mk_empty Sample.collection1) Sample.table1 Sample.collection1
      "age" "age + 1" "age" "" (.TInteger 18) (.TInteger 18) rfl rfl
      ⟨by decide, by decide⟩ ⟨by decide, by decide⟩).1.1,
    (update_needs_one_operation Sample.transport Sample.parser (Table.update Sample.table1)
      (Modify_Base.mk_empty Sample.collection1) Sample.table1 Sample.collection1
      "age" "age + 1" "age" "" (.TInteger 18) (.TInteger 18) rfl rfl
      ⟨by decide, by decide⟩ ⟨by decide, by decide⟩).2.2.2.1.2⟩

/-! ## The locator along a chain of calls -/

theorem Find_chain_locator (p : Parser) (s : Find_Base) (calls : List FindCall) :
    (chain (FindCall.apply p) s calls).state.m_find.collection = s.m_find.collection :=
  chain_state_invariant (FindCall.apply p) (fun x => x.m_find.collection = s.m_find.collection)
    (fun x k hx => ((FindCall_apply_frame p x k).2.1).trans hx) calls s rfl

theorem Add_chain_locator (s : Add_Base) (calls : List AddCall) :
    (chain AddCall.apply s calls).state.m_insert.collection = s.m_insert.collection :=
  chain_state_invariant AddCall.apply (fun x => x.m_insert.collection = s.m_insert.collection)
    (fun x k hx => ((AddCall_apply_frame x k).2.1).trans hx) calls s rfl

theorem Remove_chain_locator (s : Remove_Base) (calls : List RemoveCall) :
    (chain RemoveCall.apply s calls).state.m_delete.collection = s.m_delete.collection :=
  chain_state_invariant RemoveCall.apply
    (fun x => x.m_delete.collection = s.m_delete.collection)
    (fun x k hx => ((RemoveCall_apply_frame x k).2.1).trans hx) calls s rfl

theorem Modify_chain_locator (p : Parser) (s : Modify_Base) (calls : List ModifyCall) :
    (chain (ModifyCall.apply p) s calls).state.m_update.collection = s.m_update.collection :=
  chain_state_invariant (ModifyCall.apply p)
    (fun x => x.m_update.collection = s.m_update.collection)
    (fun x k hx => ((ModifyCall_apply_frame p x k).2.1).trans hx) calls s rfl

theorem Delete_chain_locator (p : Parser) (s : Delete_Base) (calls : List DeleteCall) :
    (chain (DeleteCall.apply p) s calls).state.m_delete.collection = s.m_delete.collection :=
  chain_state_invariant (DeleteCall.apply p)
    (fun x => x.m_delete.collection = s.m_delete.collection)
    (fun x k hx => ((DeleteCall_apply_frame p x k).2.1).trans hx) calls s rfl

theorem Update_chain_locator (p : Parser) (s : Update_Base) (calls : List UpdateCall) :
    (chain (UpdateCall.apply p) s calls).state.m_update.collection = s.m_update.collection :=
  chain_state_invariant (UpdateCall.apply p)
    (fun x => x.m_update.collection = s.m_update.collection)
    (fun x k hx => ((UpdateCall_apply_frame p x k).2.1).trans hx) calls s rfl

theorem Select_chain_locator (p : Parser) (s : Select_Base) (calls : List SelectCall) :
    (chain (SelectCall.apply p) s calls).state.m_find.collection = s.m_find.collection :=
  chain_state_invariant (SelectCall.apply p)
    (fun x => x.m_find.collection = s.m_find.collection)
    (fun x k hx => ((SelectCall_apply_frame p x k).2.1).trans hx) calls s rfl

theorem Insert_chain_locator (s : Insert_Base) (calls : List InsertCall) :
    (chain InsertCall.apply s calls).state.m_insert.collection = s.m_insert.collection :=
  chain_state_invariant InsertCall.apply
    (fun x => x.m_insert.collection = s.m_insert.collection)
    (fun x k hx => ((InsertCall_apply_frame x k).2.1).trans hx) calls s rfl

theorem Find_rejected_of_locator (t : Transport) (s : Find_Base)
    (h : Locator_nonempty s.m_find.collection = false) :
    rejected "FindStatement is not completely initialized: collection"
      (Find_Base.execute spec_generated t s) := by
  have h1 := Find_Base_execute_rejected spec_generated t s
    (by simp [spec_generated, Find_is_complete, h])
  simpa [rejected, spec_generated, missing_field, h] using h1

theorem Add_rejected_of_locator (t : Transport) (s : Add_Base)
    (h : Locator_nonempty s.m_insert.collection = false) :
    rejected "AddStatement is not completely initialized: collection"
      (Add_Base.execute spec_generated t s) := by
  have h1 := Add_Base_execute_rejected spec_generated t s
    (by simp [spec_generated, Insert_is_complete, h])
  simpa [rejected, spec_generated, missing_field, h] using h1

theorem Remove_rejected_of_locator (t : Transport) (s : Remove_Base)
    (h : Locator_nonempty s.m_delete.collection = false) :
    rejected "RemoveStatement is not completely initialized: collection"
      (Remove_Base.execute spec_generated t s) := by
  have h1 := Remove_Base_execute_rejected spec_generated t s
    (by simp [spec_generated, Delete_is_complete, h])
  simpa [rejected, spec_generated, missing_field, h] using h1

theorem Modify_rejected_of_locator (t : Transport) (s : Modify_Base)
    (h : Locator_nonempty s.m_update.collection = false) :
    rejected "ModifyStatement is not completely initialized: collection"
      (Modify_Base.execute spec_generated t s) := by
  have h1 := Modify_Base_execute_rejected spec_generated t s
    (by simp [spec_generated, Update_is_complete, h])
  simpa [rejected, spec_generated, missing_field, h] using h1

theorem Delete_rejected_of_locator (t : Transport) (s : Delete_Base)
    (h : Locator_nonempty s.m_delete.collection = false) :
    rejected "DeleteStatement is not completely initialized: collection"
      (Delete_Base.execute spec_generated t s) := by
  have h1 := Delete_Base_execute_rejected spec_generated t s
    (by simp [spec_generated, Delete_is_complete, h])
  simpa [rejected, spec_generated, missing_field, h] using h1

theorem Update_rejected_of_locator (t : Transport) (s : Update_Base)
    (h : Locator_nonempty s.m_update.collection = false) :
    rejected "UpdateStatement is not completely initialized: collection"
      (Update_Base.execute spec_generated t s) := by
  have h1 := Update_Base_execute_rejected spec_generated t s
    (by simp [spec_generated, Update_is_complete, h])
  simpa [rejected, spec_generated, missing_field, h] using h1

theorem Select_rejected_of_locator (t : Transport) (s : Select_Base)
    (h : Locator_nonempty s.m_find.collection = false) :
    rejected "SelectStatement is not completely initialized: collection"
      (Select_Base.execute spec_generated t s) := by
  have h1 := Select_Base_execute_rejected spec_generated t s
    (by simp [spec_generated, Find_is_complete, h])
  simpa [rejected, spec_generated, missing_field, h] using h1

theorem Insert_rejected_of_locator (t : Transport) (s : Insert_Base)
    (h : Locator_nonempty s.m_insert.collection = false) :
    rejected "InsertStatement is not completely initialized: collection"
      (Insert_Base.execute spec_generated t s) := by
  have h1 := Insert_Base_execute_rejected spec_generated t s
    (by simp [spec_generated, Insert_is_complete, h])
  simpa [rejected, spec_generated, missing_field, h] using h1

/-- C9, against `is_complete()` as the specification describes it (section 4.2): when the
schema name or the object name of a collection or table handle is the empty string, every
statement built on it by a factory, after any sequence of chain calls, is rejected by
`execute()`: no call is made on the transport and the "not completely initialized" logic
error names the collection. -/
theorem empty_locator_never_sent (t : Transport) (p : Parser) (c : shared_ptr Collection)
    (tbl : shared_ptr Table) (cond fieldList : String) (doc : Document)
    (hc : Collection.schema_name c = "" ∨ Collection.name c = "")
    (ht : Table.schema_name tbl = "" ∨ Table.name tbl = "") :
    (∀ s, Collection.find p c cond = .ok s → ∀ calls,
      rejected "FindStatement is not completely initialized: collection"
        (Find_Base.execute spec_generated t (chain (FindCall.apply p) s calls).state)) ∧
    (∀ calls,
      rejected "AddStatement is not completely initialized: collection"
        (Add_Base.execute spec_generated t
          (chain AddCall.apply (Collection.add c doc) calls).state)) ∧
    (∀ s, Collection.modify p c cond = .ok s → ∀ calls,
      rejected "ModifyStatement is not completely initialized: collection"
        (Modify_Base.execute spec_generated t (chain (ModifyCall.apply p) s calls).state)) ∧
    (∀ s, Collection.remove p c cond = .ok s → ∀ calls,
      rejected "RemoveStatement is not completely initialized: collection"
        (Remove_Base.execute spec_generated t (chain RemoveCall.apply s calls).state)) ∧
    (∀ s, Table.select p tbl fieldList = .ok s → ∀ calls,
      rejected "SelectStatement is not completely initialized: collection"
        (Select_Base.execute spec_generated t (chain (SelectCall.apply p) s calls).state)) ∧
    (∀ calls,
      rejected "InsertStatement is not completely initialized: collection"
        (Insert_Base.execute spec_generated t
          (chain InsertCall.apply (Table.insert tbl) calls).state)) ∧
    (∀ calls,
      rejected "UpdateStatement is not completely initialized: collection"
        (Update_Base.execute spec_generated t
          (chain (UpdateCall.apply p) (Table.update tbl) calls).state)) ∧
    (∀ calls,
      rejected "DeleteStatement is not completely initialized: collection"
        (Delete_Base.execute spec_generated t
          (chain (DeleteCall.apply p) (Table.remove tbl) calls).state)) := by
  have hlc := Locator_nonempty_of_empty _ _ hc
  have hlt := Locator_nonempty_of_empty _ _ ht
  refine ⟨?_, ?_, ?_, ?_, ?_, ?_, ?_, ?_⟩
  · intro s hs calls
    apply Find_rejected_of_locator
    rw [Find_chain_locator, (Collection_find_ok p c cond s hs).2.1]
    exact hlc
  · intro calls
    apply Add_rejected_of_locator
    rw [Add_chain_locator, (Collection_add_built c doc).2.1]
    exact hlc
  · intro s hs calls
    apply Modify_rejected_of_locator
    rw [Modify_chain_locator, (Collection_modify_ok p c cond s hs).2.1]
    exact hlc
  · intro s hs calls
    apply Remove_rejected_of_locator
    rw [Remove_chain_locator, (Collection_remove_ok p c cond s hs).2.1]
    exact hlc
  · intro s hs calls
    apply Select_rejected_of_locator
    rw [Select_chain_locator, (Table_select_ok p tbl fieldList s hs).2.1]
    exact hlt
  · intro calls
    apply Insert_rejected_of_locator
    rw [Insert_chain_locator, (Table_insert_built tbl).2.1]
    exact hlt
  · intro calls
    apply Update_rejected_of_locator
    rw [Update_chain_locator, (Table_update_built tbl).2.1]
    exact hlt
  · intro calls
    apply Delete_rejected_of_locator
    rw [Delete_chain_locator, (Table_remove_built tbl).2.1]
    exact hlt

/-- Witness of C9 on the sample handles with an empty name: `find().limit(4)` on the unnamed
collection and `update().set('age', 18)` on the unnamed table are rejected. -/
theorem empty_locator_never_sent_witness :
    (Collection.schema_name Sample.unnamed_collection = "" ∨
      Collection.name Sample.unnamed_collection = "") ∧
    (Table.schema_name Sample.unnamed_table = "" ∨ Table.name Sample.unnamed_table = "") ∧
    (∃ s, Collection.find Sample.parser Sample.unnamed_collection "" = .ok s ∧
      rejected "FindStatement is not completely initialized: collection"
        (Find_Base.execute spec_generated Sample.transport
          (chain (FindCall.apply Sample.parser) s [.limit 4]).state)) ∧
    rejected "UpdateStatement is not completely initialized: collection"
      (Update_Base.execute spec_generated Sample.transport
        (chain (UpdateCall.apply Sample.parser) (Table.update Sample.unnamed_table)
          [.set "age" (.TInteger 18)]).state) :=
  ⟨Or.inr rfl, Or.inr rfl,
    ⟨_, rfl,
      (empty_locator_never_sent Sample.transport Sample.parser Sample.unnamed_collection
        Sample.unnamed_table "" "" { str := "" } (Or.inr rfl) (Or.inr rfl)).1 _ rfl _⟩,
    (empty_locator_never_sent Sample.transport Sample.parser Sample.unnamed_collection
      Sample.unnamed_table "" "" { str := "" } (Or.inr rfl) (Or.inr rfl)).2.2.2.2.2.2.1 _⟩

/-! ## Reserved methods -/

/-- C10, as amended: every call of a reserved method (sort, having, groupBy and bind on a
Find builder; orderBy, having and groupBy on a Select builder; arrayInsert, sort and bind on
a Modify builder; sort and bind on a Remove builder; bind on an Add builder; orderBy on an
Update or Delete builder) returns normally for every argument and gives back the builder
unchanged; no error is raised. -/
theorem reserved_methods_return_unchanged (p : Parser) (f : Find_Base) (s : Select_Base)
    (m : Modify_Base) (r : Remove_Base) (a : Add_Base) (u : Update_Base) (d : Delete_Base)
    (text name : String) (index : Int) (value : DocumentValue) :
    FindCall.apply p f (.sort text) = .returned f ∧
    FindCall.apply p f (.having text) = .returned f ∧
    FindCall.apply p f (.groupBy text) = .returned f ∧
    FindCall.apply p f (.bind name value) = .returned f ∧
    SelectCall.apply p s (.orderBy text) = .returned s ∧
    SelectCall.apply p s (.having text) = .returned s ∧
    SelectCall.apply p s (.groupBy text) = .returned s ∧
    ModifyCall.apply p m (.arrayInsert text index value) = .returned m ∧
    ModifyCall.apply p m (.sort text) = .returned m ∧
    ModifyCall.apply p m (.bind name value) = .returned m ∧
    RemoveCall.apply r (.sort text) = .returned r ∧
    RemoveCall.apply r (.bind name value) = .returned r ∧
    AddCall.apply a (.bind name value) = .returned a ∧
    UpdateCall.apply p u (.orderBy text) = .returned u ∧
    DeleteCall.apply p d (.orderBy text) = .returned d := by
  refine ⟨?_, ?_, ?_, ?_, ?_, ?_, ?_, ?_, ?_, ?_, ?_, ?_, ?_, ?_, ?_⟩
  · simp [FindCall.apply, Find_Sort.sort]
  · simp [FindCall.apply, Find_Having.having]
  · simp [FindCall.apply, Find_GroupBy.groupBy]
  · simp [FindCall.apply, Find_Base.bind]
  · simp [SelectCall.apply, Select_OrderBy.orderBy]
  · simp [SelectCall.apply, Select_Having.having]
  · simp [SelectCall.apply, Select_GroupBy.groupBy]
  · simp [ModifyCall.apply, Modify_Operation.arrayInsert]
  · simp [ModifyCall.apply, Modify_Sort.sort]
  · simp [ModifyCall.apply, Modify_Base.bind]
  · simp [RemoveCall.apply, RemoveStatement.sort]
  · simp [RemoveCall.apply, Remove_Base.bind]
  · simp [AddCall.apply, Add_Base.bind]
  · simp [UpdateCall.apply, Update_OrderBy.orderBy]
  · simp [DeleteCall.apply, Delete_OrderBy.orderBy]

/-- Counterexample to C10 as stated: on the builder made by `find()` for the sample
collection, `sort('')` does not fail; it returns the builder, and so does
`arrayInsert('tags', 0, 1)` on the builder made by `modify()`. -/
theorem reserved_sort_does_not_fail :
    (∃ s, Collection.find Sample.parser Sample.collection1 "" = .ok s ∧
      FindCall.apply Sample.parser s (.sort "") = .returned s ∧
      ¬ ∃ e s', FindCall.apply Sample.parser s (.sort "") = .thrown e s') ∧
    (∃ s, Collection.modify Sample.parser Sample.collection1 "" = .ok s ∧
      ModifyCall.apply Sample.parser s (.arrayInsert "tags" 0 (.TInteger 1)) = .returned s ∧
      ¬ ∃ e s',
        ModifyCall.apply Sample.parser s (.arrayInsert "tags" 0 (.TInteger 1)) = .thrown e s') :=
  ⟨⟨_, rfl, rfl, by
      rintro ⟨e, s', h⟩
      cases h⟩,
    ⟨_, rfl, rfl, by
      rintro ⟨e, s', h⟩
      cases h⟩⟩

/-! ## Rows of an Insert message -/

theorem AddStatement_add_foldl_row (docs : List Document) :
    ∀ s : Add_Base,
      (docs.foldl AddStatement.add s).m_insert.row
        = s.m_insert.row ++ docs.map (fun d =>
            ({ field := [{ type := some .SCALAR,
                           scalar := some { type := some .V_OCTETS, v_opaque := some d.str } }] }
              : Crud.Insert_TypedRow)) := by
  induction docs with
  | nil => intro s; simp
  | cons d rest ih =>
    intro s
    simp [List.foldl, ih, AddStatement.add]

/-- C11: `add(d)` on an Add builder appends one row at the end of the Insert message and
leaves the earlier rows as they were; the row has one field, an Any of type SCALAR whose
scalar has type V_OCTETS and the opaque payload `d.str()`; so the message of
`Collection.add(d0).add(d1)...add(dk)` holds the k+1 rows of d0, d1, ..., dk in call
order. -/
theorem add_appends_one_document_row (s : Add_Base) (d : Document)
    (c : shared_ptr Collection) (d0 : Document) (docs : List Document) :
    (AddStatement.add s d).m_insert.row
      = s.m_insert.row ++
        [{ field := [{ type := some .SCALAR,
                       scalar := some { type := some .V_OCTETS, v_opaque := some d.str } }] }] ∧
    (docs.foldl AddStatement.add (Collection.add c d0)).m_insert.row
      = (d0 :: docs).map (fun x =>
          ({ field := [{ type := some .SCALAR,
                         scalar := some { type := some .V_OCTETS, v_opaque := some x.str } }] }
            : Crud.Insert_TypedRow)) ∧
    (docs.foldl AddStatement.add (Collection.add c d0)).m_insert.row.length
      = docs.length + 1 := by
  have hfirst : (Collection.add c d0).m_insert.row
      = [{ field := [{ type := some .SCALAR,
                       scalar := some { type := some .V_OCTETS, v_opaque := some d0.str } }] }] := by
    simp [Collection.add, AddStatement.new, AddStatement.add, Add_Base.mk_empty]
  refine ⟨?_, ?_, ?_⟩
  · simp [AddStatement.add]
  · rw [AddStatement_add_foldl_row, hfirst]
    simp
  · rw [AddStatement_add_foldl_row, hfirst]
    simp

theorem Insert_Values_row_fields (row_data : List TableValue) :
    ∀ r : Crud.Insert_TypedRow,
      row_data.foldl
          (fun r index =>
            { r with field := r.field ++ [Table_Statement.convert_table_value index] }) r
        = { field := r.field ++ row_data.map Table_Statement.convert_table_value } := by
  induction row_data with
  | nil => intro r; simp
  | cons v rest ih =>
    intro r
    simp [List.foldl, ih]

theorem Insert_Values_values_row (s : Insert_Base) (row_data : List TableValue) :
    (Insert_Values.values s row_data).m_insert.row
      = s.m_insert.row ++ [{ field := row_data.map Table_Statement.convert_table_value }] ∧
    (Insert_Values.values s row_data).m_insert.projection = s.m_insert.projection := by
  simp [Insert_Values.values, Insert_Values_row_fields]

theorem InsertStatement_insert_projection (columns : List String) :
    ∀ s : Insert_Base,
      (InsertStatement.insert s columns).m_insert.projection
        = s.m_insert.projection ++ columns.map (fun c => ({ name := some c } : Crud.Column)) := by
  induction columns with
  | nil => intro s; simp [InsertStatement.insert]
  | cons c rest ih =>
    intro s
    have h := ih { s with
      m_insert := { s.m_insert with projection := s.m_insert.projection ++ [{ name := some c }] } }
    simpa [InsertStatement.insert] using h

theorem Insert_Values_values_foldl (rows : List (List TableValue)) :
    ∀ s : Insert_Base,
      (rows.foldl Insert_Values.values s).m_insert.row
        = s.m_insert.row ++ rows.map (fun r =>
            ({ field := r.map Table_Statement.convert_table_value } : Crud.Insert_TypedRow)) ∧
      (rows.foldl Insert_Values.values s).m_insert.projection = s.m_insert.projection := by
  induction rows with
  | nil => intro s; simp
  | cons r rest ih =>
    intro s
    have h := ih (Insert_Values.values s r)
    have hv := Insert_Values_values_row s r
    simp [List.foldl, h.1, h.2, hv.1, hv.2]

/-- C12, as amended: in the message built by `insert(columns)` followed by `values(row)`
calls, the projection holds one entry per column name and each `values(row)` call has
appended one row that carries one converted scalar per element of its argument, in order;
the builder does not compare the two counts, so the field count of every row equals the
number of projected names when every row argument has as many values as there are
columns. -/
theorem insert_rows_follow_their_arguments (t : shared_ptr Table) (columns : List String)
    (rows : List (List TableValue)) :
    (rows.foldl Insert_Values.values
        (InsertStatement.insert (Table.insert t) columns)).m_insert.projection
      = columns.map (fun c => ({ name := some c } : Crud.Column)) ∧
    (rows.foldl Insert_Values.values
        (InsertStatement.insert (Table.insert t) columns)).m_insert.row
      = rows.map (fun r =>
          ({ field := r.map Table_Statement.convert_table_value } : Crud.Insert_TypedRow)) ∧
    (rows.foldl Insert_Values.values
        (InsertStatement.insert (Table.insert t) columns)).m_insert.row.map
        (fun row => row.field.length)
      = rows.map List.length ∧
    ((∀ r ∈ rows, r.length = columns.length) →
      ∀ row ∈ (rows.foldl Insert_Values.values
          (InsertStatement.insert (Table.insert t) columns)).m_insert.row,
        row.field.length
          = (rows.foldl Insert_Values.values
              (InsertStatement.insert (Table.insert t) columns)).m_insert.projection.length) := by
  have hp0 : (Table.insert t).m_insert.projection = [] := by
    simp [Table.insert, InsertStatement.new, Insert_Base.mk_empty]
  have hr0 : (Table.insert t).m_insert.row = [] := by
    simp [Table.insert, InsertStatement.new, Insert_Base.mk_empty]
  have hproj : (rows.foldl Insert_Values.values
      (InsertStatement.insert (Table.insert t) columns)).m_insert.projection
      = columns.map (fun c => ({ name := some c } : Crud.Column)) := by
    rw [(Insert_Values_values_foldl rows _).2, InsertStatement_insert_projection, hp0]
    simp
  have hrow : (rows.foldl Insert_Values.values
      (InsertStatement.insert (Table.insert t) columns)).m_insert.row
      = rows.map (fun r =>
          ({ field := r.map Table_Statement.convert_table_value } : Crud.Insert_TypedRow)) := by
    rw [(Insert_Values_values_foldl rows _).1, (InsertStatement_insert_frame columns _).2.2.1,
      hr0]
    simp
  refine ⟨hproj, hrow, ?_, ?_⟩
  · rw [hrow]
    simp [Function.comp_def]
  · intro hlen row hrowmem
    rw [hrow] at hrowmem
    rw [hproj]
    obtain ⟨r, hr, rfl⟩ := List.mem_map.1 hrowmem
    simp [hlen r hr]

/-- Witness of C12 as amended: two columns and two rows of two values each. -/
theorem insert_rows_follow_their_arguments_witness :
    (∀ r ∈ [[TableValue.TString "jack", TableValue.TInteger 17],
            [TableValue.TString "adam", TableValue.TInteger 15]],
        r.length = ["name", "age"].length) ∧
    ∀ row ∈ ([[TableValue.TString "jack", TableValue.TInteger 17],
              [TableValue.TString "adam", TableValue.TInteger 15]].foldl Insert_Values.values
          (InsertStatement.insert (Table.insert Sample.table1) ["name", "age"])).m_insert.row,
      row.field.length
        = ([[TableValue.TString "jack", TableValue.TInteger 17],
            [TableValue.TString "adam", TableValue.TInteger 15]].foldl Insert_Values.values
            (InsertStatement.insert (Table.insert Sample.table1)
              ["name", "age"])).m_insert.projection.length :=
  ⟨by decide,
    (insert_rows_follow_their_arguments Sample.table1 ["name", "age"]
      [[TableValue.TString "jack", TableValue.TInteger 17],
       [TableValue.TString "adam", TableValue.TInteger 15]]).2.2.2 (by decide)⟩

/-- Counterexample to C12 as stated: `insert(['name', 'age']).values(['jack'])` on the
sample table builds a message with two projected columns whose only row has one field. -/
theorem insert_row_shorter_than_projection :
    (Insert_Values.values (InsertStatement.insert (Table.insert Sample.table1) ["name", "age"])
        [TableValue.TString "jack"]).m_insert.projection.length = 2 ∧
    (Insert_Values.values (InsertStatement.insert (Table.insert Sample.table1) ["name", "age"])
        [TableValue.TString "jack"]).m_insert.row.map (fun row => row.field.length) = [1] ∧
    ¬ ∀ row ∈ (Insert_Values.values
          (InsertStatement.insert (Table.insert Sample.table1) ["name", "age"])
          [TableValue.TString "jack"]).m_insert.row,
        row.field.length
          = (Insert_Values.values
              (InsertStatement.insert (Table.insert Sample.table1) ["name", "age"])
              [TableValue.TString "jack"]).m_insert.projection.length := by
  refine ⟨rfl, rfl, ?_⟩
  intro h
  have h1 := h { field := [Table_Statement.convert_table_value (TableValue.TString "jack")] }
    (by decide)
  revert h1
  decide

/-! ## The operation list of an Update message -/

theorem chain_cons_returned {σ κ : Type} (step : σ → κ → Outcome σ) (s s' : σ) (c : κ)
    (rest : List κ) (h : chain step s (c :: rest) = .returned s') :
    ∃ s1, step s c = .returned s1 ∧ chain step s1 rest = .returned s' := by
  unfold chain at h
  cases hc : step s c with
  | returned s1 =>
    rw [hc] at h
    exact ⟨s1, rfl, h⟩
  | thrown e s1 =>
    rw [hc] at h
    cases h

theorem Modify_Operation_set_operation_returned (p : Parser) (s s' : Modify_Base)
    (ty : Crud.UpdateOperation_UpdateType) (path : String) (v : Option DocumentValue)
    (h : Modify_Operation.set_operation p s ty path v = .returned s') :
    ∃ items_0 rest item more val,
      p.parse_collection_column_list [] path = .returned (items_0 :: rest) ∧
      items_0.target_path = item :: more ∧
      s' = s.add_operation
        { source := some { document_path := [item] }, operation := some ty, value := val } ∧
      (v = none → val = none) ∧
      (∀ x, v = some x → x.isTExpression = false →
        val = some { type := some .LITERAL,
                     constant := some (Collection_Statement.convert_document_value x) }) ∧
      (∀ x, v = some x → x.isTExpression = true →
        ∃ parsed, p.Expr_parser_expr x.to_string true = .ok parsed ∧ val = some parsed) := by
  unfold Modify_Operation.set_operation at h
  cases hl : p.parse_collection_column_list [] path with
  | thrown e l => simp [hl] at h
  | returned items =>
    cases items with
    | nil => simp [hl] at h
    | cons i0 rest =>
      cases h0 : i0.target_path with
      | nil => simp [hl, h0] at h
      | cons item more =>
        refine ⟨i0, rest, item, more, ?_⟩
        cases v with
        | none =>
          simp [hl, h0] at h
          refine ⟨none, rfl, h0, h.symm, ?_, ?_, ?_⟩
          · intro _
            rfl
          · intro x hv
            cases hv
          · intro x hv
            cases hv
        | some val =>
          by_cases hx : val.isTExpression = true
          · cases hp : p.Expr_parser_expr val.to_string true with
            | error e => simp [hl, h0, hx, hp] at h
            | ok parsed =>
              simp [hl, h0, hx, hp] at h
              refine ⟨some parsed, rfl, h0, h.symm, ?_, ?_, ?_⟩
              · intro hv
                cases hv
              · intro x hv hxf
                cases hv
                rw [hx] at hxf
                cases hxf
              · intro x hv _
                cases hv
                exact ⟨parsed, hp, rfl⟩
          · simp [hl, h0, hx] at h
            refine ⟨_, rfl, h0, h.symm, ?_, ?_, ?_⟩
            · intro hv
              cases hv
            · intro x hv _
              cases hv
              rfl
            · intro x hv hxt
              cases hv
              exact absurd hxt hx

theorem ModifyCall_apply_returned_operation (p : Parser) (s s' : Modify_Base) (c : ModifyCall)
    (h : ModifyCall.apply p s c = .returned s') :
    ∃ ops, s'.m_update.operation = s.m_update.operation ++ ops ∧
      ops.map (fun op => op.operation) = (c.kind.toList).map some := by
  have key : ∀ ty path v, Modify_Operation.set_operation p s ty path v = .returned s' →
      ∃ ops, s'.m_update.operation = s.m_update.operation ++ ops ∧
        ops.map (fun op => op.operation) = [some ty] := by
    intro ty path v hv
    obtain ⟨i0, rest, item, more, val, _, _, hs', _⟩ :=
      Modify_Operation_set_operation_returned p s s' ty path v hv
    subst hs'
    exact ⟨[_], rfl, rfl⟩
  cases c with
  | limit n =>
    simp [ModifyCall.apply, Modify_Limit.limit] at h
    exact ⟨[], by rw [← h]; simp, rfl⟩
  | sort x =>
    simp [ModifyCall.apply, Modify_Sort.sort] at h
    exact ⟨[], by rw [← h]; simp, rfl⟩
  | remove path => exact key _ path none h
  | set path value => exact key _ path (some value) h
  | change path value => exact key _ path (some value) h
  | arrayInsert path index value =>
    simp [ModifyCall.apply, Modify_Operation.arrayInsert] at h
    exact ⟨[], by rw [← h]; simp, rfl⟩
  | arrayAppend path value => exact key _ path (some value) h
  | bind name value =>
    simp [ModifyCall.apply, Modify_Base.bind] at h
    exact ⟨[], by rw [← h]; simp, rfl⟩

theorem Update_Set_set_expression_returned (p : Parser) (s s' : Update_Base)
    (field expression : String)
    (h : Update_Set.set_expression p s field expression = .returned s') :
    ∃ parsed, p.Expr_parser_expr expression false = .ok parsed ∧
      s' = s.add_operation
        { source := some { name := some field }, operation := some .SET,
          value := some parsed } := by
  unfold Update_Set.set_expression at h
  cases hp : p.Expr_parser_expr expression false with
  | error e => simp [hp] at h
  | ok parsed =>
    simp [hp] at h
    exact ⟨parsed, rfl, h.symm⟩

theorem UpdateCall_apply_returned_operation (p : Parser) (s s' : Update_Base) (c : UpdateCall)
    (h : UpdateCall.apply p s c = .returned s') :
    ∃ ops, s'.m_update.operation = s.m_update.operation ++ ops ∧
      ops.map (fun op => op.operation) = (c.kind.toList).map some := by
  cases c with
  | limit n =>
    simp [UpdateCall.apply, Update_Limit.limit] at h
    exact ⟨[], by rw [← h]; simp, rfl⟩
  | orderBy x =>
    simp [UpdateCall.apply, Update_OrderBy.orderBy] at h
    exact ⟨[], by rw [← h]; simp, rfl⟩
  | where_ x =>
    simp only [UpdateCall.apply] at h
    unfold Update_Where.where_ at h
    by_cases hx : x.isEmpty = true
    · simp [hx] at h
      exact ⟨[], by rw [← h]; simp, rfl⟩
    · cases hp : p.parse_table_filter x with
      | error e => simp [hx, hp] at h
      | ok e =>
        simp [hx, hp] at h
        exact ⟨[], by rw [← h]; simp, rfl⟩
  | set field value =>
    simp [UpdateCall.apply, Update_Set.set, Update_Base.add_operation] at h
    subst h
    exact ⟨[_], rfl, rfl⟩
  | set_expression field e =>
    simp only [UpdateCall.apply] at h
    obtain ⟨parsed, _, hs'⟩ := Update_Set_set_expression_returned p s s' field e h
    subst hs'
    exact ⟨[_], rfl, rfl⟩

/-- C13: the operation list is flat and in call order.  A call of remove, set, change or
arrayAppend on a Modify builder that returns has appended one operation at the end, of type
ITEM_REMOVE, ITEM_SET, ITEM_REPLACE, ARRAY_APPEND in that order of methods, and left the
operations before it unchanged; `set` on a table Update builder appends one operation of
type SET; and after a sequence of calls that all return, the operations added to the list
are, in call order, one per operation-adding call with the type of that call. -/
theorem operations_appended_in_call_order (p : Parser) (m m' : Modify_Base) (u u' : Update_Base)
    (path field expression : String) (value : DocumentValue) (tvalue : TableValue)
    (mcalls : List ModifyCall) (ucalls : List UpdateCall) :
    (Modify_Operation.remove p m path = .returned m' →
      ∃ op, m'.m_update.operation = m.m_update.operation ++ [op] ∧
        op.operation = some .ITEM_REMOVE) ∧
    (Modify_Operation.set p m path value = .returned m' →
      ∃ op, m'.m_update.operation = m.m_update.operation ++ [op] ∧
        op.operation = some .ITEM_SET) ∧
    (Modify_Operation.change p m path value = .returned m' →
      ∃ op, m'.m_update.operation = m.m_update.operation ++ [op] ∧
        op.operation = some .ITEM_REPLACE) ∧
    (Modify_Operation.arrayAppend p m path value = .returned m' →
      ∃ op, m'.m_update.operation = m.m_update.operation ++ [op] ∧
        op.operation = some .ARRAY_APPEND) ∧
    (∃ op, (Update_Set.set u field tvalue).m_update.operation = u.m_update.operation ++ [op] ∧
        op.operation = some .SET) ∧
    (Update_Set.set_expression p u field expression = .returned u' →
      ∃ op, u'.m_update.operation = u.m_update.operation ++ [op] ∧
        op.operation = some .SET) ∧
    (chain (ModifyCall.apply p) m mcalls = .returned m' →
      ∃ ops, m'.m_update.operation = m.m_update.operation ++ ops ∧
        ops.map (fun op => op.operation) = (mcalls.filterMap ModifyCall.kind).map some) ∧
    (chain (UpdateCall.apply p) u ucalls = .returned u' →
      ∃ ops, u'.m_update.operation = u.m_update.operation ++ ops ∧
        ops.map (fun op => op.operation) = (ucalls.filterMap UpdateCall.kind).map some) := by
  have one : ∀ ty v, Modify_Operation.set_operation p m ty path v = .returned m' →
      ∃ op, m'.m_update.operation = m.m_update.operation ++ [op] ∧ op.operation = some ty := by
    intro ty v hv
    obtain ⟨i0, rest, item, more, val, _, _, hs', _⟩ :=
      Modify_Operation_set_operation_returned p m m' ty path v hv
    subst hs'
    exact ⟨_, rfl, rfl⟩
  refine ⟨one _ none, one _ (some value), one _ (some value), one _ (some value), ?_, ?_, ?_, ?_⟩
  · exact ⟨_, rfl, rfl⟩
  · intro h
    obtain ⟨parsed, _, hs'⟩ := Update_Set_set_expression_returned p u u' field expression h
    subst hs'
    exact ⟨_, rfl, rfl⟩
  · intro h
    clear one
    induction mcalls generalizing m with
    | nil =>
      simp [chain] at h
      exact ⟨[], by rw [← h]; simp, rfl⟩
    | cons c rest ih =>
      obtain ⟨s1, h1, h2⟩ := chain_cons_returned _ _ _ _ _ h
      obtain ⟨ops1, ho1, hk1⟩ := ModifyCall_apply_returned_operation p m s1 c h1
      obtain ⟨ops2, ho2, hk2⟩ := ih s1 h2
      refine ⟨ops1 ++ ops2, by rw [ho2, ho1, List.append_assoc], ?_⟩
      rw [List.map_append, hk1, hk2, List.filterMap_cons]
      cases hk : c.kind <;> simp
  · intro h
    clear one
    induction ucalls generalizing u with
    | nil =>
      simp [chain] at h
      exact ⟨[], by rw [← h]; simp, rfl⟩
    | cons c rest ih =>
      obtain ⟨s1, h1, h2⟩ := chain_cons_returned _ _ _ _ _ h
      obtain ⟨ops1, ho1, hk1⟩ := UpdateCall_apply_returned_operation p u s1 c h1
      obtain ⟨ops2, ho2, hk2⟩ := ih s1 h2
      refine ⟨ops1 ++ ops2, by rw [ho2, ho1, List.append_assoc], ?_⟩
      rw [List.map_append, hk1, hk2, List.filterMap_cons]
      cases hk : c.kind <;> simp

/-- Witness of C13 on the sample collection: set, limit and remove in a row leave the
operations ITEM_SET and ITEM_REMOVE, in that order. -/
theorem operations_appended_in_call_order_witness :
    ∃ m', chain (ModifyCall.apply Sample.parser) (Modify_Base.mk_empty Sample.collection1)
        [.set "age" (.TInteger 18), .limit 1, .remove "name"] = .returned m' ∧
      ∃ ops, m'.m_update.operation
          = (Modify_Base.mk_empty Sample.collection1).m_update.operation ++ ops ∧
        ops.map (fun op => op.operation)
          = ([ModifyCall.set "age" (.TInteger 18), .limit 1, .remove "name"].filterMap
              ModifyCall.kind).map some :=
  ⟨_, rfl,
    (operations_appended_in_call_order Sample.parser (Modify_Base.mk_empty Sample.collection1) _
      (Update_Base.mk_empty Sample.table1) (Update_Base.mk_empty Sample.table1)
      "age" "age" "age + 1" (.TInteger 18) (.TInteger 18)
      [.set "age" (.TInteger 18), .limit 1, .remove "name"] []).2.2.2.2.2.2.1 rfl⟩

/-! ## Values -/

/-- C15: conversion maps each variant to its own scalar tag.  convert_table_value sends
Integer, UInteger, Bool, Double, Float, Null, Octets, String to an Any of type SCALAR whose
scalar has the tag V_SINT, V_UINT, V_BOOL, V_DOUBLE, V_FLOAT, V_NULL, V_OCTETS, V_STRING
and, except for Null, the payload field of that tag set to the input's value;
convert_document_value sends Integer, Float, String, Document to V_SINT, V_DOUBLE, V_STRING,
V_OCTETS in the same way; two values get the same tag exactly when they are of the same
variant.  Both are functions of the value alone. -/
theorem conversion_maps_variants_to_tags (i : Int) (n : Nat) (b : Bool) (d : Datatypes.F64)
    (f : Datatypes.F32) (o s : String) (v w : TableValue) (x y : DocumentValue) :
    Table_Statement.convert_table_value (.TInteger i)
      = { type := some .SCALAR, scalar := some { type := some .V_SINT, v_signed_int := some i } } ∧
    Table_Statement.convert_table_value (.TUInteger n)
      = { type := some .SCALAR,
          scalar := some { type := some .V_UINT, v_unsigned_int := some n } } ∧
    Table_Statement.convert_table_value (.TBool b)
      = { type := some .SCALAR, scalar := some { type := some .V_BOOL, v_bool := some b } } ∧
    Table_Statement.convert_table_value (.TDouble d)
      = { type := some .SCALAR, scalar := some { type := some .V_DOUBLE, v_double := some d } } ∧
    Table_Statement.convert_table_value (.TFloat f)
      = { type := some .SCALAR, scalar := some { type := some .V_FLOAT, v_float := some f } } ∧
    Table_Statement.convert_table_value .TNull
      = { type := some .SCALAR, scalar := some { type := some .V_NULL } } ∧
    Table_Statement.convert_table_value (.TOctets o)
      = { type := some .SCALAR, scalar := some { type := some .V_OCTETS, v_opaque := some o } } ∧
    Table_Statement.convert_table_value (.TString s)
      = { type := some .SCALAR, scalar := some { type := some .V_STRING, v_string := some s } } ∧
    Collection_Statement.convert_document_value (.TInteger i)
      = { type := some .SCALAR, scalar := some { type := some .V_SINT, v_signed_int := some i } } ∧
    Collection_Statement.convert_document_value (.TFloat d)
      = { type := some .SCALAR, scalar := some { type := some .V_DOUBLE, v_double := some d } } ∧
    Collection_Statement.convert_document_value (.TString s)
      = { type := some .SCALAR, scalar := some { type := some .V_STRING, v_string := some s } } ∧
    Collection_Statement.convert_document_value (.TDocument o)
      = { type := some .SCALAR, scalar := some { type := some .V_OCTETS, v_opaque := some o } } ∧
    (scalar_tag (Table_Statement.convert_table_value v)
        = scalar_tag (Table_Statement.convert_table_value w) ↔ v.type = w.type) ∧
    (x.type ≠ .TExpression → y.type ≠ .TExpression →
      (scalar_tag (Collection_Statement.convert_document_value x)
        = scalar_tag (Collection_Statement.convert_document_value y) ↔ x.type = y.type)) := by
  refine ⟨rfl, rfl, rfl, rfl, rfl, rfl, rfl, rfl, rfl, rfl, rfl, rfl, ?_, ?_⟩
  · cases v <;> cases w <;>
      simp [scalar_tag, Table_Statement.convert_table_value, TableValue.type]
  · intro hx hy
    cases x <;> cases y <;>
      simp_all [scalar_tag, Collection_Statement.convert_document_value, DocumentValue.type]

/-- Witness of C15: an Integer and a String document value get different tags. -/
theorem conversion_maps_variants_to_tags_witness :
    DocumentValue.type (.TInteger 17) ≠ .TExpression ∧
    DocumentValue.type (.TString "jack") ≠ .TExpression ∧
    (scalar_tag (Collection_Statement.convert_document_value (.TInteger 17))
        = scalar_tag (Collection_Statement.convert_document_value (.TString "jack")) ↔
      DocumentValue.type (.TInteger 17) = DocumentValue.type (.TString "jack")) :=
  ⟨by decide, by decide,
    (conversion_maps_variants_to_tags 17 0 true { bits := 0 } { bits := 0 } "" "jack"
      .TNull .TNull (.TInteger 17) (.TString "jack")).2.2.2.2.2.2.2.2.2.2.2.2.2
      (by decide) (by decide)⟩

/-- C16, as amended: convert_document_value is total and raises no error; for an Integer,
Float, String or Document value the Any it returns is of type SCALAR and its scalar carries
a type tag; and the constant that set, change or arrayAppend writes for a value that is not
an Expression carries a type tag, while an Expression value is not converted: the
operation's value is what the expression parser returned. -/
theorem convert_document_value_typed (p : Parser) (s s' : Modify_Base)
    (ty : Crud.UpdateOperation_UpdateType) (path : String) (v : DocumentValue) :
    (Collection_Statement.convert_document_value v).type = some .SCALAR ∧
    (v.type ≠ .TExpression →
      ∃ tag, scalar_tag (Collection_Statement.convert_document_value v) = some tag) ∧
    (Modify_Operation.set_operation p s ty path (some v) = .returned s' →
      ∃ op e, s'.m_update.operation = s.m_update.operation ++ [op] ∧ op.value = some e ∧
        (v.type ≠ .TExpression →
          ∃ k tag, e.constant = some k ∧ e.type = some .LITERAL ∧ scalar_tag k = some tag) ∧
        (v.type = .TExpression → p.Expr_parser_expr v.to_string true = .ok e)) := by
  have htyped : v.type ≠ .TExpression →
      ∃ tag, scalar_tag (Collection_Statement.convert_document_value v) = some tag := by
    intro hv
    cases v <;>
      simp_all [scalar_tag, Collection_Statement.convert_document_value, DocumentValue.type]
  refine ⟨?_, htyped, ?_⟩
  · cases v <;> rfl
  · intro h
    obtain ⟨i0, rest, item, more, val, _, _, hs', _, hlit, hexp⟩ :=
      Modify_Operation_set_operation_returned p s s' ty path (some v) h
    subst hs'
    by_cases hx : v.isTExpression = true
    · obtain ⟨parsed, hp, hval⟩ := hexp v rfl hx
      subst hval
      refine ⟨_, parsed, rfl, rfl, ?_, fun _ => hp⟩
      intro hne
      cases v <;> simp_all [DocumentValue.isTExpression, DocumentValue.type]
    · have hx' : v.isTExpression = false := by simpa using hx
      have hval := hlit v rfl hx'
      subst hval
      refine ⟨_, _, rfl, rfl, ?_, ?_⟩
      · intro hne
        obtain ⟨tag, htag⟩ := htyped hne
        exact ⟨_, tag, rfl, rfl, htag⟩
      · intro hte
        cases v <;> simp_all [DocumentValue.isTExpression, DocumentValue.type]

/-- Witness of C16 as amended: `set('age', 18)` on the sample collection writes a constant
with a type tag. -/
theorem convert_document_value_typed_witness :
    DocumentValue.type (.TInteger 18) ≠ .TExpression ∧
    ∃ s', Modify_Operation.set_operation Sample.parser (Modify_Base.mk_empty Sample.collection1)
        .ITEM_SET "age" (some (.TInteger 18)) = .returned s' ∧
      ∃ op e, s'.m_update.operation
          = (Modify_Base.mk_empty Sample.collection1).m_update.operation ++ [op] ∧
        op.value = some e ∧
        (DocumentValue.type (.TInteger 18) ≠ .TExpression →
          ∃ k tag, e.constant = some k ∧ e.type = some .LITERAL ∧ scalar_tag k = some tag) ∧
        (DocumentValue.type (.TInteger 18) = .TExpression →
          Sample.parser.Expr_parser_expr (DocumentValue.to_string (.TInteger 18)) true = .ok e) :=
  ⟨by decide, _, rfl,
    (convert_document_value_typed Sample.parser (Modify_Base.mk_empty Sample.collection1) _
      .ITEM_SET "age" (.TInteger 18)).2.2 rfl⟩

/-- Counterexample to C16 as stated: given an Expression value, convert_document_value
raises nothing; it returns an Any of type SCALAR whose scalar has no type tag. -/
theorem convert_document_value_expression_untyped :
    Collection_Statement.convert_document_value (.TExpression "age + 1")
      = { type := some .SCALAR, scalar := some {} } ∧
    scalar_tag (Collection_Statement.convert_document_value (.TExpression "age + 1")) = none :=
  ⟨rfl, rfl⟩

/-- C17: when set, change or arrayAppend (path, v) returns, the operation it has appended
has, for an Expression value v, the expression the expression parser returned for v's text
as its value (no conversion, no LITERAL wrapper of the builder's own), and for any other v
an expression of type LITERAL whose constant is convert_document_value(v). -/
theorem modify_value_literal_or_parsed (p : Parser) (s s' : Modify_Base) (path : String)
    (v : DocumentValue)
    (h : Modify_Operation.set p s path v = .returned s' ∨
      Modify_Operation.change p s path v = .returned s' ∨
      Modify_Operation.arrayAppend p s path v = .returned s') :
    ∃ op, s'.m_update.operation = s.m_update.operation ++ [op] ∧
      (v.isTExpression = true →
        ∃ parsed, p.Expr_parser_expr v.to_string true = .ok parsed ∧ op.value = some parsed) ∧
      (v.isTExpression = false →
        op.value = some { type := some .LITERAL,
                          constant := some (Collection_Statement.convert_document_value v) }) := by
  have key : ∀ ty, Modify_Operation.set_operation p s ty path (some v) = .returned s' →
      ∃ op, s'.m_update.operation = s.m_update.operation ++ [op] ∧
        (v.isTExpression = true →
          ∃ parsed, p.Expr_parser_expr v.to_string true = .ok parsed ∧ op.value = some parsed) ∧
        (v.isTExpression = false →
          op.value = some { type := some .LITERAL,
                            constant := some (Collection_Statement.convert_document_value v) }) := by
    intro ty hty
    obtain ⟨i0, rest, item, more, val, _, _, hs', _, hlit, hexp⟩ :=
      Modify_Operation_set_operation_returned p s s' ty path (some v) hty
    subst hs'
    exact ⟨_, rfl, fun hx => hexp v rfl hx, fun hx => hlit v rfl hx⟩
  rcases h with h | h | h
  · exact key _ h
  · exact key _ h
  · exact key _ h

/-- Witness of C17 on the sample collection: `set('age', expr('age + 1'))` stores the parsed
expression, `change('age', 18)` stores the literal constant. -/
theorem modify_value_literal_or_parsed_witness :
    (∃ s', Modify_Operation.set Sample.parser (Modify_Base.mk_empty Sample.collection1) "age"
        (.TExpression "age + 1") = .returned s' ∧
      ∃ op, s'.m_update.operation
          = (Modify_Base.mk_empty Sample.collection1).m_update.operation ++ [op] ∧
        (DocumentValue.isTExpression (.TExpression "age + 1") = true →
          ∃ parsed,
            Sample.parser.Expr_parser_expr (DocumentValue.to_string (.TExpression "age + 1")) true
              = .ok parsed ∧ op.value = some parsed) ∧
        (DocumentValue.isTExpression (.TExpression "age + 1") = false →
          op.value = some { type := some .LITERAL,
                            constant := some (Collection_Statement.convert_document_value
                              (.TExpression "age + 1")) })) ∧
    (∃ s', Modify_Operation.change Sample.parser (Modify_Base.mk_empty Sample.collection1) "age"
        (.TInteger 18) = .returned s' ∧
      ∃ op, s'.m_update.operation
          = (Modify_Base.mk_empty Sample.collection1).m_update.operation ++ [op] ∧
        (DocumentValue.isTExpression (.TInteger 18) = true →
          ∃ parsed,
            Sample.parser.Expr_parser_expr (DocumentValue.to_string (.TInteger 18)) true
              = .ok parsed ∧ op.value = some parsed) ∧
        (DocumentValue.isTExpression (.TInteger 18) = false →
          op.value = some { type := some .LITERAL,
                            constant := some (Collection_Statement.convert_document_value
                              (.TInteger 18)) })) :=
  ⟨⟨_, rfl,
      modify_value_literal_or_parsed Sample.parser (Modify_Base.mk_empty Sample.collection1) _
        "age" (.TExpression "age + 1") (Or.inl rfl)⟩,
    ⟨_, rfl,
      modify_value_literal_or_parsed Sample.parser (Modify_Base.mk_empty Sample.collection1) _
        "age" (.TInteger 18) (Or.inr (Or.inl rfl))⟩⟩

/-! ## Operations and their values -/

theorem ModifyCall_apply_returned_valued (p : Parser) (s s' : Modify_Base) (c : ModifyCall)
    (h : ModifyCall.apply p s c = .returned s')
    (hs : ∀ op ∈ s.m_update.operation, operation_valued op) :
    ∀ op ∈ s'.m_update.operation, operation_valued op := by
  have key : ∀ ty path v, Modify_Operation.set_operation p s ty path v = .returned s' →
      (v = none ↔ ty = .ITEM_REMOVE) → ∀ op ∈ s'.m_update.operation, operation_valued op := by
    intro ty path v hv hty op hop
    obtain ⟨i0, rest, item, more, val, _, _, hs', hnone, hlit, hexp⟩ :=
      Modify_Operation_set_operation_returned p s s' ty path v hv
    subst hs'
    simp only [Modify_Base.add_operation, List.mem_append, List.mem_singleton] at hop
    rcases hop with hop | hop
    · exact hs op hop
    · subst hop
      cases v with
      | none =>
        have := hty.1 rfl
        simp [operation_valued, this, hnone rfl]
      | some x =>
        have hne : ty ≠ .ITEM_REMOVE := fun he => by
          have := hty.2 he
          cases this
        by_cases hx : x.isTExpression = true
        · obtain ⟨parsed, _, hval⟩ := hexp x rfl hx
          simp [operation_valued, hne, hval]
        · have hx' : x.isTExpression = false := by simpa using hx
          simp [operation_valued, hne, hlit x rfl hx']
  cases c with
  | limit n =>
    simp [ModifyCall.apply, Modify_Limit.limit] at h
    subst h
    exact hs
  | sort x =>
    simp [ModifyCall.apply, Modify_Sort.sort] at h
    subst h
    exact hs
  | remove path => exact key _ path none h (by simp)
  | set path value => exact key _ path (some value) h (by simp)
  | change path value => exact key _ path (some value) h (by simp)
  | arrayInsert path index value =>
    simp [ModifyCall.apply, Modify_Operation.arrayInsert] at h
    subst h
    exact hs
  | arrayAppend path value => exact key _ path (some value) h (by simp)
  | bind name value =>
    simp [ModifyCall.apply, Modify_Base.bind] at h
    subst h
    exact hs

/-- After a sequence of calls on a Modify builder that all return, every operation of the
message satisfies the invariant when the operations it started with did. -/
theorem operations_valued_when_calls_return (p : Parser) (calls : List ModifyCall) :
    ∀ (s s' : Modify_Base), chain (ModifyCall.apply p) s calls = .returned s' →
      (∀ op ∈ s.m_update.operation, operation_valued op) →
      ∀ op ∈ s'.m_update.operation, operation_valued op := by
  induction calls with
  | nil =>
    intro s s' h hs
    simp [chain] at h
    subst h
    exact hs
  | cons c rest ih =>
    intro s s' h hs
    obtain ⟨s1, h1, h2⟩ := chain_cons_returned _ _ _ _ _ h
    exact ih s1 s' h2 (ModifyCall_apply_returned_valued p s s1 c h1 hs)

/-- C14 at the failing input: on the builder made by `modify()` for the sample collection,
`set('age', expr('test = "2'))` throws the parser's error after the operation has been
added, so the message holds an ITEM_SET operation without a value; `set('age', 'test = "2')`
on the builder made by `update()` for the sample table leaves a SET operation without a
value in the same way.  Neither operation satisfies the invariant. -/
theorem operation_without_value_after_parse_failure :
    (∃ s, Collection.modify Sample.parser Sample.collection1 "" = .ok s ∧
      Modify_Operation.set Sample.parser s "age" (.TExpression "test = \"2")
        = .thrown (.parser_error "Unterminated quoted string starting at 8")
            (s.add_operation
              { source := some { document_path := [{ text := "age" }] },
                operation := some .ITEM_SET, value := none }) ∧
      (Modify_Operation.set Sample.parser s "age"
          (.TExpression "test = \"2")).state.m_update.operation
        = [{ source := some { document_path := [{ text := "age" }] },
             operation := some .ITEM_SET, value := none }]) ∧
    Update_Set.set_expression Sample.parser (Table.update Sample.table1) "age" "test = \"2"
      = .thrown (.parser_error "Unterminated quoted string starting at 8")
          ((Table.update Sample.table1).add_operation
            { source := some { name := some "age" }, operation := some .SET, value := none }) ∧
    ¬ operation_valued
        { source := some { document_path := [{ text := "age" }] },
          operation := some .ITEM_SET, value := none } ∧
    ¬ operation_valued
        { source := some { name := some "age" }, operation := some .SET, value := none } :=
  ⟨⟨_, rfl, rfl, rfl⟩, rfl, by simp [operation_valued], by simp [operation_valued]⟩

/-! ## `execute()` more than once -/

theorem Find_Base_execute_sends (g : Generated) (t : Transport) (s : Find_Base) :
    (Find_Base.execute g t s).events.filter Event.isSend
      = if g.Find_IsInitialized s.m_find
        then [.execute_find (Collection.session s.m_coll) s.m_find] else [] := by
  unfold Find_Base.execute
  cases g.Find_IsInitialized s.m_find <;> simp
  cases (t.connection (Collection.session s.m_coll)).execute_find s.m_find with
  | error e => simp [Event.isSend]
  | ok res =>
    dsimp only
    cases t.wait res <;> simp [Event.isSend]

theorem Add_Base_execute_sends (g : Generated) (t : Transport) (s : Add_Base) :
    (Add_Base.execute g t s).events.filter Event.isSend
      = if g.Insert_IsInitialized s.m_insert
        then [.execute_insert (Collection.session s.m_coll) s.m_insert] else [] := by
  unfold Add_Base.execute
  cases g.Insert_IsInitialized s.m_insert <;> simp
  cases (t.connection (Collection.session s.m_coll)).execute_insert s.m_insert with
  | error e => simp [Event.isSend]
  | ok res =>
    dsimp only
    cases t.wait res <;> simp [Event.isSend]

theorem Remove_Base_execute_sends (g : Generated) (t : Transport) (s : Remove_Base) :
    (Remove_Base.execute g t s).events.filter Event.isSend
      = if g.Delete_IsInitialized s.m_delete
        then [.execute_delete (Collection.session s.m_coll) s.m_delete] else [] := by
  unfold Remove_Base.execute
  cases g.Delete_IsInitialized s.m_delete <;> simp
  cases (t.connection (Collection.session s.m_coll)).execute_delete s.m_delete with
  | error e => simp [Event.isSend]
  | ok res =>
    dsimp only
    cases t.wait res <;> simp [Event.isSend]

theorem Modify_Base_execute_sends (g : Generated) (t : Transport) (s : Modify_Base) :
    (Modify_Base.execute g t s).events.filter Event.isSend
      = if g.Update_IsInitialized s.m_update
        then [.execute_update (Collection.session s.m_coll) s.m_update] else [] := by
  unfold Modify_Base.execute
  cases g.Update_IsInitialized s.m_update <;> simp
  cases (t.connection (Collection.session s.m_coll)).execute_update s.m_update with
  | error e => simp [Event.isSend]
  | ok res =>
    dsimp only
    cases t.wait res <;> simp [Event.isSend]

theorem Delete_Base_execute_sends (g : Generated) (t : Transport) (s : Delete_Base) :
    (Delete_Base.execute g t s).events.filter Event.isSend
      = if g.Delete_IsInitialized s.m_delete
        then [.execute_delete (Table.session s.m_table) s.m_delete] else [] := by
  unfold Delete_Base.execute
  cases g.Delete_IsInitialized s.m_delete <;> simp
  cases (t.connection (Table.session s.m_table)).execute_delete s.m_delete with
  | error e => simp [Event.isSend]
  | ok res =>
    dsimp only
    cases t.wait res <;> simp [Event.isSend]

theorem Update_Base_execute_sends (g : Generated) (t : Transport) (s : Update_Base) :
    (Update_Base.execute g t s).events.filter Event.isSend
      = if g.Update_IsInitialized s.m_update
        then [.execute_update (Table.session s.m_table) s.m_update] else [] := by
  unfold Update_Base.execute
  cases g.Update_IsInitialized s.m_update <;> simp
  cases (t.connection (Table.session s.m_table)).execute_update s.m_update with
  | error e => simp [Event.isSend]
  | ok res =>
    dsimp only
    cases t.wait res <;> simp [Event.isSend]

theorem Select_Base_execute_sends (g : Generated) (t : Transport) (s : Select_Base) :
    (Select_Base.execute g t s).events.filter Event.isSend
      = if g.Find_IsInitialized s.m_find
        then [.execute_find (Table.session s.m_table) s.m_find] else [] := by
  unfold Select_Base.execute
  cases g.Find_IsInitialized s.m_find <;> simp
  cases (t.connection (Table.session s.m_table)).execute_find s.m_find with
  | error e => simp [Event.isSend]
  | ok res =>
    dsimp only
    cases t.wait res <;> simp [Event.isSend]

theorem Insert_Base_execute_sends (g : Generated) (t : Transport) (s : Insert_Base) :
    (Insert_Base.execute g t s).events.filter Event.isSend
      = if g.Insert_IsInitialized s.m_insert
        then [.execute_insert (Table.session s.m_table) s.m_insert] else [] := by
  unfold Insert_Base.execute
  cases g.Insert_IsInitialized s.m_insert <;> simp
  cases (t.connection (Table.session s.m_table)).execute_insert s.m_insert with
  | error e => simp [Event.isSend]
  | ok res =>
    dsimp only
    cases t.wait res <;> simp [Event.isSend]

theorem Find_Base_execute_on_eq (g : Generated) (t : Transport) (s : Find_Base) :
    Find_Base.execute_on g t s = (s, Find_Base.execute g t s) := by
  unfold Find_Base.execute_on Find_Base.execute
  cases g.Find_IsInitialized s.m_find
  · rfl
  · simp only [Bool.not_true, Bool.false_eq_true, if_false]
    cases (t.connection (Collection.session s.m_coll)).execute_find s.m_find with
    | error e => rfl
    | ok res =>
      dsimp only
      cases t.wait res <;> rfl

theorem Add_Base_execute_on_eq (g : Generated) (t : Transport) (s : Add_Base) :
    Add_Base.execute_on g t s = (s, Add_Base.execute g t s) := by
  unfold Add_Base.execute_on Add_Base.execute
  cases g.Insert_IsInitialized s.m_insert
  · rfl
  · simp only [Bool.not_true, Bool.false_eq_true, if_false]
    cases (t.connection (Collection.session s.m_coll)).execute_insert s.m_insert with
    | error e => rfl
    | ok res =>
      dsimp only
      cases t.wait res <;> rfl

theorem Remove_Base_execute_on_eq (g : Generated) (t : Transport) (s : Remove_Base) :
    Remove_Base.execute_on g t s = (s, Remove_Base.execute g t s) := by
  unfold Remove_Base.execute_on Remove_Base.execute
  cases g.Delete_IsInitialized s.m_delete
  · rfl
  · simp only [Bool.not_true, Bool.false_eq_true, if_false]
    cases (t.connection (Collection.session s.m_coll)).execute_delete s.m_delete with
    | error e => rfl
    | ok res =>
      dsimp only
      cases t.wait res <;> rfl

theorem Modify_Base_execute_on_eq (g : Generated) (t : Transport) (s : Modify_Base) :
    Modify_Base.execute_on g t s = (s, Modify_Base.execute g t s) := by
  unfold Modify_Base.execute_on Modify_Base.execute
  cases g.Update_IsInitialized s.m_update
  · rfl
  · simp only [Bool.not_true, Bool.false_eq_true, if_false]
    cases (t.connection (Collection.session s.m_coll)).execute_update s.m_update with
    | error e => rfl
    | ok res =>
      dsimp only
      cases t.wait res <;> rfl

theorem Delete_Base_execute_on_eq (g : Generated) (t : Transport) (s : Delete_Base) :
    Delete_Base.execute_on g t s = (s, Delete_Base.execute g t s) := by
  unfold Delete_Base.execute_on Delete_Base.execute
  cases g.Delete_IsInitialized s.m_delete
  · rfl
  · simp only [Bool.not_true, Bool.false_eq_true, if_false]
    cases (t.connection (Table.session s.m_table)).execute_delete s.m_delete with
    | error e => rfl
    | ok res =>
      dsimp only
      cases t.wait res <;> rfl

theorem Update_Base_execute_on_eq (g : Generated) (t : Transport) (s : Update_Base) :
    Update_Base.execute_on g t s = (s, Update_Base.execute g t s) := by
  unfold Update_Base.execute_on Update_Base.execute
  cases g.Update_IsInitialized s.m_update
  · rfl
  · simp only [Bool.not_true, Bool.false_eq_true, if_false]
    cases (t.connection (Table.session s.m_table)).execute_update s.m_update with
    | error e => rfl
    | ok res =>
      dsimp only
      cases t.wait res <;> rfl

theorem Select_Base_execute_on_eq (g : Generated) (t : Transport) (s : Select_Base) :
    Select_Base.execute_on g t s = (s, Select_Base.execute g t s) := by
  unfold Select_Base.execute_on Select_Base.execute
  cases g.Find_IsInitialized s.m_find
  · rfl
  · simp only [Bool.not_true, Bool.false_eq_true, if_false]
    cases (t.connection (Table.session s.m_table)).execute_find s.m_find with
    | error e => rfl
    | ok res =>
      dsimp only
      cases t.wait res <;> rfl

theorem Insert_Base_execute_on_eq (g : Generated) (t : Transport) (s : Insert_Base) :
    Insert_Base.execute_on g t s = (s, Insert_Base.execute g t s) := by
  unfold Insert_Base.execute_on Insert_Base.execute
  cases g.Insert_IsInitialized s.m_insert
  · rfl
  · simp only [Bool.not_true, Bool.false_eq_true, if_false]
    cases (t.connection (Table.session s.m_table)).execute_insert s.m_insert with
    | error e => rfl
    | ok res =>
      dsimp only
      cases t.wait res <;> rfl

theorem uses_on_execute_call {σ κ : Type} (step : σ → κ → Outcome σ)
    (exec_on : σ → σ × Executed) (exec : σ → Executed) (s : σ) (c : κ)
    (h : exec_on s = (s, exec s)) :
    (uses_on step exec_on s [.execute, .call c]).1 = (step s c).state := by
  simp only [uses_on, h]

theorem uses_on_execute_twice_sends {σ κ : Type} (step : σ → κ → Outcome σ)
    (exec_on : σ → σ × Executed) (exec : σ → Executed)
    (s : σ) (passed : Bool) (send : Event) (h1 : exec_on s = (s, exec s))
    (h : (exec s).events.filter Event.isSend = if passed then [send] else []) :
    (uses_on step exec_on s [.execute, .execute]).2.filter Event.isSend
      = if passed then [send, send] else [] := by
  simp only [uses_on, h1, List.append_nil, List.filter_append, h]
  cases passed <;> simp

/-- C18, as amended: `execute()` keeps no record of having been called and leaves the
builder and its message as they were.  In each of the eight families, on every builder
state: the builder that `execute()` leaves behind is the builder it was called on; a second
`execute()` on it does what the first did (the same completeness check, the same calls on
the transport, the same result from the same transport); a chain call made after
`execute()` leaves the builder as the same call would have left it before; and two calls
of `execute()` in a row hand the same message to the transport twice when the check passes
and never when it fails. -/
theorem execute_keeps_no_record (g : Generated) (t : Transport) (p : Parser)
    (f : Find_Base) (a : Add_Base) (r : Remove_Base) (m : Modify_Base)
    (d : Delete_Base) (u : Update_Base) (s : Select_Base) (i : Insert_Base)
    (fc : FindCall) (ac : AddCall) (rc : RemoveCall) (mc : ModifyCall)
    (dc : DeleteCall) (uc : UpdateCall) (sc : SelectCall) (ic : InsertCall) :
    ((Find_Base.execute_on g t f).1 = f ∧
      (Find_Base.execute_on g t (Find_Base.execute_on g t f).1).2
        = (Find_Base.execute_on g t f).2 ∧
      (uses_on (FindCall.apply p) (Find_Base.execute_on g t) f [.execute, .call fc]).1
        = (FindCall.apply p f fc).state ∧
      (uses_on (FindCall.apply p) (Find_Base.execute_on g t) f [.execute, .execute]).2.filter
          Event.isSend
        = (if g.Find_IsInitialized f.m_find
           then [.execute_find (Collection.session f.m_coll) f.m_find,
                 .execute_find (Collection.session f.m_coll) f.m_find] else [])) ∧
    ((Add_Base.execute_on g t a).1 = a ∧
      (Add_Base.execute_on g t (Add_Base.execute_on g t a).1).2
        = (Add_Base.execute_on g t a).2 ∧
      (uses_on AddCall.apply (Add_Base.execute_on g t) a [.execute, .call ac]).1
        = (AddCall.apply a ac).state ∧
      (uses_on AddCall.apply (Add_Base.execute_on g t) a [.execute, .execute]).2.filter
          Event.isSend
        = (if g.Insert_IsInitialized a.m_insert
           then [.execute_insert (Collection.session a.m_coll) a.m_insert,
                 .execute_insert (Collection.session a.m_coll) a.m_insert] else [])) ∧
    ((Remove_Base.execute_on g t r).1 = r ∧
      (Remove_Base.execute_on g t (Remove_Base.execute_on g t r).1).2
        = (Remove_Base.execute_on g t r).2 ∧
      (uses_on RemoveCall.apply (Remove_Base.execute_on g t) r [.execute, .call rc]).1
        = (RemoveCall.apply r rc).state ∧
      (uses_on RemoveCall.apply (Remove_Base.execute_on g t) r [.execute, .execute]).2.filter
          Event.isSend
        = (if g.Delete_IsInitialized r.m_delete
           then [.execute_delete (Collection.session r.m_coll) r.m_delete,
                 .execute_delete (Collection.session r.m_coll) r.m_delete] else [])) ∧
    ((Modify_Base.execute_on g t m).1 = m ∧
      (Modify_Base.execute_on g t (Modify_Base.execute_on g t m).1).2
        = (Modify_Base.execute_on g t m).2 ∧
      (uses_on (ModifyCall.apply p) (Modify_Base.execute_on g t) m [.execute, .call mc]).1
        = (ModifyCall.apply p m mc).state ∧
      (uses_on (ModifyCall.apply p) (Modify_Base.execute_on g t) m [.execute, .execute]).2.filter
          Event.isSend
        = (if g.Update_IsInitialized m.m_update
           then [.execute_update (Collection.session m.m_coll) m.m_update,
                 .execute_update (Collection.session m.m_coll) m.m_update] else [])) ∧
    ((Delete_Base.execute_on g t d).1 = d ∧
      (Delete_Base.execute_on g t (Delete_Base.execute_on g t d).1).2
        = (Delete_Base.execute_on g t d).2 ∧
      (uses_on (DeleteCall.apply p) (Delete_Base.execute_on g t) d [.execute, .call dc]).1
        = (DeleteCall.apply p d dc).state ∧
      (uses_on (DeleteCall.apply p) (Delete_Base.execute_on g t) d [.execute, .execute]).2.filter
          Event.isSend
        = (if g.Delete_IsInitialized d.m_delete
           then [.execute_delete (Table.session d.m_table) d.m_delete,
                 .execute_delete (Table.session d.m_table) d.m_delete] else [])) ∧
    ((Update_Base.execute_on g t u).1 = u ∧
      (Update_Base.execute_on g t (Update_Base.execute_on g t u).1).2
        = (Update_Base.execute_on g t u).2 ∧
      (uses_on (UpdateCall.apply p) (Update_Base.execute_on g t) u [.execute, .call uc]).1
        = (UpdateCall.apply p u uc).state ∧
      (uses_on (UpdateCall.apply p) (Update_Base.execute_on g t) u [.execute, .execute]).2.filter
          Event.isSend
        = (if g.Update_IsInitialized u.m_update
           then [.execute_update (Table.session u.m_table) u.m_update,
                 .execute_update (Table.session u.m_table) u.m_update] else [])) ∧
    ((Select_Base.execute_on g t s).1 = s ∧
      (Select_Base.execute_on g t (Select_Base.execute_on g t s).1).2
        = (Select_Base.execute_on g t s).2 ∧
      (uses_on (SelectCall.apply p) (Select_Base.execute_on g t) s [.execute, .call sc]).1
        = (SelectCall.apply p s sc).state ∧
      (uses_on (SelectCall.apply p) (Select_Base.execute_on g t) s [.execute, .execute]).2.filter
          Event.isSend
        = (if g.Find_IsInitialized s.m_find
           then [.execute_find (Table.session s.m_table) s.m_find,
                 .execute_find (Table.session s.m_table) s.m_find] else [])) ∧
    ((Insert_Base.execute_on g t i).1 = i ∧
      (Insert_Base.execute_on g t (Insert_Base.execute_on g t i).1).2
        = (Insert_Base.execute_on g t i).2 ∧
      (uses_on InsertCall.apply (Insert_Base.execute_on g t) i [.execute, .call ic]).1
        = (InsertCall.apply i ic).state ∧
      (uses_on InsertCall.apply (Insert_Base.execute_on g t) i [.execute, .execute]).2.filter
          Event.isSend
        = (if g.Insert_IsInitialized i.m_insert
           then [.execute_insert (Table.session i.m_table) i.m_insert,
                 .execute_insert (Table.session i.m_table) i.m_insert] else [])) := by
  refine ⟨?_, ?_, ?_, ?_, ?_, ?_, ?_, ?_⟩
  · refine ⟨by rw [Find_Base_execute_on_eq], by simp only [Find_Base_execute_on_eq],
      uses_on_execute_call _ _ _ f fc (Find_Base_execute_on_eq g t f),
      uses_on_execute_twice_sends _ _ _ f _ _ (Find_Base_execute_on_eq g t f)
        (Find_Base_execute_sends g t f)⟩
  · refine ⟨by rw [Add_Base_execute_on_eq], by simp only [Add_Base_execute_on_eq],
      uses_on_execute_call _ _ _ a ac (Add_Base_execute_on_eq g t a),
      uses_on_execute_twice_sends _ _ _ a _ _ (Add_Base_execute_on_eq g t a)
        (Add_Base_execute_sends g t a)⟩
  · refine ⟨by rw [Remove_Base_execute_on_eq], by simp only [Remove_Base_execute_on_eq],
      uses_on_execute_call _ _ _ r rc (Remove_Base_execute_on_eq g t r),
      uses_on_execute_twice_sends _ _ _ r _ _ (Remove_Base_execute_on_eq g t r)
        (Remove_Base_execute_sends g t r)⟩
  · refine ⟨by rw [Modify_Base_execute_on_eq], by simp only [Modify_Base_execute_on_eq],
      uses_on_execute_call _ _ _ m mc (Modify_Base_execute_on_eq g t m),
      uses_on_execute_twice_sends _ _ _ m _ _ (Modify_Base_execute_on_eq g t m)
        (Modify_Base_execute_sends g t m)⟩
  · refine ⟨by rw [Delete_Base_execute_on_eq], by simp only [Delete_Base_execute_on_eq],
      uses_on_execute_call _ _ _ d dc (Delete_Base_execute_on_eq g t d),
      uses_on_execute_twice_sends _ _ _ d _ _ (Delete_Base_execute_on_eq g t d)
        (Delete_Base_execute_sends g t d)⟩
  · refine ⟨by rw [Update_Base_execute_on_eq], by simp only [Update_Base_execute_on_eq],
      uses_on_execute_call _ _ _ u uc (Update_Base_execute_on_eq g t u),
      uses_on_execute_twice_sends _ _ _ u _ _ (Update_Base_execute_on_eq g t u)
        (Update_Base_execute_sends g t u)⟩
  · refine ⟨by rw [Select_Base_execute_on_eq], by simp only [Select_Base_execute_on_eq],
      uses_on_execute_call _ _ _ s sc (Select_Base_execute_on_eq g t s),
      uses_on_execute_twice_sends _ _ _ s _ _ (Select_Base_execute_on_eq g t s)
        (Select_Base_execute_sends g t s)⟩
  · refine ⟨by rw [Insert_Base_execute_on_eq], by simp only [Insert_Base_execute_on_eq],
      uses_on_execute_call _ _ _ i ic (Insert_Base_execute_on_eq g t i),
      uses_on_execute_twice_sends _ _ _ i _ _ (Insert_Base_execute_on_eq g t i)
        (Insert_Base_execute_sends g t i)⟩

/-- Counterexample to C18 as stated: on the builder made by `find()` for the sample
collection, `execute(); execute()` hands the message to the transport twice, and
`execute(); limit(1); execute()` is not rejected either: the second `execute()` sends the
message with the limit. -/
theorem second_execute_sends_again :
    ∃ s, Collection.find Sample.parser Sample.collection1 "" = .ok s ∧
      (uses (FindCall.apply Sample.parser) (Find_Base.execute Sample.generated Sample.transport)
          s [.execute, .execute]).2.filter Event.isSend
        = [.execute_find 1 s.m_find, .execute_find 1 s.m_find] ∧
      (uses (FindCall.apply Sample.parser) (Find_Base.execute Sample.generated Sample.transport)
          s [.execute, .call (.limit 1), .execute]).2.filter Event.isSend
        = [.execute_find 1 s.m_find, .execute_find 1 (Find_Limit.limit s 1).m_find] ∧
      (Find_Limit.limit s 1).m_find.limit = some { row_count := some 1 } :=
  ⟨_, rfl, rfl, rfl, rfl⟩

/-! ## The stage order of the Find chain -/

theorem FindClass_exposes_of_returned (v : Bool) (c c' : FindClass) (m m' : FindMethod)
    (hm : c.exposes v m = true) (hr : m.returns = some c') (hm' : c'.exposes v m' = true) :
    c.exposes v m' = true := by
  cases m <;> simp [FindMethod.returns] at hr <;> subst hr <;>
    cases v <;> cases c <;> cases m' <;> revert hm hm' <;> decide

theorem FindMethod_stage_of_returned (v : Bool) (c' : FindClass) (m m' : FindMethod)
    (hr : m.returns = some c') (hm' : c'.exposes v m' = true) :
    m.stage < m'.stage ∨ (m = .bind ∧ m' = .bind) := by
  cases m <;> simp [FindMethod.returns] at hr <;> subst hr <;>
    cases v <;> cases m' <;> revert hm' <;> decide

theorem FindClass_legal_chain_exposes (v : Bool) (chain : List FindMethod) :
    ∀ c : FindClass, c.legal_chain v chain = true → ∀ m ∈ chain, c.exposes v m = true := by
  induction chain with
  | nil => intro c _ m hm; cases hm
  | cons m0 rest ih =>
    intro c hc m hm
    simp only [FindClass.legal_chain, Bool.and_eq_true] at hc
    rcases List.mem_cons.1 hm with rfl | hmem
    · exact hc.1
    · cases hr : m0.returns with
      | none =>
        rw [hr] at hc
        have : rest = [] := by simpa using hc.2
        subst this
        cases hmem
      | some c' =>
        rw [hr] at hc
        exact FindClass_exposes_of_returned v c c' m0 m hc.1 hr (ih c' hc.2 m hmem)

theorem FindClass_legal_chain_staged (v : Bool) (chain : List FindMethod) :
    ∀ c : FindClass, c.legal_chain v chain = true →
      chain.Pairwise (fun m m' => m.stage < m'.stage ∨ (m = .bind ∧ m' = .bind)) := by
  induction chain with
  | nil => intro c _; exact List.Pairwise.nil
  | cons m0 rest ih =>
    intro c hc
    simp only [FindClass.legal_chain, Bool.and_eq_true] at hc
    cases hr : m0.returns with
    | none =>
      rw [hr] at hc
      have : rest = [] := by simpa using hc.2
      subst this
      exact List.pairwise_singleton _ _
    | some c' =>
      rw [hr] at hc
      refine List.Pairwise.cons ?_ (ih c' hc.2)
      intro m' hm'
      exact FindMethod_stage_of_returned v c' m0 m' hr
        (FindClass_legal_chain_exposes v rest c' hc.2 m' hm')

/-- C19: the Find chain is a linear stage order.  The builder returned by `find`
(FindStatement) exposes fields, groupBy, sort, limit, bind and execute (and, in these
sources, having and skip as well); the reference returned by `limit` exposes skip, bind and
execute and nothing else; the reference returned by `skip` exposes bind and execute and
nothing else; and in every legal chain the methods are called in the order fields, groupBy,
having, sort, limit, skip, bind, execute with no method repeated except bind, so limit never
follows skip and nothing follows execute.  This holds whether or not the class Statement
declares execute. -/
theorem find_chain_is_staged (statement_execute : Bool) (m : FindMethod)
    (chain pre post : List FindMethod) :
    (FindClass.exposes statement_execute .FindStatement .fields = true ∧
      FindClass.exposes statement_execute .FindStatement .groupBy = true ∧
      FindClass.exposes statement_execute .FindStatement .sort = true ∧
      FindClass.exposes statement_execute .FindStatement .limit = true ∧
      FindClass.exposes statement_execute .FindStatement .bind = true ∧
      FindClass.exposes statement_execute .FindStatement .execute = true ∧
      FindClass.exposes statement_execute .FindStatement .having = true ∧
      FindClass.exposes statement_execute .FindStatement .skip = true) ∧
    FindMethod.returns .limit = some .Find_Skip ∧
    (FindClass.exposes statement_execute .Find_Skip m = true ↔
      m = .skip ∨ m = .bind ∨ m = .execute) ∧
    FindMethod.returns .skip = some .Find_Base ∧
    (FindClass.exposes statement_execute .Find_Base m = true ↔ m = .bind ∨ m = .execute) ∧
    (FindClass.legal_chain statement_execute .FindStatement chain = true →
      chain.Pairwise (fun a b => a.stage < b.stage ∨ (a = .bind ∧ b = .bind)) ∧
      (chain = pre ++ .skip :: post → FindMethod.limit ∉ post) ∧
      (chain = pre ++ .execute :: post → post = [])) := by
  refine ⟨?_, rfl, ?_, rfl, ?_, ?_⟩
  · cases statement_execute <;> decide
  · cases statement_execute <;> cases m <;> decide
  · cases statement_execute <;> cases m <;> decide
  · intro hlegal
    have hp := FindClass_legal_chain_staged statement_execute chain .FindStatement hlegal
    refine ⟨hp, ?_, ?_⟩
    · intro hchain hmem
      rw [hchain] at hp
      have h2 := (List.pairwise_append.1 hp).2.1
      have h3 := (List.pairwise_cons.1 h2).1 _ hmem
      revert h3
      decide
    · intro hchain
      rw [hchain] at hp
      have h2 := (List.pairwise_append.1 hp).2.1
      have h3 := (List.pairwise_cons.1 h2).1
      cases post with
      | nil => rfl
      | cons b rest =>
        have h4 := h3 b (List.mem_cons_self b rest)
        exfalso
        cases b <;> revert h4 <;> decide

/-- Witness of C19: `find().fields().limit().skip().execute()` is a legal chain, with skip
after limit and execute last. -/
theorem find_chain_is_staged_witness :
    FindClass.legal_chain true .FindStatement [.fields, .limit, .skip, .execute] = true ∧
    ([FindMethod.fields, .limit, .skip, .execute] = [.fields, .limit] ++ .skip :: [.execute] →
      FindMethod.limit ∉ [FindMethod.execute]) ∧
    FindClass.legal_chain true .FindStatement [.skip, .limit] = false :=
  ⟨rfl,
    ((find_chain_is_staged true .skip [.fields, .limit, .skip, .execute] [.fields, .limit]
      [.execute]).2.2.2.2.2 rfl).2.1,
    rfl⟩

end mysqlx

namespace shcore

/-! ## get_mysqlx_home_path -/

theorem is_any_of_slash (c : Char) : is_any_of "/" c = true ↔ c = '/' := by
  simp [is_any_of]

theorem split_compress_ne_nil (pred : Char → Bool) (l : List Char) :
    ∀ b, split_compress pred b l ≠ [] := by
  induction l with
  | nil => intro b; simp [split_compress]
  | cons c cs ih =>
    intro b
    unfold split_compress
    by_cases hc : pred c = true
    · cases b <;> simp [hc, ih]
    · simp only [hc, Bool.false_eq_true, if_false]
      cases h : split_compress pred false cs <;> simp

theorem split_compress_token (pred : Char → Bool) (t : List Char)
    (ht : ∀ c ∈ t, pred c = false) : ∀ b, split_compress pred b t = [t] := by
  induction t with
  | nil => intro b; simp [split_compress]
  | cons c cs ih =>
    intro b
    have hc : pred c = false := ht c (List.mem_cons_self c cs)
    have hcs := ih (fun d hd => ht d (List.mem_cons_of_mem c hd)) false
    simp [split_compress, hc, hcs]

theorem compressed_tail (pred : Char → Bool) (c : Char) (cs : List Char)
    (h : compressed pred (c :: cs) = true) : compressed pred cs = true := by
  cases cs with
  | nil => rfl
  | cons d rest =>
    simp only [compressed, Bool.and_eq_true] at h
    exact h.2

theorem compressed_after_separator (pred : Char → Bool) (c : Char) (cs : List Char)
    (h : compressed pred (c :: cs) = true) (hc : pred c = true) :
    ∃ d rest, cs = d :: rest ∧ pred d = false := by
  cases cs with
  | nil => simp [compressed, hc] at h
  | cons d rest =>
    refine ⟨d, rest, rfl, ?_⟩
    simp only [compressed, Bool.and_eq_true] at h
    cases hd : pred d with
    | false => rfl
    | true => simp [hc, hd] at h

theorem split_compress_append (pred : Char → Bool) (s : Char) (rest : List Char)
    (hs : pred s = true) (h : List Char) :
    ∀ b, compressed pred h = true → (h = [] → b = false) →
      split_compress pred b (h ++ s :: rest)
        = split_compress pred b h ++ split_compress pred true rest := by
  induction h with
  | nil =>
    intro b _ hb
    have : b = false := hb rfl
    subst this
    simp [split_compress, hs]
  | cons c cs ih =>
    intro b hcomp _
    have hcs := compressed_tail pred c cs hcomp
    by_cases hc : pred c = true
    · obtain ⟨d, rest', hd, _⟩ := compressed_after_separator pred c cs hcomp hc
      have hne : cs = [] → true = false := by
        intro he
        rw [he] at hd
        cases hd
      have ih' := ih true hcs hne
      cases b <;> simp [split_compress, hc, ih']
    · have ih' := ih false hcs (fun _ => rfl)
      have hc' : pred c = false := by simpa using hc
      rw [List.cons_append]
      simp only [split_compress, hc', Bool.false_eq_true, if_false]
      cases hsp : split_compress pred false cs with
      | nil => exact absurd hsp (split_compress_ne_nil pred cs false)
      | cons t ts =>
        rw [ih', hsp]
        rfl

theorem join_cons_cons (separator : List Char) (c : Char) (t : List Char)
    (ts : List (List Char)) :
    join separator ((c :: t) :: ts) = c :: join separator (t :: ts) := by
  cases ts <;> simp [join]

theorem join_split_compress (pred : Char → Bool) (s : Char)
    (hs : ∀ c, pred c = true ↔ c = s) (h : List Char) :
    ∀ b, compressed pred h = true → (b = true → ∀ c cs, h = c :: cs → pred c = false) →
      join [s] (split_compress pred b h) = h := by
  induction h with
  | nil => intro b _ _; simp [split_compress, join]
  | cons c cs ih =>
    intro b hcomp hb
    have hcs := compressed_tail pred c cs hcomp
    by_cases hc : pred c = true
    · have hbf : b = false := by
        cases b with
        | false => rfl
        | true =>
          have := hb rfl c cs rfl
          rw [hc] at this
          cases this
      subst hbf
      obtain ⟨d, rest', hd, hdn⟩ := compressed_after_separator pred c cs hcomp hc
      have ih' := ih true hcs (fun _ c' cs' he => by
        rw [hd] at he
        cases he
        exact hdn)
      have hcs' : c = s := (hs c).1 hc
      simp only [split_compress, hc, if_true, Bool.false_eq_true, if_false]
      cases hsp : split_compress pred true cs with
      | nil => exact absurd hsp (split_compress_ne_nil pred cs true)
      | cons t ts =>
        rw [hsp] at ih'
        simp [join, ih', hcs']
    · have hc' : pred c = false := by simpa using hc
      have ih' := ih false hcs (fun hf => by cases hf)
      simp only [split_compress, hc', Bool.false_eq_true, if_false]
      cases hsp : split_compress pred false cs with
      | nil => exact absurd hsp (split_compress_ne_nil pred cs false)
      | cons t ts =>
        rw [hsp] at ih'
        simp [join_cons_cons, ih']

theorem home_of_exe_path_of_tokens (exe_path : String) (tokens : List (List Char))
    (name : List Char) (hne : exe_path.data ≠ [])
    (hsplit : split_compress (is_any_of "/") false exe_path.data = tokens ++ [name]) :
    home_of_exe_path exe_path
      = (match tokens.getLast? with
         | none => .error .out_of_range
         | some last =>
           if last = "bin".data then .ok (String.mk (join "/".data tokens.dropLast))
           else .ok "") := by
  have hemp : exe_path.isEmpty = false := by
    cases he : exe_path.isEmpty with
    | false => rfl
    | true =>
      have := (String.isEmpty_iff exe_path).1 he
      rw [this] at hne
      exact absurd rfl hne
  simp only [home_of_exe_path, hemp, Bool.not_false, if_true, hsplit,
    List.dropLast_concat]

theorem no_separator (t : String) (ht : ∀ c ∈ t.data, c ≠ '/') :
    ∀ c ∈ t.data, is_any_of "/" c = false := by
  intro c hc
  cases h : is_any_of "/" c with
  | false => rfl
  | true => exact absurd ((is_any_of_slash c).1 h) (ht c hc)

theorem compressed_of_no_separator (pred : Char → Bool) (l : List Char)
    (h : ∀ c ∈ l, pred c = false) : compressed pred l = true := by
  induction l with
  | nil => rfl
  | cons c cs ih =>
    cases cs with
    | nil => simp [compressed, h c (List.mem_cons_self c [])]
    | cons d rest =>
      simp only [compressed, Bool.and_eq_true]
      refine ⟨by simp [h c (List.mem_cons_self c _)], ?_⟩
      exact ih (fun x hx => h x (List.mem_cons_of_mem c hx))

theorem home_of_exe_path_trims_bin (H name parent dir : String) :
    (compressed (is_any_of "/") H.data = true → (∀ c ∈ name.data, c ≠ '/') →
      home_of_exe_path (H ++ "/bin/" ++ name) = .ok H) ∧
    ((∀ c ∈ parent.data, c ≠ '/') → (∀ c ∈ name.data, c ≠ '/') → parent ≠ "bin" →
      home_of_exe_path (parent ++ "/" ++ name) = .ok "") ∧
    (compressed (is_any_of "/") dir.data = true → (∀ c ∈ parent.data, c ≠ '/') →
      parent ≠ "" → (∀ c ∈ name.data, c ≠ '/') → parent ≠ "bin" →
      home_of_exe_path (dir ++ "/" ++ parent ++ "/" ++ name) = .ok "") := by
  have hslash : is_any_of "/" '/' = true := (is_any_of_slash '/').2 rfl
  have hsd : "/".data = ['/'] := rfl
  have hbin : ∀ c ∈ "bin".data, is_any_of "/" c = false := by decide
  refine ⟨?_, ?_, ?_⟩
  · intro hH hname
    have hname' := no_separator name hname
    have hdata : (H ++ "/bin/" ++ name).data
        = H.data ++ '/' :: ("bin".data ++ '/' :: name.data) := by
      simp [String.data_append]
    have hsplit : split_compress (is_any_of "/") false (H ++ "/bin/" ++ name).data
        = (split_compress (is_any_of "/") false H.data ++ ["bin".data]) ++ [name.data] := by
      rw [hdata, split_compress_append _ _ _ hslash _ false hH (fun _ => rfl),
        split_compress_append _ _ _ hslash _ true (by decide) (by decide),
        split_compress_token _ _ hbin, split_compress_token _ _ hname']
      simp
    rw [home_of_exe_path_of_tokens _ _ _ (by rw [hdata]; simp) hsplit]
    simp only [List.getLast?_concat, List.dropLast_concat, if_true, hsd]
    rw [join_split_compress _ '/' is_any_of_slash _ false hH (fun hf => by cases hf)]
  · intro hparent hname hne
    have hname' := no_separator name hname
    have hparent' := no_separator parent hparent
    have hdata : (parent ++ "/" ++ name).data = parent.data ++ '/' :: name.data := by
      simp [String.data_append]
    have hsplit : split_compress (is_any_of "/") false (parent ++ "/" ++ name).data
        = [parent.data] ++ [name.data] := by
      rw [hdata]
      have hsp := split_compress_token _ _ hparent' false
      have hcomp := compressed_of_no_separator _ _ hparent'
      rw [split_compress_append _ _ _ hslash _ false hcomp (fun _ => rfl), hsp,
        split_compress_token _ _ hname']
    rw [home_of_exe_path_of_tokens _ _ _ (by rw [hdata]; simp) hsplit]
    have hpb : parent.data ≠ "bin".data := by
      intro he
      apply hne
      exact String.ext he
    simp [hpb]
  · intro hdir hparent hpne hname hne
    have hname' := no_separator name hname
    have hparent' := no_separator parent hparent
    have hdata : (dir ++ "/" ++ parent ++ "/" ++ name).data
        = dir.data ++ '/' :: (parent.data ++ '/' :: name.data) := by
      simp [String.data_append]
    have hpd : parent.data ≠ [] := by
      intro he
      apply hpne
      exact String.ext he
    have hcomp := compressed_of_no_separator _ _ hparent'
    have hsplit : split_compress (is_any_of "/") false (dir ++ "/" ++ parent ++ "/" ++ name).data
        = (split_compress (is_any_of "/") false dir.data ++ [parent.data]) ++ [name.data] := by
      rw [hdata, split_compress_append _ _ _ hslash _ false hdir (fun _ => rfl),
        split_compress_append _ _ _ hslash _ true hcomp (fun he => absurd he hpd),
        split_compress_token _ _ hparent', split_compress_token _ _ hname']
      simp
    rw [home_of_exe_path_of_tokens _ _ _ (by rw [hdata]; simp) hsplit]
    have hpb : parent.data ≠ "bin".data := by
      intro he
      apply hne
      exact String.ext he
    simp [hpb]

end shcore

namespace mysqlx

open Mysqlx

/-! ## Reserved methods and the message -/

/-- C23: for every builder state and every argument, the reserved methods leave the message
behind the builder as it was: sort, having, groupBy and bind on a Find builder and orderBy,
having and groupBy on a Select builder keep the Find message; arrayInsert, sort and bind on
a Modify builder and orderBy on an Update builder keep the Update message; sort and bind on
a Remove builder and orderBy on a Delete builder keep the Delete message; bind on an Add
builder keeps the Insert message. -/
theorem reserved_methods_keep_message (f : Find_Base) (s : Select_Base)
    (m : Modify_Base) (r : Remove_Base) (a : Add_Base) (u : Update_Base) (d : Delete_Base)
    (text name : String) (index : Int) (value : DocumentValue) :
    (Find_Sort.sort f text).m_find = f.m_find ∧
    (Find_Having.having f text).m_find = f.m_find ∧
    (Find_GroupBy.groupBy f text).m_find = f.m_find ∧
    (Find_Base.bind f name value).m_find = f.m_find ∧
    (Select_OrderBy.orderBy s text).m_find = s.m_find ∧
    (Select_Having.having s text).m_find = s.m_find ∧
    (Select_GroupBy.groupBy s text).m_find = s.m_find ∧
    (Modify_Operation.arrayInsert m text index value).m_update = m.m_update ∧
    (Modify_Sort.sort m text).m_update = m.m_update ∧
    (Modify_Base.bind m name value).m_update = m.m_update ∧
    (Update_OrderBy.orderBy u text).m_update = u.m_update ∧
    (RemoveStatement.sort r text).m_delete = r.m_delete ∧
    (Remove_Base.bind r name value).m_delete = r.m_delete ∧
    (Delete_OrderBy.orderBy d text).m_delete = d.m_delete ∧
    (Add_Base.bind a name value).m_insert = a.m_insert :=
  ⟨rfl, rfl, rfl, rfl, rfl, rfl, rfl, rfl, rfl, rfl, rfl, rfl, rfl, rfl, rfl⟩

/-! ## The path of a Modify operation -/

theorem Modify_Operation_set_operation_state (p : Parser) (s : Modify_Base)
    (ty : Crud.UpdateOperation_UpdateType) (path : String) (v : Option DocumentValue)
    (items_0 : Crud.Projection) (rest : List Crud.Projection)
    (item : Expr.DocumentPathItem) (more : List Expr.DocumentPathItem)
    (hl : p.parse_collection_column_list [] path = .returned (items_0 :: rest))
    (h0 : items_0.target_path = item :: more) :
    ∃ val, (Modify_Operation.set_operation p s ty path v).state
      = s.add_operation
          { source := some { document_path := [item] }, operation := some ty, value := val } := by
  unfold Modify_Operation.set_operation
  simp only [hl, h0]
  cases v with
  | none => exact ⟨none, rfl⟩
  | some x =>
    by_cases hx : x.isTExpression = true
    · cases hp : p.Expr_parser_expr x.to_string true with
      | error e => exact ⟨none, by simp [hx, hp]⟩
      | ok parsed => exact ⟨some parsed, by simp [hx, hp]⟩
    · exact ⟨_, by simp [hx]; rfl⟩

theorem Modify_Operation_set_operation_first (p q : Parser) (s : Modify_Base)
    (ty : Crud.UpdateOperation_UpdateType) (path : String) (v : Option DocumentValue)
    (items_0 : Crud.Projection) (rest : List Crud.Projection)
    (item : Expr.DocumentPathItem) (more : List Expr.DocumentPathItem)
    (hl : p.parse_collection_column_list [] path = .returned (items_0 :: rest))
    (h0 : items_0.target_path = item :: more)
    (hq : q.parse_collection_column_list [] path = .returned [{ target_path := [item] }])
    (he : q.Expr_parser_expr = p.Expr_parser_expr) :
    Modify_Operation.set_operation p s ty path v
      = Modify_Operation.set_operation q s ty path v := by
  unfold Modify_Operation.set_operation
  simp only [hl, h0, hq, he]

/-- C22: whenever the path parser returns, for the path text, a list with a first item
whose target path has a first element `item`, each of set, change, arrayAppend and remove
leaves behind the message with one more operation whose source has the document path
`[item]` (one element, the first element of the first item, and no column name), also when
the value parser throws afterwards; and the outcome is the one obtained from a parser `q`
that returns just one item with the path `[item]`: the further path elements of the first
item and the further items play no part. -/
theorem modify_path_is_first_element (p q : Parser) (s : Modify_Base) (path : String)
    (x : DocumentValue) (items_0 : Crud.Projection) (rest : List Crud.Projection)
    (item : Expr.DocumentPathItem) (more : List Expr.DocumentPathItem)
    (hl : p.parse_collection_column_list [] path = .returned (items_0 :: rest))
    (h0 : items_0.target_path = item :: more)
    (hq : q.parse_collection_column_list [] path = .returned [{ target_path := [item] }])
    (he : q.Expr_parser_expr = p.Expr_parser_expr) :
    (∃ val, (Modify_Operation.set p s path x).state
      = s.add_operation { source := some { document_path := [item], name := none },
                          operation := some .ITEM_SET, value := val }) ∧
    (∃ val, (Modify_Operation.change p s path x).state
      = s.add_operation { source := some { document_path := [item], name := none },
                          operation := some .ITEM_REPLACE, value := val }) ∧
    (∃ val, (Modify_Operation.arrayAppend p s path x).state
      = s.add_operation { source := some { document_path := [item], name := none },
                          operation := some .ARRAY_APPEND, value := val }) ∧
    Modify_Operation.remove p s path
      = .returned (s.add_operation { source := some { document_path := [item], name := none },
                                     operation := some .ITEM_REMOVE, value := none }) ∧
    Modify_Operation.set p s path x = Modify_Operation.set q s path x ∧
    Modify_Operation.change p s path x = Modify_Operation.change q s path x ∧
    Modify_Operation.arrayAppend p s path x = Modify_Operation.arrayAppend q s path x ∧
    Modify_Operation.remove p s path = Modify_Operation.remove q s path := by
  refine ⟨?_, ?_, ?_, ?_, ?_, ?_, ?_, ?_⟩
  · exact Modify_Operation_set_operation_state p s _ path _ items_0 rest item more hl h0
  · exact Modify_Operation_set_operation_state p s _ path _ items_0 rest item more hl h0
  · exact Modify_Operation_set_operation_state p s _ path _ items_0 rest item more hl h0
  · unfold Modify_Operation.remove Modify_Operation.set_operation
    simp only [hl, h0]
    rfl
  · exact Modify_Operation_set_operation_first p q s _ path _ items_0 rest item more hl h0 hq he
  · exact Modify_Operation_set_operation_first p q s _ path _ items_0 rest item more hl h0 hq he
  · exact Modify_Operation_set_operation_first p q s _ path _ items_0 rest item more hl h0 hq he
  · exact Modify_Operation_set_operation_first p q s _ path _ items_0 rest item more hl h0 hq he

/-- Witness of C22: with a path parser that returns two items for `address`, the first with
the path `address`, `street`, the operation appended by `set('address', 1)` on an empty
Modify builder of the sample collection has the one-element path `address`, as with the
sample parser that returns that single element. -/
theorem modify_path_is_first_element_witness :
    Sample.long_paths.parse_collection_column_list [] "address"
      = .returned [{ target_path := [{ text := "address" }, { text := "street" }] },
          { target_path := [{ text := "other" }] }] ∧
    Sample.parser.parse_collection_column_list [] "address"
      = .returned [{ target_path := [{ text := "address" }] }] ∧
    (Modify_Operation.set Sample.long_paths (Modify_Base.mk_empty Sample.collection1)
        "address" (.TInteger 1)).state.m_update.operation
      = [{ source := some { document_path := [{ text := "address" }] },
           operation := some .ITEM_SET,
           value := some { type := some .LITERAL,
                           constant := some (Collection_Statement.convert_document_value
                             (.TInteger 1)) } }] ∧
    Modify_Operation.set Sample.long_paths (Modify_Base.mk_empty Sample.collection1)
        "address" (.TInteger 1)
      = Modify_Operation.set Sample.parser (Modify_Base.mk_empty Sample.collection1)
        "address" (.TInteger 1) :=
  ⟨rfl, rfl, rfl,
    (modify_path_is_first_element Sample.long_paths Sample.parser
      (Modify_Base.mk_empty Sample.collection1) "address" (.TInteger 1)
      { target_path := [{ text := "address" }, { text := "street" }] }
      [{ target_path := [{ text := "other" }] }] { text := "address" } [{ text := "street" }]
      rfl rfl rfl rfl).2.2.2.2.1⟩

/-! ## Sequencing of one `execute()` -/

theorem Find_Base_execute_sequenced (g : Generated) (t : Transport) (s : Find_Base)
    (hi : g.Find_IsInitialized s.m_find = true) :
    execute_sequenced (.execute_find (Collection.session s.m_coll) s.m_find)
      ((t.connection (Collection.session s.m_coll)).execute_find s.m_find) t.wait
      (Find_Base.execute g t s) := by
  unfold Find_Base.execute execute_sequenced
  simp only [hi, Bool.not_true, Bool.false_eq_true, if_false]
  cases hs : (t.connection (Collection.session s.m_coll)).execute_find s.m_find with
  | error e => simp [Event.isSend]
  | ok res =>
    dsimp only
    cases hw : t.wait res <;> simp [Event.isSend, hw]

theorem Add_Base_execute_sequenced (g : Generated) (t : Transport) (s : Add_Base)
    (hi : g.Insert_IsInitialized s.m_insert = true) :
    execute_sequenced (.execute_insert (Collection.session s.m_coll) s.m_insert)
      ((t.connection (Collection.session s.m_coll)).execute_insert s.m_insert) t.wait
      (Add_Base.execute g t s) := by
  unfold Add_Base.execute execute_sequenced
  simp only [hi, Bool.not_true, Bool.false_eq_true, if_false]
  cases hs : (t.connection (Collection.session s.m_coll)).execute_insert s.m_insert with
  | error e => simp [Event.isSend]
  | ok res =>
    dsimp only
    cases hw : t.wait res <;> simp [Event.isSend, hw]

theorem Remove_Base_execute_sequenced (g : Generated) (t : Transport) (s : Remove_Base)
    (hi : g.Delete_IsInitialized s.m_delete = true) :
    execute_sequenced (.execute_delete (Collection.session s.m_coll) s.m_delete)
      ((t.connection (Collection.session s.m_coll)).execute_delete s.m_delete) t.wait
      (Remove_Base.execute g t s) := by
  unfold Remove_Base.execute execute_sequenced
  simp only [hi, Bool.not_true, Bool.false_eq_true, if_false]
  cases hs : (t.connection (Collection.session s.m_coll)).execute_delete s.m_delete with
  | error e => simp [Event.isSend]
  | ok res =>
    dsimp only
    cases hw : t.wait res <;> simp [Event.isSend, hw]

theorem Modify_Base_execute_sequenced (g : Generated) (t : Transport) (s : Modify_Base)
    (hi : g.Update_IsInitialized s.m_update = true) :
    execute_sequenced (.execute_update (Collection.session s.m_coll) s.m_update)
      ((t.connection (Collection.session s.m_coll)).execute_update s.m_update) t.wait
      (Modify_Base.execute g t s) := by
  unfold Modify_Base.execute execute_sequenced
  simp only [hi, Bool.not_true, Bool.false_eq_true, if_false]
  cases hs : (t.connection (Collection.session s.m_coll)).execute_update s.m_update with
  | error e => simp [Event.isSend]
  | ok res =>
    dsimp only
    cases hw : t.wait res <;> simp [Event.isSend, hw]

theorem Delete_Base_execute_sequenced (g : Generated) (t : Transport) (s : Delete_Base)
    (hi : g.Delete_IsInitialized s.m_delete = true) :
    execute_sequenced (.execute_delete (Table.session s.m_table) s.m_delete)
      ((t.connection (Table.session s.m_table)).execute_delete s.m_delete) t.wait
      (Delete_Base.execute g t s) := by
  unfold Delete_Base.execute execute_sequenced
  simp only [hi, Bool.not_true, Bool.false_eq_true, if_false]
  cases hs : (t.connection (Table.session s.m_table)).execute_delete s.m_delete with
  | error e => simp [Event.isSend]
  | ok res =>
    dsimp only
    cases hw : t.wait res <;> simp [Event.isSend, hw]

theorem Update_Base_execute_sequenced (g : Generated) (t : Transport) (s : Update_Base)
    (hi : g.Update_IsInitialized s.m_update = true) :
    execute_sequenced (.execute_update (Table.session s.m_table) s.m_update)
      ((t.connection (Table.session s.m_table)).execute_update s.m_update) t.wait
      (Update_Base.execute g t s) := by
  unfold Update_Base.execute execute_sequenced
  simp only [hi, Bool.not_true, Bool.false_eq_true, if_false]
  cases hs : (t.connection (Table.session s.m_table)).execute_update s.m_update with
  | error e => simp [Event.isSend]
  | ok res =>
    dsimp only
    cases hw : t.wait res <;> simp [Event.isSend, hw]

theorem Select_Base_execute_sequenced (g : Generated) (t : Transport) (s : Select_Base)
    (hi : g.Find_IsInitialized s.m_find = true) :
    execute_sequenced (.execute_find (Table.session s.m_table) s.m_find)
      ((t.connection (Table.session s.m_table)).execute_find s.m_find) t.wait
      (Select_Base.execute g t s) := by
  unfold Select_Base.execute execute_sequenced
  simp only [hi, Bool.not_true, Bool.false_eq_true, if_false]
  cases hs : (t.connection (Table.session s.m_table)).execute_find s.m_find with
  | error e => simp [Event.isSend]
  | ok res =>
    dsimp only
    cases hw : t.wait res <;> simp [Event.isSend, hw]

theorem Insert_Base_execute_sequenced (g : Generated) (t : Transport) (s : Insert_Base)
    (hi : g.Insert_IsInitialized s.m_insert = true) :
    execute_sequenced (.execute_insert (Table.session s.m_table) s.m_insert)
      ((t.connection (Table.session s.m_table)).execute_insert s.m_insert) t.wait
      (Insert_Base.execute g t s) := by
  unfold Insert_Base.execute execute_sequenced
  simp only [hi, Bool.not_true, Bool.false_eq_true, if_false]
  cases hs : (t.connection (Table.session s.m_table)).execute_insert s.m_insert with
  | error e => simp [Event.isSend]
  | ok res =>
    dsimp only
    cases hw : t.wait res <;> simp [Event.isSend, hw]

/-- C24: in each of the eight statement families, a call of `execute()` on a message that
passes the completeness check is sequenced: exactly one message is handed to the transport,
the builder's own, over the session of the builder's collection or table, and nothing
happens before that send; when the send gives a pending result, one wait on that result
follows and the call returns that result (or passes on the error of the wait); when the
send throws, its error is passed on with no wait and no second send. -/
theorem execute_is_sequenced (g : Generated) (t : Transport) (f : Find_Base) (a : Add_Base)
    (r : Remove_Base) (m : Modify_Base) (d : Delete_Base) (u : Update_Base) (s : Select_Base)
    (i : Insert_Base) :
    (g.Find_IsInitialized f.m_find = true →
      execute_sequenced (.execute_find (Collection.session f.m_coll) f.m_find)
        ((t.connection (Collection.session f.m_coll)).execute_find f.m_find) t.wait
        (Find_Base.execute g t f)) ∧
    (g.Insert_IsInitialized a.m_insert = true →
      execute_sequenced (.execute_insert (Collection.session a.m_coll) a.m_insert)
        ((t.connection (Collection.session a.m_coll)).execute_insert a.m_insert) t.wait
        (Add_Base.execute g t a)) ∧
    (g.Delete_IsInitialized r.m_delete = true →
      execute_sequenced (.execute_delete (Collection.session r.m_coll) r.m_delete)
        ((t.connection (Collection.session r.m_coll)).execute_delete r.m_delete) t.wait
        (Remove_Base.execute g t r)) ∧
    (g.Update_IsInitialized m.m_update = true →
      execute_sequenced (.execute_update (Collection.session m.m_coll) m.m_update)
        ((t.connection (Collection.session m.m_coll)).execute_update m.m_update) t.wait
        (Modify_Base.execute g t m)) ∧
    (g.Delete_IsInitialized d.m_delete = true →
      execute_sequenced (.execute_delete (Table.session d.m_table) d.m_delete)
        ((t.connection (Table.session d.m_table)).execute_delete d.m_delete) t.wait
        (Delete_Base.execute g t d)) ∧
    (g.Update_IsInitialized u.m_update = true →
      execute_sequenced (.execute_update (Table.session u.m_table) u.m_update)
        ((t.connection (Table.session u.m_table)).execute_update u.m_update) t.wait
        (Update_Base.execute g t u)) ∧
    (g.Find_IsInitialized s.m_find = true →
      execute_sequenced (.execute_find (Table.session s.m_table) s.m_find)
        ((t.connection (Table.session s.m_table)).execute_find s.m_find) t.wait
        (Select_Base.execute g t s)) ∧
    (g.Insert_IsInitialized i.m_insert = true →
      execute_sequenced (.execute_insert (Table.session i.m_table) i.m_insert)
        ((t.connection (Table.session i.m_table)).execute_insert i.m_insert) t.wait
        (Insert_Base.execute g t i)) :=
  ⟨Find_Base_execute_sequenced g t f, Add_Base_execute_sequenced g t a,
    Remove_Base_execute_sequenced g t r, Modify_Base_execute_sequenced g t m,
    Delete_Base_execute_sequenced g t d, Update_Base_execute_sequenced g t u,
    Select_Base_execute_sequenced g t s, Insert_Base_execute_sequenced g t i⟩

/-- Witness of C24: the builder made by `update()` for the sample table passes the sample
check; on the sample transport its `execute()` sends the message once over session 1,
waits once on the result 3 of that send and returns it; on a transport whose session 2 is
not connected, `execute()` of the builder for a table of session 2 makes the one send and
passes on the transport's error. -/
theorem execute_is_sequenced_witness :
    Sample.generated.Update_IsInitialized (Table.update Sample.table1).m_update = true ∧
    (Update_Base.execute Sample.generated Sample.transport (Table.update Sample.table1)).events
      = [.execute_update 1 (Table.update Sample.table1).m_update, .wait { id := 3 }] ∧
    (Update_Base.execute Sample.generated Sample.transport (Table.update Sample.table1)).result
      = .ok { id := 3 } ∧
    Sample.generated.Update_IsInitialized (Table.update Sample.table2).m_update = true ∧
    (Update_Base.execute Sample.generated Sample.one_session
        (Table.update Sample.table2)).events
      = [.execute_update 2 (Table.update Sample.table2).m_update] ∧
    (Update_Base.execute Sample.generated Sample.one_session
        (Table.update Sample.table2)).result
      = .error (.transport_error "not connected") :=
  ⟨rfl,
    (((execute_is_sequenced Sample.generated Sample.transport
      (Find_Base.mk_empty Sample.collection1) (Add_Base.mk_empty Sample.collection1)
      (Remove_Base.mk_empty Sample.collection1) (Modify_Base.mk_empty Sample.collection1)
      (Delete_Base.mk_empty Sample.table1) (Table.update Sample.table1)
      (Select_Base.mk_empty Sample.table1) (Insert_Base.mk_empty Sample.table1)).2.2.2.2.2.1
      rfl).2.2.1 { id := 3 } rfl).1,
    (((execute_is_sequenced Sample.generated Sample.transport
      (Find_Base.mk_empty Sample.collection1) (Add_Base.mk_empty Sample.collection1)
      (Remove_Base.mk_empty Sample.collection1) (Modify_Base.mk_empty Sample.collection1)
      (Delete_Base.mk_empty Sample.table1) (Table.update Sample.table1)
      (Select_Base.mk_empty Sample.table1) (Insert_Base.mk_empty Sample.table1)).2.2.2.2.2.1
      rfl).2.2.1 { id := 3 } rfl).2,
    rfl,
    (((execute_is_sequenced Sample.generated Sample.one_session
      (Find_Base.mk_empty Sample.collection1) (Add_Base.mk_empty Sample.collection1)
      (Remove_Base.mk_empty Sample.collection1) (Modify_Base.mk_empty Sample.collection1)
      (Delete_Base.mk_empty Sample.table1) (Table.update Sample.table2)
      (Select_Base.mk_empty Sample.table1) (Insert_Base.mk_empty Sample.table1)).2.2.2.2.2.1
      rfl).2.2.2 (.transport_error "not connected") rfl).1,
    (((execute_is_sequenced Sample.generated Sample.one_session
      (Find_Base.mk_empty Sample.collection1) (Add_Base.mk_empty Sample.collection1)
      (Remove_Base.mk_empty Sample.collection1) (Modify_Base.mk_empty Sample.collection1)
      (Delete_Base.mk_empty Sample.table1) (Table.update Sample.table2)
      (Select_Base.mk_empty Sample.table1) (Insert_Base.mk_empty Sample.table1)).2.2.2.2.2.1
      rfl).2.2.2 (.transport_error "not connected") rfl).2⟩

/-! ## Parse failures while building -/

/-- C25 at the failing input: on the builder `s` made by `modify()` for the sample
collection, each of `set`, `change` and `arrayAppend` with the path `age` and the expression
text `test = "2` throws the parser's error and leaves a message that differs from the one
before the call: it holds one operation where there was none.  The same happens to the
builder made by `update()` for the sample table with `set('age', 'test = "2')`.  When it is
the path parser that throws, the message is left as it was. -/
theorem message_changed_by_failed_parse :
    (∃ s, Collection.modify Sample.parser Sample.collection1 "" = .ok s ∧
      s.m_update.operation = [] ∧
      (∃ s', Modify_Operation.set Sample.parser s "age" (.TExpression "test = \"2")
          = .thrown (.parser_error "Unterminated quoted string starting at 8") s' ∧
        s'.m_update ≠ s.m_update ∧ s'.m_update.operation.length = 1) ∧
      (∃ s', Modify_Operation.change Sample.parser s "age" (.TExpression "test = \"2")
          = .thrown (.parser_error "Unterminated quoted string starting at 8") s' ∧
        s'.m_update ≠ s.m_update ∧ s'.m_update.operation.length = 1) ∧
      (∃ s', Modify_Operation.arrayAppend Sample.parser s "age" (.TExpression "test = \"2")
          = .thrown (.parser_error "Unterminated quoted string starting at 8") s' ∧
        s'.m_update ≠ s.m_update ∧ s'.m_update.operation.length = 1) ∧
      Modify_Operation.set Sample.throwing s "age" (.TExpression "test = \"2")
        = .thrown (.parser_error "") s) ∧
    (Table.update Sample.table1).m_update.operation = [] ∧
    (∃ u', Update_Set.set_expression Sample.parser (Table.update Sample.table1) "age"
        "test = \"2"
        = .thrown (.parser_error "Unterminated quoted string starting at 8") u' ∧
      u'.m_update ≠ (Table.update Sample.table1).m_update ∧
      u'.m_update.operation.length = 1) :=
  ⟨⟨_, rfl, rfl, ⟨_, rfl, by decide, rfl⟩, ⟨_, rfl, by decide, rfl⟩, ⟨_, rfl, by decide, rfl⟩,
      rfl⟩,
    rfl, ⟨_, rfl, by decide, rfl⟩⟩

/-! ## Element 0 of the parsed path -/

/-- C26 at the failing input: with a path parser that returns without adding an item,
`set_operation` reads `items.Get(0)` of an empty list, for every builder, operation type,
path text and value; with a path parser that adds one item with an empty path, it reads
`target_path().Get(0)` of an empty list.  In both cases the operation has been added to the
message before the read, with its type and nothing else.  Nothing in `set_operation` looks
at the sizes. -/
theorem set_operation_reads_element_of_empty_list (s : Modify_Base)
    (type : Crud.UpdateOperation_UpdateType) (path : String) (value : Option DocumentValue) :
    Sample.no_items.parse_collection_column_list [] path = .returned [] ∧
    Modify_Operation.set_operation Sample.no_items s type path value
      = .thrown .out_of_range (s.add_operation { operation := some type }) ∧
    Sample.empty_path.parse_collection_column_list [] path
      = .returned [{ target_path := [] }] ∧
    Modify_Operation.set_operation Sample.empty_path s type path value
      = .thrown .out_of_range (s.add_operation { operation := some type }) ∧
    Modify_Operation.remove Sample.no_items (Modify_Base.mk_empty Sample.collection1) ""
      = .thrown .out_of_range
          ((Modify_Base.mk_empty Sample.collection1).add_operation
            { operation := some .ITEM_REMOVE }) :=
  ⟨rfl, rfl, rfl, rfl, rfl⟩

/-! ## Assignment of builders -/

/-- C27 at the failing input.  In seven of the eight families `operator =` takes over the
message of the source and keeps the collection or table of the target; only
Modify_Base::operator = takes over both, as every copy constructor does.  So after
assigning the builder made by `update()` for a table of session 2 to the builder made by
`update()` for the sample table of session 1, the target still holds the sample table, and
its `execute()` sends the source's message over session 1, where executing the source uses
session 2; the same holds for the builders made by `find('')` for two collections. -/
theorem assignment_keeps_handle_of_target (f f' : Find_Base) (a a' : Add_Base)
    (r r' : Remove_Base) (m m' : Modify_Base) (d d' : Delete_Base) (u u' : Update_Base)
    (s s' : Select_Base) (i i' : Insert_Base) :
    Find_Base.operator_eq f f' = { m_coll := f.m_coll, m_find := f'.m_find } ∧
    Add_Base.operator_eq a a' = { m_coll := a.m_coll, m_insert := a'.m_insert } ∧
    Remove_Base.operator_eq r r' = { m_coll := r.m_coll, m_delete := r'.m_delete } ∧
    Delete_Base.operator_eq d d' = { m_table := d.m_table, m_delete := d'.m_delete } ∧
    Update_Base.operator_eq u u' = { m_table := u.m_table, m_update := u'.m_update } ∧
    Select_Base.operator_eq s s' = { m_table := s.m_table, m_find := s'.m_find } ∧
    Insert_Base.operator_eq i i' = { m_table := i.m_table, m_insert := i'.m_insert } ∧
    Modify_Base.operator_eq m m' = m' ∧
    (Find_Base.copy f' = f' ∧ Add_Base.copy a' = a' ∧ Remove_Base.copy r' = r' ∧
      Modify_Base.copy m' = m' ∧ Delete_Base.copy d' = d' ∧ Update_Base.copy u' = u' ∧
      Select_Base.copy s' = s' ∧ Insert_Base.copy i' = i') ∧
    ((Update_Base.operator_eq (Table.update Sample.table1)
        (Table.update Sample.table2)).m_table = Sample.table1 ∧
      (Update_Base.operator_eq (Table.update Sample.table1)
        (Table.update Sample.table2)).m_table ≠ (Table.update Sample.table2).m_table ∧
      (Update_Base.execute Sample.generated Sample.one_session
        (Update_Base.operator_eq (Table.update Sample.table1)
          (Table.update Sample.table2))).events
        = [.execute_update 1 (Table.update Sample.table2).m_update, .wait { id := 3 }] ∧
      (Update_Base.execute Sample.generated Sample.one_session
        (Table.update Sample.table2)).events
        = [.execute_update 2 (Table.update Sample.table2).m_update] ∧
      (Update_Base.execute Sample.generated Sample.one_session
        (Update_Base.operator_eq (Table.update Sample.table1)
          (Table.update Sample.table2))).result = .ok { id := 3 } ∧
      (Update_Base.execute Sample.generated Sample.one_session
        (Table.update Sample.table2)).result = .error (.transport_error "not connected")) ∧
    (∃ target source, Collection.find Sample.parser Sample.collection1 "" = .ok target ∧
      Collection.find Sample.parser Sample.collection2 "" = .ok source ∧
      (Find_Base.operator_eq target source).m_coll = Sample.collection1 ∧
      source.m_coll = Sample.collection2 ∧
      (Find_Base.execute Sample.generated Sample.one_session
        (Find_Base.operator_eq target source)).events
        = [.execute_find 1 source.m_find, .wait { id := 1 }] ∧
      (Find_Base.execute Sample.generated Sample.one_session source).events
        = [.execute_find 2 source.m_find]) :=
  ⟨rfl, rfl, rfl, rfl, rfl, rfl, rfl, rfl, ⟨rfl, rfl, rfl, rfl, rfl, rfl, rfl, rfl⟩,
    ⟨rfl, by decide, rfl, rfl, rfl, rfl⟩, ⟨_, _, rfl, rfl, rfl, rfl, rfl, rfl⟩⟩

/-! ## The registry keeps what it gave out -/

theorem Registry_wf_new (self : shared_ptr Schema_members) (h : Heap) :
    Registry_wf (Schema.new self, h) := by
  refine ⟨?_, ?_, ?_, ?_⟩
  · intro n p hp
    simp [Schema.new, map_find] at hp
  · intro n p hp
    simp [Schema.new, map_find] at hp
  · intro n1 n2 p1 p2 hp
    simp [Schema.new, map_find] at hp
  · intro n1 n2 p1 p2 hp
    simp [Schema.new, map_find] at hp

theorem Schema_getTable_fresh (h : Heap) (sch : Schema) (n : String)
    (hq : map_find sch.m_tables n = none) :
    Schema.getTable h sch n
      = ({ addr := h.next, obj := { m_schema := sch.self, m_name := n } },
         { sch with
           m_tables := map_assign sch.m_tables n
             { addr := h.next, obj := { m_schema := sch.self, m_name := n } } },
         { next := h.next + 1 }) := by
  simp [Schema.getTable, hq]

theorem Schema_getCollection_fresh (h : Heap) (sch : Schema) (n : String)
    (hq : map_find sch.m_collections n = none) :
    Schema.getCollection h sch n
      = ({ addr := h.next, obj := { m_schema := sch.self, m_name := n } },
         { sch with
           m_collections := map_assign sch.m_collections n
             { addr := h.next, obj := { m_schema := sch.self, m_name := n } } },
         { next := h.next + 1 }) := by
  simp [Schema.getCollection, hq]

theorem Registry_wf_getTable (st : Schema × Heap) (n : String) (hwf : Registry_wf st) :
    Registry_wf (Schema.getTable st.2 st.1 n).2 := by
  obtain ⟨ht, hc, hti, hci⟩ := hwf
  cases hq : map_find st.1.m_tables n with
  | some q =>
    rw [Schema_getTable_cached _ _ _ _ hq]
    exact ⟨ht, hc, hti, hci⟩
  | none =>
    rw [Schema_getTable_fresh _ _ _ hq]
    have key : ∀ m p,
        map_find (map_assign st.1.m_tables n
          { addr := st.2.next, obj := { m_schema := st.1.self, m_name := n } }) m = some p →
        (m = n ∧ p = { addr := st.2.next, obj := { m_schema := st.1.self, m_name := n } }) ∨
        (m ≠ n ∧ map_find st.1.m_tables m = some p) := by
      intro m p hp
      by_cases hm : m = n
      · subst hm
        rw [map_find_assign_same] at hp
        exact Or.inl ⟨rfl, (Option.some.inj hp).symm⟩
      · rw [map_find_assign_other _ _ _ _ hm] at hp
        exact Or.inr ⟨hm, hp⟩
    refine ⟨?_, ?_, ?_, ?_⟩
    · intro m p hp
      rcases key m p hp with ⟨hm, rfl⟩ | ⟨_, hold⟩
      · exact ⟨Nat.lt_succ_self _, hm.symm⟩
      · exact ⟨Nat.lt_succ_of_lt (ht m p hold).1, (ht m p hold).2⟩
    · intro m p hp
      exact ⟨Nat.lt_succ_of_lt (hc m p hp).1, (hc m p hp).2⟩
    · intro n1 n2 p1 p2 h1 h2 ha
      rcases key n1 p1 h1 with ⟨hm1, rfl⟩ | ⟨_, hold1⟩
      · rcases key n2 p2 h2 with ⟨hm2, rfl⟩ | ⟨_, hold2⟩
        · rw [hm1, hm2]
        · have := (ht n2 p2 hold2).1
          simp only at ha
          omega
      · rcases key n2 p2 h2 with ⟨hm2, rfl⟩ | ⟨_, hold2⟩
        · have := (ht n1 p1 hold1).1
          simp only at ha
          omega
        · exact hti n1 n2 p1 p2 hold1 hold2 ha
    · exact hci

theorem Registry_wf_getCollection (st : Schema × Heap) (n : String) (hwf : Registry_wf st) :
    Registry_wf (Schema.getCollection st.2 st.1 n).2 := by
  obtain ⟨ht, hc, hti, hci⟩ := hwf
  cases hq : map_find st.1.m_collections n with
  | some q =>
    rw [Schema_getCollection_cached _ _ _ _ hq]
    exact ⟨ht, hc, hti, hci⟩
  | none =>
    rw [Schema_getCollection_fresh _ _ _ hq]
    have key : ∀ m p,
        map_find (map_assign st.1.m_collections n
          { addr := st.2.next, obj := { m_schema := st.1.self, m_name := n } }) m = some p →
        (m = n ∧ p = { addr := st.2.next, obj := { m_schema := st.1.self, m_name := n } }) ∨
        (m ≠ n ∧ map_find st.1.m_collections m = some p) := by
      intro m p hp
      by_cases hm : m = n
      · subst hm
        rw [map_find_assign_same] at hp
        exact Or.inl ⟨rfl, (Option.some.inj hp).symm⟩
      · rw [map_find_assign_other _ _ _ _ hm] at hp
        exact Or.inr ⟨hm, hp⟩
    refine ⟨?_, ?_, ?_, ?_⟩
    · intro m p hp
      exact ⟨Nat.lt_succ_of_lt (ht m p hp).1, (ht m p hp).2⟩
    · intro m p hp
      rcases key m p hp with ⟨hm, rfl⟩ | ⟨_, hold⟩
      · exact ⟨Nat.lt_succ_self _, hm.symm⟩
      · exact ⟨Nat.lt_succ_of_lt (hc m p hold).1, (hc m p hold).2⟩
    · exact hti
    · intro n1 n2 p1 p2 h1 h2 ha
      rcases key n1 p1 h1 with ⟨hm1, rfl⟩ | ⟨_, hold1⟩
      · rcases key n2 p2 h2 with ⟨hm2, rfl⟩ | ⟨_, hold2⟩
        · rw [hm1, hm2]
        · have := (hc n2 p2 hold2).1
          simp only at ha
          omega
      · rcases key n2 p2 h2 with ⟨hm2, rfl⟩ | ⟨_, hold2⟩
        · have := (hc n1 p1 hold1).1
          simp only at ha
          omega
        · exact hci n1 n2 p1 p2 hold1 hold2 ha

theorem Registry_wf_apply (st : Schema × Heap) (k : GetCall) (hwf : Registry_wf st) :
    Registry_wf (GetCall.apply st k) := by
  cases k with
  | getTable n => exact Registry_wf_getTable st n hwf
  | getCollection n => exact Registry_wf_getCollection st n hwf

theorem Registry_wf_run (calls : List GetCall) :
    ∀ st : Schema × Heap, Registry_wf st → Registry_wf (GetCall.run st calls) := by
  induction calls with
  | nil => intro st h; simpa [GetCall.run] using h
  | cons k rest ih =>
    intro st h
    simpa [GetCall.run] using ih (GetCall.apply st k) (Registry_wf_apply st k h)

theorem Schema_getTable_frame (h : Heap) (sch : Schema) (n : String) :
    (Schema.getTable h sch n).2.1.m_collections = sch.m_collections ∧
    ∀ m, m ≠ n → map_find (Schema.getTable h sch n).2.1.m_tables m = map_find sch.m_tables m := by
  cases hq : map_find sch.m_tables n with
  | some q =>
    rw [Schema_getTable_cached _ _ _ _ hq]
    exact ⟨rfl, fun _ _ => rfl⟩
  | none =>
    rw [Schema_getTable_fresh _ _ _ hq]
    exact ⟨rfl, fun m hm => map_find_assign_other _ _ _ _ hm⟩

theorem Schema_getCollection_frame (h : Heap) (sch : Schema) (n : String) :
    (Schema.getCollection h sch n).2.1.m_tables = sch.m_tables ∧
    ∀ m, m ≠ n →
      map_find (Schema.getCollection h sch n).2.1.m_collections m
        = map_find sch.m_collections m := by
  cases hq : map_find sch.m_collections n with
  | some q =>
    rw [Schema_getCollection_cached _ _ _ _ hq]
    exact ⟨rfl, fun _ _ => rfl⟩
  | none =>
    rw [Schema_getCollection_fresh _ _ _ hq]
    exact ⟨rfl, fun m hm => map_find_assign_other _ _ _ _ hm⟩

theorem Schema_getTable_distinct (st : Schema × Heap) (hwf : Registry_wf st) (n m : String)
    (hne : m ≠ n) (calls : List GetCall) :
    (Schema.getTable (GetCall.run (Schema.getTable st.2 st.1 n).2 calls).2
        (GetCall.run (Schema.getTable st.2 st.1 n).2 calls).1 m).1.addr
      ≠ (Schema.getTable st.2 st.1 n).1.addr := by
  have wf1 := Registry_wf_run calls _ (Registry_wf_getTable st n hwf)
  have kept := GetCall_run_keeps_table calls (Schema.getTable st.2 st.1 n).2 n _
    (Schema_getTable_caches st.2 st.1 n)
  cases hq : map_find (GetCall.run (Schema.getTable st.2 st.1 n).2 calls).1.m_tables m with
  | some q =>
    rw [Schema_getTable_cached _ _ _ _ hq]
    intro ha
    exact hne (wf1.2.2.1 m n q _ hq kept ha)
  | none =>
    rw [Schema_getTable_fresh _ _ _ hq]
    have := (wf1.1 n _ kept).1
    simp only
    omega

theorem Schema_getCollection_distinct (st : Schema × Heap) (hwf : Registry_wf st)
    (n m : String) (hne : m ≠ n) (calls : List GetCall) :
    (Schema.getCollection (GetCall.run (Schema.getCollection st.2 st.1 n).2 calls).2
        (GetCall.run (Schema.getCollection st.2 st.1 n).2 calls).1 m).1.addr
      ≠ (Schema.getCollection st.2 st.1 n).1.addr := by
  have wf1 := Registry_wf_run calls _ (Registry_wf_getCollection st n hwf)
  have kept := GetCall_run_keeps_collection calls (Schema.getCollection st.2 st.1 n).2 n _
    (Schema_getCollection_caches st.2 st.1 n)
  cases hq :
      map_find (GetCall.run (Schema.getCollection st.2 st.1 n).2 calls).1.m_collections m with
  | some q =>
    rw [Schema_getCollection_cached _ _ _ _ hq]
    intro ha
    exact hne (wf1.2.2.2 m n q _ hq kept ha)
  | none =>
    rw [Schema_getCollection_fresh _ _ _ hq]
    have := (wf1.2.1 n _ kept).1
    simp only
    omega

/-- C21: let `st` be the state of a Schema after its constructor and any sequence of
lookups.  Then getTable(n) leaves the collection cache as it was and the table entry of
every other name as it was, and getCollection(n) does the same with the roles exchanged;
a handle returned for a name `m` other than `n`, after the lookup of `n` and any further
lookups, has an address different from the handle returned for `n`, for tables and for
collections; and every entry of either cache is still there, with the same handle, after
any sequence of lookups, so that a lookup of its name returns that handle. -/
theorem cached_handles_stay (self : shared_ptr Schema_members) (h : Heap)
    (before calls : List GetCall) (st : Schema × Heap) (n m : String)
    (hst : st = GetCall.run (Schema.new self, h) before) :
    (Schema.getTable st.2 st.1 n).2.1.m_collections = st.1.m_collections ∧
    (m ≠ n → map_find (Schema.getTable st.2 st.1 n).2.1.m_tables m = map_find st.1.m_tables m) ∧
    (Schema.getCollection st.2 st.1 n).2.1.m_tables = st.1.m_tables ∧
    (m ≠ n →
      map_find (Schema.getCollection st.2 st.1 n).2.1.m_collections m
        = map_find st.1.m_collections m) ∧
    (m ≠ n →
      (Schema.getTable (GetCall.run (Schema.getTable st.2 st.1 n).2 calls).2
          (GetCall.run (Schema.getTable st.2 st.1 n).2 calls).1 m).1.addr
        ≠ (Schema.getTable st.2 st.1 n).1.addr) ∧
    (m ≠ n →
      (Schema.getCollection (GetCall.run (Schema.getCollection st.2 st.1 n).2 calls).2
          (GetCall.run (Schema.getCollection st.2 st.1 n).2 calls).1 m).1.addr
        ≠ (Schema.getCollection st.2 st.1 n).1.addr) ∧
    (∀ p, map_find st.1.m_tables n = some p →
      map_find (GetCall.run st calls).1.m_tables n = some p ∧
      (Schema.getTable (GetCall.run st calls).2 (GetCall.run st calls).1 n).1 = p) ∧
    (∀ p, map_find st.1.m_collections n = some p →
      map_find (GetCall.run st calls).1.m_collections n = some p ∧
      (Schema.getCollection (GetCall.run st calls).2 (GetCall.run st calls).1 n).1 = p) ∧
    (Schema.getTable (GetCall.run (Schema.getTable st.2 st.1 n).2 calls).2
        (GetCall.run (Schema.getTable st.2 st.1 n).2 calls).1 n).1
      = (Schema.getTable st.2 st.1 n).1 ∧
    (Schema.getCollection (GetCall.run (Schema.getCollection st.2 st.1 n).2 calls).2
        (GetCall.run (Schema.getCollection st.2 st.1 n).2 calls).1 n).1
      = (Schema.getCollection st.2 st.1 n).1 := by
  have hwf : Registry_wf st := by
    rw [hst]
    exact Registry_wf_run before _ (Registry_wf_new self h)
  refine ⟨(Schema_getTable_frame st.2 st.1 n).1, (Schema_getTable_frame st.2 st.1 n).2 m,
    (Schema_getCollection_frame st.2 st.1 n).1, (Schema_getCollection_frame st.2 st.1 n).2 m,
    fun hne => Schema_getTable_distinct st hwf n m hne calls,
    fun hne => Schema_getCollection_distinct st hwf n m hne calls, ?_, ?_, ?_, ?_⟩
  · intro p hp
    have kept := GetCall_run_keeps_table calls st n p hp
    refine ⟨kept, ?_⟩
    rw [Schema_getTable_cached _ _ _ _ kept]
  · intro p hp
    have kept := GetCall_run_keeps_collection calls st n p hp
    refine ⟨kept, ?_⟩
    rw [Schema_getCollection_cached _ _ _ _ kept]
  · have kept := GetCall_run_keeps_table calls (Schema.getTable st.2 st.1 n).2 n _
      (Schema_getTable_caches st.2 st.1 n)
    rw [Schema_getTable_cached _ _ _ _ kept]
  · have kept := GetCall_run_keeps_collection calls (Schema.getCollection st.2 st.1 n).2 n _
      (Schema_getCollection_caches st.2 st.1 n)
    rw [Schema_getCollection_cached _ _ _ _ kept]

/-- Witness of C21 on a Schema just constructed for the sample handle, after
getTable('t') and getCollection('c'): the handle of the table `t` has the address 101; a
lookup of the table `u` after getCollection('t') and getTable('t') returns a handle with
another address, 104; and the table `t` is still cached with its handle after those
lookups and the lookup of `u`. -/
theorem cached_handles_stay_witness :
    (Schema.getTable
        (GetCall.run (Schema.new Sample.schema, { next := 101 })
          [.getTable "t", .getCollection "c"]).2
        (GetCall.run (Schema.new Sample.schema, { next := 101 })
          [.getTable "t", .getCollection "c"]).1 "t").1.addr = 101 ∧
    (Schema.getTable
        (GetCall.run
          (Schema.getTable
            (GetCall.run (Schema.new Sample.schema, { next := 101 })
              [.getTable "t", .getCollection "c"]).2
            (GetCall.run (Schema.new Sample.schema, { next := 101 })
              [.getTable "t", .getCollection "c"]).1 "t").2
          [.getCollection "t", .getTable "t"]).2
        (GetCall.run
          (Schema.getTable
            (GetCall.run (Schema.new Sample.schema, { next := 101 })
              [.getTable "t", .getCollection "c"]).2
            (GetCall.run (Schema.new Sample.schema, { next := 101 })
              [.getTable "t", .getCollection "c"]).1 "t").2
          [.getCollection "t", .getTable "t"]).1 "u").1.addr = 104 ∧
    (Schema.getTable
        (GetCall.run
          (Schema.getTable
            (GetCall.run (Schema.new Sample.schema, { next := 101 })
              [.getTable "t", .getCollection "c"]).2
            (GetCall.run (Schema.new Sample.schema, { next := 101 })
              [.getTable "t", .getCollection "c"]).1 "t").2
          [.getCollection "t", .getTable "t"]).2
        (GetCall.run
          (Schema.getTable
            (GetCall.run (Schema.new Sample.schema, { next := 101 })
              [.getTable "t", .getCollection "c"]).2
            (GetCall.run (Schema.new Sample.schema, { next := 101 })
              [.getTable "t", .getCollection "c"]).1 "t").2
          [.getCollection "t", .getTable "t"]).1 "u").1.addr
      ≠ (Schema.getTable
          (GetCall.run (Schema.new Sample.schema, { next := 101 })
            [.getTable "t", .getCollection "c"]).2
          (GetCall.run (Schema.new Sample.schema, { next := 101 })
            [.getTable "t", .getCollection "c"]).1 "t").1.addr :=
  ⟨rfl, rfl,
    (cached_handles_stay Sample.schema { next := 101 } [.getTable "t", .getCollection "c"]
      [.getCollection "t", .getTable "t"] _ "t" "u" rfl).2.2.2.2.1 (by decide)⟩

end mysqlx

namespace shcore

/-! ## The array that `readlink` fills -/

theorem takeWhile_terminated (text rest : List Char) (h : ∀ c ∈ text, c ≠ NUL) :
    (text ++ NUL :: rest).takeWhile (fun c => c != NUL) = text := by
  induction text with
  | nil => simp [List.takeWhile]
  | cons c cs ih =>
    have hc : c ≠ NUL := h c (List.mem_cons_self c cs)
    have ih' := ih (fun x hx => h x (List.mem_cons_of_mem c hx))
    have hb : (c != NUL) = true := by simpa using hc
    simp [List.takeWhile, hb, ih']

theorem assign_c_str_terminated (text rest : List Char) (h : ∀ c ∈ text, c ≠ NUL) :
    assign_c_str (text ++ NUL :: rest) = some (String.mk text) := by
  simp [assign_c_str, takeWhile_terminated text rest h]

theorem readlink_fits (text path : List Char) (hlen : text.length ≤ path.length) :
    readlink (some text) path path.length = text ++ path.drop text.length := by
  simp [readlink, List.take_of_length_le hlen, Nat.min_eq_left hlen]

theorem get_mysqlx_home_path_to_terminator (text stale path rest : List Char)
    (hno : ∀ c ∈ text ++ stale, c ≠ NUL) (hlen : text.length ≤ path.length)
    (hz : path.drop text.length = stale ++ NUL :: rest) :
    get_mysqlx_home_path none (some text) path
      = home_of_exe_path (String.mk (text ++ stale)) := by
  have h := assign_c_str_terminated (text ++ stale) rest hno
  rw [List.append_assoc] at h
  simp only [get_mysqlx_home_path, readlink_fits text path hlen, hz, h]

theorem get_mysqlx_home_path_unterminated (text path : List Char)
    (hno : ∀ c ∈ text, c ≠ NUL) (hlen : text.length ≤ path.length)
    (hp : ∀ c ∈ path, c ≠ NUL) :
    get_mysqlx_home_path none (some text) path = .error .read_past_array := by
  have hnot : (text ++ path.drop text.length).contains NUL = false := by
    cases hc : (text ++ path.drop text.length).contains NUL with
    | false => rfl
    | true =>
      have hm : NUL ∈ text ++ path.drop text.length := by simpa using hc
      rcases List.mem_append.1 hm with h1 | h2
      · exact absurd rfl (hno NUL h1)
      · exact absurd rfl (hp NUL (List.mem_of_mem_drop h2))
  simp only [get_mysqlx_home_path, readlink_fits text path hlen, assign_c_str, hnot]
  rfl

/-- C20 at the failing input: MYSQLX_HOME is not set, the executable is /home/bin/mysqlx,
and the array `path`, which is not initialised, holds behind the 16 bytes that readlink
overwrites the bytes `/lib` and a terminator, left there by earlier use; `rest` is whatever
follows.  readlink writes no terminator, so `exe_path` becomes /home/bin/mysqlx/lib, the
parent folder is taken to be mysqlx, and the result is the empty string, not /home.  When
a terminator happens to stand right behind the text, the result is /home; when the array
holds no terminator at all, the read runs past its end. -/
theorem home_path_reads_stale_bytes (rest : List Char) :
    readlink (some "/home/bin/mysqlx".data)
        (List.replicate 16 'x' ++ ("/lib".data ++ NUL :: rest))
        (List.replicate 16 'x' ++ ("/lib".data ++ NUL :: rest)).length
      = "/home/bin/mysqlx/lib".data ++ NUL :: rest ∧
    get_mysqlx_home_path none (some "/home/bin/mysqlx".data)
        (List.replicate 16 'x' ++ ("/lib".data ++ NUL :: rest)) = .ok "" ∧
    get_mysqlx_home_path none (some "/home/bin/mysqlx".data)
        (List.replicate 16 'x' ++ ("/lib".data ++ NUL :: rest)) ≠ .ok "/home" ∧
    get_mysqlx_home_path none (some "/home/bin/mysqlx".data)
        (List.replicate 16 'x' ++ NUL :: rest) = .ok "/home" ∧
    get_mysqlx_home_path none (some "/home/bin/mysqlx".data) (List.replicate 4096 'x')
      = .error .read_past_array := by
  have hlen : ∀ l : List Char,
      "/home/bin/mysqlx".data.length ≤ (List.replicate 16 'x' ++ l).length := by
    intro l
    simp [List.length_append]
  have hdrop : ∀ l : List Char,
      (List.replicate 16 'x' ++ l).drop "/home/bin/mysqlx".data.length = l := by
    intro l
    have h16 : "/home/bin/mysqlx".data.length = (List.replicate 16 'x').length := by decide
    rw [h16, List.drop_left]
  have hbad : get_mysqlx_home_path none (some "/home/bin/mysqlx".data)
      (List.replicate 16 'x' ++ ("/lib".data ++ NUL :: rest)) = .ok "" := by
    rw [get_mysqlx_home_path_to_terminator _ "/lib".data _ rest (by decide) (hlen _) (hdrop _)]
    rfl
  refine ⟨?_, hbad, ?_, ?_, ?_⟩
  · rw [readlink_fits _ _ (hlen _), hdrop]
    rfl
  · rw [hbad]
    intro h
    injection h with h'
    revert h'
    decide
  · have h := get_mysqlx_home_path_to_terminator "/home/bin/mysqlx".data []
      (List.replicate 16 'x' ++ NUL :: rest) rest (by decide) (hlen _) (hdrop _)
    rw [h]
    rfl
  · refine get_mysqlx_home_path_unterminated _ _ (by decide)
      (by rw [List.length_replicate]; decide) ?_
    intro c hc
    rw [List.eq_of_mem_replicate hc]
    decide

end shcore
